import Mathlib

/-
  Verification development for the grey-backend-assessment payment engine.

  The Go source is shallowly embedded: every definition below mirrors a
  function or type of the repository (file and symbol named in its doc
  comment).  Machine integers (int64) are modelled as ℤ — none of the
  verified properties involve wrap-around, and all amounts in scope stay
  far below 2^63.  The shopspring decimal type is modelled exactly as an
  integer coefficient with a decimal scale (value = num · 10^(-scale)),
  which is the representation the Go library uses.  SQL tables are lists
  of rows; a transaction is the functional state it would commit, and an
  error return models a rollback (no state survives).
-/

namespace Grey

/-- Currencies are strings in the source (`type Currency string`, internal/domain). -/
abbrev Currency := String

/-- Constant from internal/domain: CurrencyUSD. -/
def CurrencyUSD : Currency := "USD"

/-- Constant from internal/domain: CurrencyEUR. -/
def CurrencyEUR : Currency := "EUR"

/-- Constant from internal/domain: CurrencyGBP. -/
def CurrencyGBP : Currency := "GBP"

/-- Modelled from the spec: `Currency.IsValid` is called throughout the source
(fx service, handlers, account service) but its body is not among the provided
files.  Spec §3: "Currency. A closed enumeration USD, EUR, GBP". -/
def Currency.IsValid (c : Currency) : Bool :=
  c = CurrencyUSD || c = CurrencyEUR || c = CurrencyGBP

/-- Account types are strings in the source (`type AccountType string`). -/
abbrev AccountType := String

/-- Constant from internal/domain: AccountTypeUser. -/
def AccountTypeUser : AccountType := "user"

/-- Constant from internal/domain: AccountTypeFXPool. -/
def AccountTypeFXPool : AccountType := "fx_pool"

/-- Constant from internal/domain: AccountTypeOutgoing. -/
def AccountTypeOutgoing : AccountType := "outgoing"

/-- Account statuses are strings in the source (`type AccountStatus string`). -/
abbrev AccountStatus := String

/-- Constant from internal/domain: AccountStatusPending. -/
def AccountStatusPending : AccountStatus := "pending"

/-- Constant from internal/domain: AccountStatusActive. -/
def AccountStatusActive : AccountStatus := "active"

/-- Constant from internal/domain: AccountStatusFrozen. -/
def AccountStatusFrozen : AccountStatus := "frozen"

/-- Constant from internal/domain: AccountStatusClosed. -/
def AccountStatusClosed : AccountStatus := "closed"

/-- Payment types are strings in the source (`type PaymentType string`). -/
abbrev PaymentType := String

/-- Constant from internal/domain: PaymentTypeInternalTransfer. -/
def PaymentTypeInternalTransfer : PaymentType := "internal_transfer"

/-- Constant from internal/domain: PaymentTypeExternalPayout. -/
def PaymentTypeExternalPayout : PaymentType := "external_payout"

/-- Payment statuses are strings in the source (`type PaymentStatus string`). -/
abbrev PaymentStatus := String

/-- Constant from internal/domain: PaymentStatusPending. -/
def PaymentStatusPending : PaymentStatus := "pending"

/-- Constant from internal/domain: PaymentStatusProcessing. -/
def PaymentStatusProcessing : PaymentStatus := "processing"

/-- Constant from internal/domain: PaymentStatusCompleted. -/
def PaymentStatusCompleted : PaymentStatus := "completed"

/-- Constant from internal/domain: PaymentStatusFailed. -/
def PaymentStatusFailed : PaymentStatus := "failed"

/-- Constant from internal/domain: PaymentStatusReversed. -/
def PaymentStatusReversed : PaymentStatus := "reversed"

/-- Ledger entry sides are strings in the source (`type EntryType string`). -/
abbrev EntryType := String

/-- Constant from internal/domain: EntryTypeDebit. -/
def EntryTypeDebit : EntryType := "debit"

/-- Constant from internal/domain: EntryTypeCredit. -/
def EntryTypeCredit : EntryType := "credit"

/-- Payment event kinds are strings in the source (`type PaymentEventType string`). -/
abbrev PaymentEventType := String

/-- Constant from internal/domain: PaymentEventTypeCreated. -/
def PaymentEventTypeCreated : PaymentEventType := "created"

/-- Constant from internal/domain: PaymentEventTypeCompleted. -/
def PaymentEventTypeCompleted : PaymentEventType := "completed"

/-- Constant from internal/domain: PaymentEventTypeFailed. -/
def PaymentEventTypeFailed : PaymentEventType := "failed"

/-- Webhook event statuses are strings in the source (`type WebhookEventStatus string`). -/
abbrev WebhookEventStatus := String

/-- Constant from internal/domain: WebhookEventStatusPending. -/
def WebhookEventStatusPending : WebhookEventStatus := "pending"

/-- Constant from internal/domain: WebhookEventStatusDispatched. -/
def WebhookEventStatusDispatched : WebhookEventStatus := "dispatched"

/-- Constant from internal/domain: WebhookEventStatusFailed. -/
def WebhookEventStatusFailed : WebhookEventStatus := "failed"

/-- Sentinel errors of internal/domain/errors.go, plus `dbError code` for a raw
database error (pq error code string) that is merely wrapped by the Go code and
matches no sentinel under `errors.Is`. -/
inductive DomainError where
  | notFound
  | insufficientFunds
  | accountFrozen
  | duplicatePayment
  | selfTransfer
  | invalidCurrency
  | invalidAmount
  | recipientNotFound
  | accountNotFound
  | limitExceeded
  | accountExists
  | accountClosed
  | currencyMismatch
  | versionConflict
  | invalidRequest
  | paymentTerminal
  | duplicateIdempotencyKey
  | dbError (code : String)
  deriving DecidableEq, Repr

/-
  Decimal arithmetic (github.com/shopspring/decimal as used by internal/fx).
  A decimal is an integer coefficient `num` with a scale: value = num · 10^(-scale).
  Multiplication adds scales; subtraction aligns scales; both are exact, as in
  the Go library.  `decimal.NewFromFloat` yields the shortest decimal that
  round-trips the float64, so NewFromFloat(0.92) is exactly 92·10^(-2), etc.
-/

-- Decidable equality for Except results, to evaluate runs on concrete inputs.
deriving instance DecidableEq for Except

/-- Decimal number: `num` coefficient at `scale` fractional digits. -/
structure Dec where
  num : ℤ
  scale : ℕ
  deriving DecidableEq, Repr

namespace Dec

/-- decimal.NewFromInt. -/
def fromInt (n : ℤ) : Dec := ⟨n, 0⟩

/-- decimal.Zero. -/
def zero : Dec := ⟨0, 0⟩

/-- decimal.NewFromInt(1). -/
def one : Dec := ⟨1, 0⟩

/-- decimal.Decimal.Mul: exact product (coefficients multiply, scales add). -/
def mul (a b : Dec) : Dec := ⟨a.num * b.num, a.scale + b.scale⟩

/-- decimal.Decimal.Sub: exact difference after aligning to the larger scale. -/
def sub (a b : Dec) : Dec :=
  let s := max a.scale b.scale
  ⟨a.num * (10 : ℤ) ^ (s - a.scale) - b.num * (10 : ℤ) ^ (s - b.scale), s⟩

/-- decimal.Decimal.Round(0): round to integer minor units, half away from zero
(the shopspring rounding mode).  Divisions are only taken on non-negative
operands, where every integer-division convention agrees with floor. -/
def roundHalfAway (d : Dec) : ℤ :=
  if d.scale = 0 then d.num
  else
    let p : ℤ := (10 : ℤ) ^ d.scale
    if 0 ≤ d.num then (d.num + p / 2) / p
    else -((-d.num + p / 2) / p)

/-- decimal.Decimal.Round(0) as a decimal of scale 0. -/
def round0 (d : Dec) : Dec := ⟨d.roundHalfAway, 0⟩

/-- decimal.Decimal.IntPart: truncation toward zero. -/
def intPart (d : Dec) : ℤ :=
  if 0 ≤ d.num then d.num / (10 : ℤ) ^ d.scale
  else -(-d.num / (10 : ℤ) ^ d.scale)

/-- Rational value denoted by a decimal (used only to state spec-level formulas). -/
def toRat (d : Dec) : ℚ := (d.num : ℚ) / (10 : ℚ) ^ d.scale

end Dec

/-- Rounding to an integer, half away from zero, stated over exact rationals:
this is the spec formula `round_half_away_from_zero` of §4.A. -/
def roundHalfAwayFromZero (q : ℚ) : ℤ :=
  if q < 0 then -⌊-q + 1 / 2⌋ else ⌊q + 1 / 2⌋

/-
  internal/fx/service.go
-/

/-- fx.Quote (internal/fx/service.go). -/
structure Quote where
  FromCurrency : Currency
  ToCurrency : Currency
  MidMarketRate : Dec
  EffectiveRate : Dec
  SpreadPct : Dec
  deriving DecidableEq, Repr

/-- fx.Conversion (internal/fx/service.go). -/
structure Conversion where
  SourceAmount : ℤ
  DestAmount : ℤ
  FeeAmount : ℤ
  ExchangeRate : Dec
  MidMarketRate : Dec
  deriving DecidableEq, Repr

/-- fx.RateService (internal/fx/service.go): the static rate table is carried
by every instance; only the spread varies (NewRateService). -/
structure RateService where
  spreadPct : Dec
  deriving DecidableEq, Repr

/-- Static mid-market rate map of fx.NewRateService.  The decimal literals are
the exact values decimal.NewFromFloat produces for the float constants in the
source (shortest round-tripping decimals). -/
def rates : List (String × Dec) :=
  [("USD_EUR", ⟨92, 2⟩), ("EUR_USD", ⟨1087, 3⟩),
   ("USD_GBP", ⟨79, 2⟩), ("GBP_USD", ⟨1266, 3⟩),
   ("EUR_GBP", ⟨858, 3⟩), ("GBP_EUR", ⟨1166, 3⟩)]

/-- fx.pairKey. -/
def pairKey (fromC toC : Currency) : String := fromC ++ "_" ++ toC

/-- fx.RateService.GetRate (internal/fx/service.go lines 50-79). -/
def GetRate (s : RateService) (fromC toC : Currency) : Except DomainError Quote :=
  if ¬(fromC.IsValid && toC.IsValid) then .error .invalidCurrency
  else if fromC = toC then
    .ok ⟨fromC, toC, Dec.one, Dec.one, Dec.zero⟩
  else
    match (rates.lookup (pairKey fromC toC)) with
    | none => .error .invalidCurrency
    | some mid =>
        .ok ⟨fromC, toC, mid, mid.mul (Dec.one.sub s.spreadPct), s.spreadPct⟩

/-- fx.RateService.Convert (internal/fx/service.go lines 81-122). -/
def Convert (s : RateService) (amount : ℤ) (fromC toC : Currency) :
    Except DomainError Conversion :=
  if amount ≤ 0 then .error .invalidAmount
  else
    match GetRate s fromC toC with
    | .error e => .error e
    | .ok quote =>
        if fromC = toC then
          .ok ⟨amount, amount, 0, quote.EffectiveRate, quote.MidMarketRate⟩
        else
          let src := Dec.fromInt amount
          let destRaw := (src.mul quote.EffectiveRate).round0
          let destAmount0 := destRaw.intPart
          let destAmount := if destAmount0 < 1 then 1 else destAmount0
          let midRounded := ((src.mul quote.MidMarketRate).round0).intPart
          let fee0 := midRounded - destAmount
          let fee := if fee0 < 0 then 0 else fee0
          .ok ⟨amount, destAmount, fee, quote.EffectiveRate, quote.MidMarketRate⟩

/-
  internal/domain: records.  `uuid.UUID` values are modelled as strings
  (their canonical textual form, which is what the Go code sorts and
  compares); `time.Time` as an integer timestamp.  Ledger entry and
  payment event ids are produced by `uuid.New()` in the source and are
  never inspected by any property, so they are modelled as "".
-/

/-- domain.User (src/unnamed/part_004). -/
structure User where
  ID : String
  Email : String
  Name : String
  UniqueName : Option String
  Status : String
  CreatedAt : ℤ
  deriving DecidableEq, Repr

/-- domain.Account (internal/domain). -/
structure Account where
  ID : String
  UserID : String
  Currency : Currency
  AccountType : AccountType
  Balance : ℤ
  Version : ℤ
  AccountNumber : Option String
  RoutingNumber : Option String
  IBAN : Option String
  SwiftBIC : Option String
  Provider : Option String
  ProviderRef : Option String
  Status : AccountStatus
  CreatedAt : ℤ
  deriving DecidableEq, Repr

/-- domain.Payment (src/unnamed/part_005).  `Metadata` (an opaque JSON blob,
never produced by the verified operations) is modelled as an optional string. -/
structure Payment where
  ID : String
  IdempotencyKey : String
  Type' : PaymentType
  Status : PaymentStatus
  SourceAccountID : String
  DestAccountID : Option String
  DestAccountNumber : Option String
  DestIBAN : Option String
  DestSwiftBIC : Option String
  DestBankName : Option String
  SourceAmount : ℤ
  SourceCurrency : Currency
  DestAmount : ℤ
  DestCurrency : Currency
  ExchangeRate : Option Dec
  FeeAmount : ℤ
  FeeCurrency : Option Currency
  Provider : Option String
  ProviderRef : Option String
  FailureReason : Option String
  Metadata : Option String
  CreatedAt : ℤ
  UpdatedAt : ℤ
  CompletedAt : Option ℤ
  deriving DecidableEq, Repr

/-- domain.LedgerEntry (internal/domain/ledger.go). -/
structure LedgerEntry where
  ID : String
  PaymentID : String
  AccountID : String
  EntryType : EntryType
  Amount : ℤ
  Currency : Currency
  BalanceBefore : ℤ
  BalanceAfter : ℤ
  CreatedAt : ℤ
  deriving DecidableEq, Repr

/-- domain.PaymentEvent (src/unnamed/part_005).  The JSON payload is modelled
by its one field of interest: `handleFailed` marshals the map containing the
failure reason, recorded here as `some reason`. -/
structure PaymentEvent where
  ID : String
  PaymentID : String
  EventType : PaymentEventType
  Actor : String
  Payload : Option String
  CreatedAt : ℤ
  deriving DecidableEq, Repr

/-- service.webhookCallbackPayload (internal/service/webhook_processor.go):
the decoded form of a webhook payload. -/
structure CallbackPayload where
  EventID : String
  PaymentID : String
  Status : String
  ProviderRef : String
  Reason : String
  deriving DecidableEq, Repr

/-- domain.WebhookEvent (internal/domain/webhook_event.go).  The raw JSON
payload (`json.RawMessage`) is modelled by its decode result: `none` stands
for bytes that `json.Unmarshal` rejects, `some p` for bytes decoding to `p`. -/
structure WebhookEvent where
  ID : String
  IdempotencyKey : String
  EventType : String
  Payload : Option CallbackPayload
  Status : WebhookEventStatus
  Attempts : ℤ
  LastAttempt : Option ℤ
  CreatedAt : ℤ
  deriving DecidableEq, Repr

/-- repository.IdempotencyCacheEntry (src/unnamed/part_001). -/
structure IdempotencyCacheEntry where
  Key : String
  UserID : String
  RequestHash : String
  StatusCode : ℤ
  ResponseBody : String
  CreatedAt : ℤ
  ExpiresAt : ℤ
  deriving DecidableEq, Repr

/-- handler.AppError (internal/handler/apperror.go). -/
structure AppError where
  Status : ℤ
  Code : String
  Message : String
  deriving DecidableEq, Repr

/-- Constant from internal/handler/apperror.go. -/
def ErrMissingToken : AppError := ⟨401, "MISSING_TOKEN", "Authorization header required"⟩

/-- Constant from internal/handler/apperror.go. -/
def ErrInvalidRequest : AppError := ⟨400, "INVALID_REQUEST", "Invalid request body"⟩

/-- Constant from internal/handler/apperror.go. -/
def ErrValidationFailed : AppError := ⟨400, "VALIDATION_FAILED", "Validation failed"⟩

/-- Constant from internal/handler/apperror.go. -/
def ErrResourceNotFound : AppError := ⟨404, "RESOURCE_NOT_FOUND", "Resource not found"⟩

/-- Constant from internal/handler/apperror.go. -/
def ErrInternalError : AppError := ⟨500, "INTERNAL_ERROR", "An unexpected error occurred"⟩

/-- Constant from internal/handler/apperror.go. -/
def ErrInsufficientFundsApp : AppError := ⟨422, "INSUFFICIENT_FUNDS", "Insufficient funds"⟩

/-- Constant from internal/handler/apperror.go. -/
def ErrAccountFrozenApp : AppError := ⟨422, "ACCOUNT_FROZEN", "Account is frozen"⟩

/-- Constant from internal/handler/apperror.go. -/
def ErrDuplicatePaymentApp : AppError := ⟨409, "DUPLICATE_PAYMENT", "Duplicate payment"⟩

/-- Constant from internal/handler/apperror.go. -/
def ErrSelfTransferApp : AppError := ⟨422, "SELF_TRANSFER_NOT_ALLOWED", "Cannot transfer to the same account"⟩

/-- Constant from internal/handler/apperror.go. -/
def ErrLimitExceededApp : AppError := ⟨422, "TRANSACTION_LIMIT_EXCEEDED", "Transaction limit exceeded"⟩

/-- Constant from internal/handler/apperror.go. -/
def ErrRecipientNotFoundApp : AppError := ⟨422, "RECIPIENT_NOT_FOUND", "Recipient not found"⟩

/-- Constant from internal/handler/apperror.go. -/
def ErrAccountNotFoundApp : AppError := ⟨422, "ACCOUNT_NOT_FOUND", "Account not found"⟩

/-- Constant from internal/handler/apperror.go. -/
def ErrAccountExistsApp : AppError := ⟨409, "ACCOUNT_ALREADY_EXISTS", "Account already exists for this currency"⟩

/-- Constant from internal/handler/apperror.go. -/
def ErrInvalidCurrencyApp : AppError := ⟨400, "INVALID_CURRENCY", "Invalid currency"⟩

/-- Constant from internal/handler/apperror.go. -/
def ErrAccountClosedApp : AppError := ⟨422, "ACCOUNT_CLOSED", "Account is closed"⟩

/-- Constant from internal/handler/apperror.go. -/
def ErrCurrencyMismatchApp : AppError := ⟨422, "CURRENCY_MISMATCH", "Currency mismatch"⟩

/-- Constant from internal/handler/apperror.go. -/
def ErrVersionConflictApp : AppError := ⟨409, "VERSION_CONFLICT", "Resource was modified concurrently, please retry"⟩

/-- Constant from internal/handler/apperror.go. -/
def ErrMissingIdempotencyKey : AppError := ⟨400, "MISSING_IDEMPOTENCY_KEY", "Idempotency-Key header is required"⟩

/-- Constant from internal/handler/apperror.go. -/
def ErrIdempotencyConflict : AppError := ⟨409, "IDEMPOTENCY_CONFLICT", "Idempotency key already used with a different request"⟩

/-- Constant from internal/handler/apperror.go. -/
def ErrInvalidAmountApp : AppError := ⟨400, "INVALID_AMOUNT", "Amount must be greater than zero"⟩

/-- Constant from internal/handler/webhook.go: ErrInvalidSignature. -/
def ErrInvalidSignature : AppError := ⟨401, "INVALID_SIGNATURE", "Webhook signature is invalid"⟩

/-- handler.RespondDomainError (src/unnamed/part_013 lines 337-377): the
`errors.Is` chain mapping a domain sentinel to its AppError; any other error —
including a merely-wrapped database error — falls to INTERNAL_ERROR. -/
def RespondDomainError : DomainError → AppError
  | .notFound => ErrResourceNotFound
  | .insufficientFunds => ErrInsufficientFundsApp
  | .accountFrozen => ErrAccountFrozenApp
  | .duplicatePayment => ErrDuplicatePaymentApp
  | .selfTransfer => ErrSelfTransferApp
  | .limitExceeded => ErrLimitExceededApp
  | .recipientNotFound => ErrRecipientNotFoundApp
  | .accountNotFound => ErrAccountNotFoundApp
  | .accountExists => ErrAccountExistsApp
  | .invalidCurrency => ErrInvalidCurrencyApp
  | .accountClosed => ErrAccountClosedApp
  | .currencyMismatch => ErrCurrencyMismatchApp
  | .versionConflict => ErrVersionConflictApp
  | .invalidAmount => ErrInvalidAmountApp
  | .invalidRequest => ErrInvalidRequest
  | _ => ErrInternalError

/-
  Repository layer.  Each SQL table is the list of its rows; statements are
  functions on that list.  The pq error codes that the Go code pattern-matches
  (23505 unique violation, 23514 check violation) are raised as
  `dbError code`.
-/

/-- Row lookup by account id (`WHERE id = $1`). -/
def findAccount (accounts : List Account) (id : String) : Option Account :=
  accounts.find? (fun a => a.ID == id)

namespace AccountRepository

/-- repository.AccountRepository.GetForUpdate (internal/repository/db.go):
row-level lock and read; a missing row is NOT_FOUND. -/
def GetForUpdate (accounts : List Account) (id : String) : Except DomainError Account :=
  match findAccount accounts id with
  | none => .error .notFound
  | some a => .ok a

/-- repository.AccountRepository.GetByUserAndCurrency (internal/repository/db.go). -/
def GetByUserAndCurrency (accounts : List Account) (userID : String) (currency : Currency)
    (accountType : AccountType) : Except DomainError Account :=
  match accounts.find? (fun a =>
      a.UserID == userID && a.Currency == currency && a.AccountType == accountType) with
  | none => .error .notFound
  | some a => .ok a

/-- Row update performed by UpdateBalance on the rows matching
(id, version = newVersion − 1). -/
def applyBalanceUpdate (id : String) (newBalance newVersion : ℤ) (a : Account) : Account :=
  if a.ID == id && a.Version == newVersion - 1 then
    { a with Balance := newBalance, Version := newVersion }
  else a

/-- repository.AccountRepository.UpdateBalance (internal/repository/db.go
lines 142-159): `UPDATE accounts SET balance = $1, version = $2 WHERE id = $3
AND version = $4` with $4 = newVersion − 1; zero rows affected is
VERSION_CONFLICT.  The store constraint `chk_accounts_balance CHECK
(balance >= 0)` (migrations/000002) aborts the statement with pq code 23514
when the new balance is negative; the Go code only wraps that error. -/
def UpdateBalance (accounts : List Account) (id : String) (newBalance newVersion : ℤ) :
    Except DomainError (List Account) :=
  if accounts.any (fun a => a.ID == id && a.Version == newVersion - 1) then
    if newBalance < 0 then .error (.dbError "23514")
    else .ok (accounts.map (applyBalanceUpdate id newBalance newVersion))
  else .error .versionConflict

end AccountRepository

namespace UserRepository

/-- repository.UserRepository.GetByUniqueName (src/unnamed/part_003):
`WHERE unique_name = $1`. -/
def GetByUniqueName (users : List User) (uniqueName : String) : Except DomainError User :=
  match users.find? (fun u => u.UniqueName == some uniqueName) with
  | none => .error .notFound
  | some u => .ok u

end UserRepository

namespace PaymentRepository

/-- repository.PaymentRepository.Create (internal/repository/payment.go).
Modelled from the spec for the duplicate case: payments carry a unique index
on idempotency_key and §4.C states "the unique index on idempotency_key turns
a duplicate insertion into DUPLICATE_IDEMPOTENCY_KEY"; the mapping of pq 23505
to that sentinel is not among the provided files. -/
def Create (payments : List Payment) (p : Payment) : Except DomainError (List Payment) :=
  if payments.any (fun q => q.IdempotencyKey == p.IdempotencyKey) then
    .error .duplicateIdempotencyKey
  else .ok (payments ++ [p])

/-- repository.PaymentRepository.GetByID (internal/repository/payment.go). -/
def GetByID (payments : List Payment) (id : String) : Except DomainError Payment :=
  match payments.find? (fun p => p.ID == id) with
  | none => .error .notFound
  | some p => .ok p

/-- repository.PaymentRepository.GetByIdempotencyKey (internal/repository/payment.go). -/
def GetByIdempotencyKey (payments : List Payment) (key : String) : Except DomainError Payment :=
  match payments.find? (fun p => p.IdempotencyKey == key) with
  | none => .error .notFound
  | some p => .ok p

/-- Modelled from the spec: the seven-argument
`PaymentRepository.UpdateStatus(tx, id, status, providerRef, failureReason,
completedAt)` that the webhook processor interface requires (and that the
integration tests exercise) is not among the provided files — the copy in
internal/repository/payment.go lacks the providerRef parameter.  Spec §4.C/§4.H:
the update sets the status, sets provider_ref when provided, and writes
failure_reason, completed_at and updated_at; zero rows affected is NOT_FOUND. -/
def UpdateStatus (payments : List Payment) (id : String) (status : PaymentStatus)
    (providerRef failureReason : Option String) (completedAt : Option ℤ) (now : ℤ) :
    Except DomainError (List Payment) :=
  if payments.any (fun p => p.ID == id) then
    .ok (payments.map (fun p =>
      if p.ID == id then
        { p with
            Status := status,
            ProviderRef := (match providerRef with | some r => some r | none => p.ProviderRef),
            FailureReason := failureReason,
            CompletedAt := completedAt,
            UpdatedAt := now }
      else p))
  else .error .notFound

end PaymentRepository

namespace WebhookEventRepository

/-- repository.WebhookEventRepository.Create (internal/repository,
src file with webhook event repository): plain INSERT; the unique index
idx_webhook_events_idempotency_key (migrations/000006) turns a duplicate
event id into pq unique violation 23505, which the Go code only wraps. -/
def Create (webhooks : List WebhookEvent) (e : WebhookEvent) :
    Except DomainError (List WebhookEvent) :=
  if webhooks.any (fun w => w.IdempotencyKey == e.IdempotencyKey) then
    .error (.dbError "23505")
  else .ok (webhooks ++ [e])

/-- Stable insertion of a webhook event into a list sorted by creation time
(helper for GetPending's ORDER BY created_at). -/
def insertByCreatedAt (e : WebhookEvent) : List WebhookEvent → List WebhookEvent
  | [] => [e]
  | x :: xs => if e.CreatedAt < x.CreatedAt then e :: x :: xs else x :: insertByCreatedAt e xs

/-- Sort webhook events by creation time (helper for GetPending). -/
def sortByCreatedAt : List WebhookEvent → List WebhookEvent
  | [] => []
  | x :: xs => insertByCreatedAt x (sortByCreatedAt xs)

/-- repository.WebhookEventRepository.GetPending (internal/repository/payment_event.go
lines 106-130): `WHERE status = pending ORDER BY created_at LIMIT n FOR UPDATE
SKIP LOCKED` (the skip-locked clause only matters under concurrency). -/
def GetPending (webhooks : List WebhookEvent) (limit : ℕ) : List WebhookEvent :=
  (sortByCreatedAt (webhooks.filter (fun w => w.Status == WebhookEventStatusPending))).take limit

/-- repository.WebhookEventRepository.UpdateStatus (internal/repository/payment_event.go
lines 132-150): `UPDATE webhook_events SET status = $1, attempts = attempts + 1,
last_attempt = now() WHERE id = $2`; zero rows affected is NOT_FOUND. -/
def UpdateStatus (webhooks : List WebhookEvent) (id : String) (status : WebhookEventStatus)
    (now : ℤ) : Except DomainError (List WebhookEvent) :=
  if webhooks.any (fun w => w.ID == id) then
    .ok (webhooks.map (fun w =>
      if w.ID == id then
        { w with Status := status, Attempts := w.Attempts + 1, LastAttempt := some now }
      else w))
  else .error .notFound

end WebhookEventRepository

namespace IdempotencyRepository

/-- repository.IdempotencyRepository.Get (src/unnamed/part_001 lines 31-46):
`WHERE idempotency_key = $1 AND user_id = $2 AND expires_at > now()`;
no row is a plain miss (nil, nil). -/
def Get (cache : List IdempotencyCacheEntry) (key userID : String) (now : ℤ) :
    Option IdempotencyCacheEntry :=
  cache.find? (fun e => e.Key == key && e.UserID == userID && now < e.ExpiresAt)

/-- repository.IdempotencyRepository.Set (src/unnamed/part_001 lines 48-59):
INSERT ... ON CONFLICT (idempotency_key, user_id) DO NOTHING — any existing
row for the primary key, expired or not, silently wins. -/
def Set (cache : List IdempotencyCacheEntry) (entry : IdempotencyCacheEntry) :
    List IdempotencyCacheEntry :=
  if cache.any (fun e => e.Key == entry.Key && e.UserID == entry.UserID) then cache
  else cache ++ [entry]

end IdempotencyRepository

/-- Combined durable state used by the transactional operations. -/
structure Bank where
  users : List User
  accounts : List Account
  payments : List Payment
  ledger : List LedgerEntry
  events : List PaymentEvent
  deriving DecidableEq, Repr

/-
  internal/service/payment: the transfer executor.  `uuid.New()` for the
  payment id is passed in as `pid` (ids are opaque); `time.Now().UTC()` is
  passed in as `now`.  A transaction is modelled functionally: the ok result
  carries the state the commit writes, an error result commits nothing.
-/

/-- payment.SystemUserID (internal/service/payment/service.go). -/
def SystemUserID : String := "00000000-0000-0000-0000-000000000001"

/-- config.Config, restricted to the fields the payment service reads
(internal/config). -/
structure Config where
  TxLimitUSD : ℤ
  TxLimitEUR : ℤ
  TxLimitGBP : ℤ
  deriving DecidableEq, Repr

/-- payment.Service (internal/service/payment/service.go): the dependencies
that carry state of their own — the fx rate service and the limits config. -/
structure Service where
  fx : RateService
  config : Config
  deriving DecidableEq, Repr

/-- payment.Service.txLimitForCurrency (internal/service/payment/service.go
lines 104-115): per-currency limit, defaulting to 0 for any other currency. -/
def txLimitForCurrency (s : Service) (c : Currency) : ℤ :=
  if c == CurrencyUSD then s.config.TxLimitUSD
  else if c == CurrencyEUR then s.config.TxLimitEUR
  else if c == CurrencyGBP then s.config.TxLimitGBP
  else 0

/-- payment.InternalTransferRequest (internal/service/payment). -/
structure InternalTransferRequest where
  SenderUserID : String
  RecipientUniqueName : String
  SourceCurrency : Currency
  DestCurrency : Currency
  Amount : ℤ
  IdempotencyKey : String
  deriving DecidableEq, Repr

/-- payment.ExternalPayoutRequest (internal/service/payment). -/
structure ExternalPayoutRequest where
  SenderUserID : String
  SourceCurrency : Currency
  DestCurrency : Currency
  Amount : ℤ
  DestIBAN : String
  DestBankName : String
  IdempotencyKey : String
  deriving DecidableEq, Repr

/-- Go zero value of domain.Payment (struct literals start from it). -/
def emptyPayment : Payment :=
  ⟨"", "", "", "", "", none, none, none, none, none, 0, "", 0, "", none, 0,
   none, none, none, none, none, 0, 0, none⟩

/-- Go zero value of domain.Account (never read on verified paths; stands for
the nil map entry a Go lookup would produce for an unlocked id). -/
def emptyAccount : Account :=
  ⟨"", "", "", "", 0, 0, none, none, none, none, none, none, "", 0⟩

/-- payment.verifyAccountActive (internal/service/payment/external_payout_fx.go
lines 331-339).  The role string only decorates the Go error message. -/
def verifyAccountActive (acct : Account) : Except DomainError Unit :=
  if acct.Status == AccountStatusFrozen then .error .accountFrozen
  else if acct.Status != AccountStatusActive then .error .accountClosed
  else .ok ()

/-- Byte-wise lexicographic comparison on strings — Go's `<` on the uuid
strings being sorted (all ASCII, where bytes coincide with code points). -/
def strLtChars : List Char → List Char → Bool
  | [], [] => false
  | [], _ :: _ => true
  | _ :: _, [] => false
  | x :: xs, y :: ys =>
      if x.toNat < y.toNat then true
      else if y.toNat < x.toNat then false
      else strLtChars xs ys

/-- Go string comparison `a < b`. -/
def strLt (a b : String) : Bool := strLtChars a.data b.data

/-- Insertion of a string into a sorted list (helper for the id sort in
lockAccountsInOrder). -/
def insertStr (x : String) : List String → List String
  | [] => [x]
  | y :: ys => if strLt x y then x :: y :: ys else y :: insertStr x ys

/-- Lexicographic sort of account ids (sort.Slice on uuid strings). -/
def sortStrings : List String → List String
  | [] => []
  | x :: xs => insertStr x (sortStrings xs)

/-- payment.lockAccountsInOrder (internal/service/payment/external_payout_fx.go
lines 389-405; the identical function appears again in
internal/service/webhook_reversal.go lines 123-139): sort the ids
lexicographically, acquire the row lock on each in order, return the map. -/
def lockAccountsInOrder (accounts : List Account) (ids : List String) :
    Except DomainError (List (String × Account)) :=
  go (sortStrings ids)
where
  /-- Lock acquisition loop of lockAccountsInOrder. -/
  go : List String → Except DomainError (List (String × Account))
  | [] => .ok []
  | id :: rest =>
      match AccountRepository.GetForUpdate accounts id with
      | .error e => .error e
      | .ok a =>
          match go rest with
          | .error e => .error e
          | .ok m => .ok ((id, a) :: m)

/-- Map read `locked[id]` on the result of lockAccountsInOrder. -/
def lockedGet (locked : List (String × Account)) (id : String) : Account :=
  (locked.lookup id).getD emptyAccount

/-- payment.Service.getSystemAccount (src/unnamed/part_007 lines 112-118). -/
def getSystemAccount (accounts : List Account) (accountType : AccountType)
    (currency : Currency) : Except DomainError Account :=
  AccountRepository.GetByUserAndCurrency accounts SystemUserID currency accountType

/-- payment.Service.validateTransfer (internal/service/payment/external_payout_fx.go
lines 226-254), checks in source order. -/
def validateTransfer (s : Service) (req : InternalTransferRequest)
    (sender recipient : Account) : Except DomainError Unit :=
  if req.Amount ≤ 0 then .error .invalidAmount
  else if sender.UserID == recipient.UserID && req.SourceCurrency == req.DestCurrency then
    .error .selfTransfer
  else if sender.Status == AccountStatusFrozen then .error .accountFrozen
  else if sender.Status != AccountStatusActive then .error .accountClosed
  else if recipient.Status == AccountStatusFrozen then .error .accountFrozen
  else if recipient.Status != AccountStatusActive then .error .accountClosed
  else if req.Amount > txLimitForCurrency s req.SourceCurrency then .error .limitExceeded
  else .ok ()

/-- payment.Service.resolveTransferAccounts (internal/service/payment/external_payout_fx.go
lines 198-224). -/
def resolveTransferAccounts (bank : Bank) (req : InternalTransferRequest) :
    Except DomainError (Account × Account) :=
  match UserRepository.GetByUniqueName bank.users req.RecipientUniqueName with
  | .error .notFound => .error .recipientNotFound
  | .error e => .error e
  | .ok recipient =>
      match AccountRepository.GetByUserAndCurrency bank.accounts recipient.ID
          req.DestCurrency AccountTypeUser with
      | .error .notFound => .error .accountNotFound
      | .error e => .error e
      | .ok recipientAcct =>
          match AccountRepository.GetByUserAndCurrency bank.accounts req.SenderUserID
              req.SourceCurrency AccountTypeUser with
          | .error .notFound => .error .accountNotFound
          | .error e => .error e
          | .ok senderAcct => .ok (senderAcct, recipientAcct)

/-- payment.Service.writeLedgerEntries (internal/service/payment/external_payout_fx.go
lines 341-373): debit the sender by the source amount, credit the recipient by
the destination amount, with pre/post balance snapshots. -/
def writeLedgerEntries (p : Payment) (sender recipient : Account) : List LedgerEntry :=
  [⟨"", p.ID, sender.ID, EntryTypeDebit, p.SourceAmount, p.SourceCurrency,
    sender.Balance, sender.Balance - p.SourceAmount, p.CreatedAt⟩,
   ⟨"", p.ID, recipient.ID, EntryTypeCredit, p.DestAmount, p.DestCurrency,
    recipient.Balance, recipient.Balance + p.DestAmount, p.CreatedAt⟩]

/-- payment.Service.writeCrossCurrencyLedgerEntries (src/unnamed/part_007
lines 120-157): debit sender, credit fx_pool[source] (source currency), debit
fx_pool[dest], credit recipient (destination currency). -/
def writeCrossCurrencyLedgerEntries (p : Payment)
    (sender fxPoolSource fxPoolDest recipient : Account) : List LedgerEntry :=
  [⟨"", p.ID, sender.ID, EntryTypeDebit, p.SourceAmount, p.SourceCurrency,
    sender.Balance, sender.Balance - p.SourceAmount, p.CreatedAt⟩,
   ⟨"", p.ID, fxPoolSource.ID, EntryTypeCredit, p.SourceAmount, p.SourceCurrency,
    fxPoolSource.Balance, fxPoolSource.Balance + p.SourceAmount, p.CreatedAt⟩,
   ⟨"", p.ID, fxPoolDest.ID, EntryTypeDebit, p.DestAmount, p.DestCurrency,
    fxPoolDest.Balance, fxPoolDest.Balance - p.DestAmount, p.CreatedAt⟩,
   ⟨"", p.ID, recipient.ID, EntryTypeCredit, p.DestAmount, p.DestCurrency,
    recipient.Balance, recipient.Balance + p.DestAmount, p.CreatedAt⟩]

/-- payment.Service.writeExternalLedgerEntries (internal/service/payment/external_payout_fx.go
lines 615-647): debit sender, credit outgoing. -/
def writeExternalLedgerEntries (p : Payment) (sender outgoing : Account) : List LedgerEntry :=
  [⟨"", p.ID, sender.ID, EntryTypeDebit, p.SourceAmount, p.SourceCurrency,
    sender.Balance, sender.Balance - p.SourceAmount, p.CreatedAt⟩,
   ⟨"", p.ID, outgoing.ID, EntryTypeCredit, p.DestAmount, p.DestCurrency,
    outgoing.Balance, outgoing.Balance + p.DestAmount, p.CreatedAt⟩]

/-- payment.Service.writeCrossCurrencyExternalLedgerEntries
(internal/service/payment/external_payout_fx.go lines 96-139): debit sender,
credit fx_pool[source], debit fx_pool[dest], credit outgoing. -/
def writeCrossCurrencyExternalLedgerEntries (p : Payment)
    (sender fxPoolSource fxPoolDest outgoing : Account) : List LedgerEntry :=
  [⟨"", p.ID, sender.ID, EntryTypeDebit, p.SourceAmount, p.SourceCurrency,
    sender.Balance, sender.Balance - p.SourceAmount, p.CreatedAt⟩,
   ⟨"", p.ID, fxPoolSource.ID, EntryTypeCredit, p.SourceAmount, p.SourceCurrency,
    fxPoolSource.Balance, fxPoolSource.Balance + p.SourceAmount, p.CreatedAt⟩,
   ⟨"", p.ID, fxPoolDest.ID, EntryTypeDebit, p.DestAmount, p.DestCurrency,
    fxPoolDest.Balance, fxPoolDest.Balance - p.DestAmount, p.CreatedAt⟩,
   ⟨"", p.ID, outgoing.ID, EntryTypeCredit, p.DestAmount, p.DestCurrency,
    outgoing.Balance, outgoing.Balance + p.DestAmount, p.CreatedAt⟩]

/-- payment.Service.writePaymentEvent (internal/service/payment/external_payout_fx.go
lines 375-387): append an event with actor "user:" followed by the user id. -/
def writePaymentEvent (paymentID : String) (eventType : PaymentEventType)
    (actorUserID : String) (now : ℤ) : PaymentEvent :=
  ⟨"", paymentID, eventType, "user:" ++ actorUserID, none, now⟩

/-- payment.Service.executeSameCurrencyTransfer
(internal/service/payment/external_payout_fx.go lines 263-329). -/
def executeSameCurrencyTransfer (bank : Bank) (req : InternalTransferRequest)
    (senderID recipientID : String) (pid : String) (now : ℤ) :
    Except DomainError (Payment × Bank) :=
  match lockAccountsInOrder bank.accounts [senderID, recipientID] with
  | .error e => .error e
  | .ok locked =>
  let sender := lockedGet locked senderID
  let recipient := lockedGet locked recipientID
  match verifyAccountActive sender with
  | .error e => .error e
  | .ok _ =>
  match verifyAccountActive recipient with
  | .error e => .error e
  | .ok _ =>
  if sender.Balance < req.Amount then .error .insufficientFunds
  else
    let p : Payment :=
      { emptyPayment with
          ID := pid, IdempotencyKey := req.IdempotencyKey,
          Type' := PaymentTypeInternalTransfer, Status := PaymentStatusCompleted,
          SourceAccountID := senderID, DestAccountID := some recipientID,
          SourceAmount := req.Amount, SourceCurrency := req.SourceCurrency,
          DestAmount := req.Amount, DestCurrency := req.DestCurrency,
          CreatedAt := now, UpdatedAt := now, CompletedAt := some now }
    match PaymentRepository.Create bank.payments p with
    | .error e => .error e
    | .ok payments1 =>
    let ledger1 := bank.ledger ++ writeLedgerEntries p sender recipient
    let events1 := bank.events ++
      [writePaymentEvent p.ID PaymentEventTypeCompleted req.SenderUserID now]
    match AccountRepository.UpdateBalance bank.accounts senderID
        (sender.Balance - req.Amount) (sender.Version + 1) with
    | .error e => .error e
    | .ok accounts1 =>
    match AccountRepository.UpdateBalance accounts1 recipientID
        (recipient.Balance + req.Amount) (recipient.Version + 1) with
    | .error e => .error e
    | .ok accounts2 =>
      .ok (p, ⟨bank.users, accounts2, payments1, ledger1, events1⟩)

/-- payment.Service.executeCrossCurrencyTransfer (src/unnamed/part_007
lines 13-110). -/
def executeCrossCurrencyTransfer (s : Service) (bank : Bank)
    (req : InternalTransferRequest) (senderID recipientID : String)
    (pid : String) (now : ℤ) : Except DomainError (Payment × Bank) :=
  match Convert s.fx req.Amount req.SourceCurrency req.DestCurrency with
  | .error e => .error e
  | .ok conversion =>
  match getSystemAccount bank.accounts AccountTypeFXPool req.SourceCurrency with
  | .error e => .error e
  | .ok fxPoolSource =>
  match getSystemAccount bank.accounts AccountTypeFXPool req.DestCurrency with
  | .error e => .error e
  | .ok fxPoolDest =>
  match lockAccountsInOrder bank.accounts [senderID, fxPoolSource.ID, fxPoolDest.ID, recipientID] with
  | .error e => .error e
  | .ok locked =>
  let sender := lockedGet locked senderID
  let recipient := lockedGet locked recipientID
  let fxSrc := lockedGet locked fxPoolSource.ID
  let fxDst := lockedGet locked fxPoolDest.ID
  match verifyAccountActive sender with
  | .error e => .error e
  | .ok _ =>
  match verifyAccountActive recipient with
  | .error e => .error e
  | .ok _ =>
  if sender.Balance < req.Amount then .error .insufficientFunds
  else if fxDst.Balance < conversion.DestAmount then .error .insufficientFunds
  else
    let p : Payment :=
      { emptyPayment with
          ID := pid, IdempotencyKey := req.IdempotencyKey,
          Type' := PaymentTypeInternalTransfer, Status := PaymentStatusCompleted,
          SourceAccountID := senderID, DestAccountID := some recipientID,
          SourceAmount := req.Amount, SourceCurrency := req.SourceCurrency,
          DestAmount := conversion.DestAmount, DestCurrency := req.DestCurrency,
          ExchangeRate := some conversion.ExchangeRate,
          FeeAmount := conversion.FeeAmount, FeeCurrency := some req.DestCurrency,
          CreatedAt := now, UpdatedAt := now, CompletedAt := some now }
    match PaymentRepository.Create bank.payments p with
    | .error e => .error e
    | .ok payments1 =>
    let ledger1 := bank.ledger ++ writeCrossCurrencyLedgerEntries p sender fxSrc fxDst recipient
    let events1 := bank.events ++
      [writePaymentEvent p.ID PaymentEventTypeCompleted req.SenderUserID now]
    match AccountRepository.UpdateBalance bank.accounts sender.ID
        (sender.Balance - req.Amount) (sender.Version + 1) with
    | .error e => .error e
    | .ok accounts1 =>
    match AccountRepository.UpdateBalance accounts1 fxSrc.ID
        (fxSrc.Balance + req.Amount) (fxSrc.Version + 1) with
    | .error e => .error e
    | .ok accounts2 =>
    match AccountRepository.UpdateBalance accounts2 fxDst.ID
        (fxDst.Balance - conversion.DestAmount) (fxDst.Version + 1) with
    | .error e => .error e
    | .ok accounts3 =>
    match AccountRepository.UpdateBalance accounts3 recipient.ID
        (recipient.Balance + conversion.DestAmount) (recipient.Version + 1) with
    | .error e => .error e
    | .ok accounts4 =>
      .ok (p, ⟨bank.users, accounts4, payments1, ledger1, events1⟩)

/-- payment.Service.executeTransfer (internal/service/payment/external_payout_fx.go
lines 256-261). -/
def executeTransfer (s : Service) (bank : Bank) (req : InternalTransferRequest)
    (senderID recipientID : String) (pid : String) (now : ℤ) :
    Except DomainError (Payment × Bank) :=
  if req.SourceCurrency != req.DestCurrency then
    executeCrossCurrencyTransfer s bank req senderID recipientID pid now
  else
    executeSameCurrencyTransfer bank req senderID recipientID pid now

/-- payment.Service.CreateInternalTransfer (internal/service/payment/external_payout_fx.go
lines 164-195): resolve, validate, execute; a duplicate idempotency key from the
execute step surfaces as DUPLICATE_PAYMENT. -/
def CreateInternalTransfer (s : Service) (bank : Bank) (req : InternalTransferRequest)
    (pid : String) (now : ℤ) : Except DomainError (Payment × Bank) :=
  match resolveTransferAccounts bank req with
  | .error e => .error e
  | .ok (senderAcct, recipientAcct) =>
  match validateTransfer s req senderAcct recipientAcct with
  | .error e => .error e
  | .ok _ =>
  match executeTransfer s bank req senderAcct.ID recipientAcct.ID pid now with
  | .error .duplicateIdempotencyKey => .error .duplicatePayment
  | .error e => .error e
  | .ok pb => .ok pb

/-- payment.Service.checkExternalPayoutIdempotency
(internal/service/payment/external_payout_fx.go lines 486-504): an existing
payment for the key replays when (source account, amount, source currency,
dest currency, type external_payout) all match, else DUPLICATE_PAYMENT. -/
def checkExternalPayoutIdempotency (bank : Bank) (req : ExternalPayoutRequest)
    (senderAcctID : String) : Except DomainError (Option Payment) :=
  match PaymentRepository.GetByIdempotencyKey bank.payments req.IdempotencyKey with
  | .error .notFound => .ok none
  | .error e => .error e
  | .ok existing =>
      if existing.SourceAccountID == senderAcctID &&
         existing.SourceAmount == req.Amount &&
         existing.SourceCurrency == req.SourceCurrency &&
         existing.DestCurrency == req.DestCurrency &&
         existing.Type' == PaymentTypeExternalPayout then
        .ok (some existing)
      else .error .duplicatePayment

/-- payment.Service.validateExternalPayout
(internal/service/payment/external_payout_fx.go lines 506-530), checks in
source order. -/
def validateExternalPayout (s : Service) (req : ExternalPayoutRequest)
    (sender : Account) : Except DomainError Unit :=
  if req.Amount ≤ 0 then .error .invalidAmount
  else if req.DestIBAN == "" then .error .invalidRequest
  else if req.DestBankName == "" then .error .invalidRequest
  else if sender.Status == AccountStatusFrozen then .error .accountFrozen
  else if sender.Status != AccountStatusActive then .error .accountClosed
  else if req.Amount > txLimitForCurrency s req.SourceCurrency then .error .limitExceeded
  else .ok ()

/-- payment.buildExternalPayment (internal/service/payment/external_payout_fx.go
lines 595-613). -/
def buildExternalPayment (req : ExternalPayoutRequest) (senderID : String)
    (destAmount : ℤ) (exchangeRate : Option Dec) (feeCurrency : Option Currency)
    (pid : String) (now : ℤ) : Payment :=
  { emptyPayment with
      ID := pid, IdempotencyKey := req.IdempotencyKey,
      Type' := PaymentTypeExternalPayout, Status := PaymentStatusPending,
      SourceAccountID := senderID,
      DestIBAN := some req.DestIBAN, DestBankName := some req.DestBankName,
      SourceAmount := req.Amount, SourceCurrency := req.SourceCurrency,
      DestAmount := destAmount, DestCurrency := req.DestCurrency,
      ExchangeRate := exchangeRate, FeeCurrency := feeCurrency,
      CreatedAt := now, UpdatedAt := now }

/-- payment.Service.executeSameCurrencyExternalPayout
(internal/service/payment/external_payout_fx.go lines 539-593). -/
def executeSameCurrencyExternalPayout (bank : Bank) (req : ExternalPayoutRequest)
    (senderID : String) (pid : String) (now : ℤ) : Except DomainError (Payment × Bank) :=
  match getSystemAccount bank.accounts AccountTypeOutgoing req.DestCurrency with
  | .error e => .error e
  | .ok outgoing =>
  match lockAccountsInOrder bank.accounts [senderID, outgoing.ID] with
  | .error e => .error e
  | .ok locked =>
  let sender := lockedGet locked senderID
  let outgoingAcct := lockedGet locked outgoing.ID
  match verifyAccountActive sender with
  | .error e => .error e
  | .ok _ =>
  if sender.Balance < req.Amount then .error .insufficientFunds
  else
    let p := buildExternalPayment req senderID req.Amount none none pid now
    match PaymentRepository.Create bank.payments p with
    | .error e => .error e
    | .ok payments1 =>
    let ledger1 := bank.ledger ++ writeExternalLedgerEntries p sender outgoingAcct
    let events1 := bank.events ++
      [writePaymentEvent p.ID PaymentEventTypeCreated req.SenderUserID now]
    match AccountRepository.UpdateBalance bank.accounts sender.ID
        (sender.Balance - req.Amount) (sender.Version + 1) with
    | .error e => .error e
    | .ok accounts1 =>
    match AccountRepository.UpdateBalance accounts1 outgoingAcct.ID
        (outgoingAcct.Balance + req.Amount) (outgoingAcct.Version + 1) with
    | .error e => .error e
    | .ok accounts2 =>
      .ok (p, ⟨bank.users, accounts2, payments1, ledger1, events1⟩)

/-- payment.Service.executeCrossCurrencyExternalPayout
(internal/service/payment/external_payout_fx.go lines 13-94). -/
def executeCrossCurrencyExternalPayout (s : Service) (bank : Bank)
    (req : ExternalPayoutRequest) (senderID : String) (pid : String) (now : ℤ) :
    Except DomainError (Payment × Bank) :=
  match Convert s.fx req.Amount req.SourceCurrency req.DestCurrency with
  | .error e => .error e
  | .ok conversion =>
  match getSystemAccount bank.accounts AccountTypeFXPool req.SourceCurrency with
  | .error e => .error e
  | .ok fxPoolSource =>
  match getSystemAccount bank.accounts AccountTypeFXPool req.DestCurrency with
  | .error e => .error e
  | .ok fxPoolDest =>
  match getSystemAccount bank.accounts AccountTypeOutgoing req.DestCurrency with
  | .error e => .error e
  | .ok outgoing =>
  match lockAccountsInOrder bank.accounts [senderID, fxPoolSource.ID, fxPoolDest.ID, outgoing.ID] with
  | .error e => .error e
  | .ok locked =>
  let sender := lockedGet locked senderID
  let fxSrc := lockedGet locked fxPoolSource.ID
  let fxDst := lockedGet locked fxPoolDest.ID
  let outgoingAcct := lockedGet locked outgoing.ID
  match verifyAccountActive sender with
  | .error e => .error e
  | .ok _ =>
  if sender.Balance < req.Amount then .error .insufficientFunds
  else if fxDst.Balance < conversion.DestAmount then .error .insufficientFunds
  else
    let p0 := buildExternalPayment req senderID conversion.DestAmount
      (some conversion.ExchangeRate) (some req.DestCurrency) pid now
    let p := { p0 with FeeAmount := conversion.FeeAmount }
    match PaymentRepository.Create bank.payments p with
    | .error e => .error e
    | .ok payments1 =>
    let ledger1 := bank.ledger ++
      writeCrossCurrencyExternalLedgerEntries p sender fxSrc fxDst outgoingAcct
    let events1 := bank.events ++
      [writePaymentEvent p.ID PaymentEventTypeCreated req.SenderUserID now]
    match AccountRepository.UpdateBalance bank.accounts sender.ID
        (sender.Balance - req.Amount) (sender.Version + 1) with
    | .error e => .error e
    | .ok accounts1 =>
    match AccountRepository.UpdateBalance accounts1 fxSrc.ID
        (fxSrc.Balance + req.Amount) (fxSrc.Version + 1) with
    | .error e => .error e
    | .ok accounts2 =>
    match AccountRepository.UpdateBalance accounts2 fxDst.ID
        (fxDst.Balance - conversion.DestAmount) (fxDst.Version + 1) with
    | .error e => .error e
    | .ok accounts3 =>
    match AccountRepository.UpdateBalance accounts3 outgoingAcct.ID
        (outgoingAcct.Balance + conversion.DestAmount) (outgoingAcct.Version + 1) with
    | .error e => .error e
    | .ok accounts4 =>
      .ok (p, ⟨bank.users, accounts4, payments1, ledger1, events1⟩)

/-- payment.Service.executeExternalPayout
(internal/service/payment/external_payout_fx.go lines 532-537). -/
def executeExternalPayout (s : Service) (bank : Bank) (req : ExternalPayoutRequest)
    (senderID : String) (pid : String) (now : ℤ) : Except DomainError (Payment × Bank) :=
  if req.SourceCurrency != req.DestCurrency then
    executeCrossCurrencyExternalPayout s bank req senderID pid now
  else
    executeSameCurrencyExternalPayout bank req senderID pid now

/-- payment.Service.CreateExternalPayout
(internal/service/payment/external_payout_fx.go lines 432-484).  The
fire-and-forget provider submission after commit performs no state change on
the bank and is outside the model. -/
def CreateExternalPayout (s : Service) (bank : Bank) (req : ExternalPayoutRequest)
    (pid : String) (now : ℤ) : Except DomainError (Payment × Bank) :=
  match AccountRepository.GetByUserAndCurrency bank.accounts req.SenderUserID
      req.SourceCurrency AccountTypeUser with
  | .error .notFound => .error .accountNotFound
  | .error e => .error e
  | .ok senderAcct =>
  match checkExternalPayoutIdempotency bank req senderAcct.ID with
  | .error e => .error e
  | .ok (some existing) => .ok (existing, bank)
  | .ok none =>
  match validateExternalPayout s req senderAcct with
  | .error e => .error e
  | .ok _ =>
  match executeExternalPayout s bank req senderAcct.ID pid now with
  | .error .duplicateIdempotencyKey =>
      match checkExternalPayoutIdempotency bank req senderAcct.ID with
      | .error e => .error e
      | .ok (some existing) => .ok (existing, bank)
      | .ok none => .error .duplicatePayment
  | .error e => .error e
  | .ok pb => .ok pb

/-
  internal/service: webhook processor and compensating reversal.
-/

/-- service.isTerminalStatus (internal/service/webhook_reversal.go lines 114-121). -/
def isTerminalStatus (s : PaymentStatus) : Bool :=
  s == PaymentStatusCompleted || s == PaymentStatusFailed || s == PaymentStatusReversed

/-- service.reversalEntry (internal/service/webhook_reversal.go lines 61-66). -/
structure ReversalEntry where
  account : Account
  entryType : EntryType
  amount : ℤ
  currency : Currency
  deriving DecidableEq, Repr

/-- Balance written by one compensating entry (the branch at the top of the
writeReversalEntries loop, internal/service/webhook_reversal.go lines 76-81). -/
def reversalNewBalance (e : ReversalEntry) : ℤ :=
  if e.entryType == EntryTypeDebit then e.account.Balance - e.amount
  else e.account.Balance + e.amount

/-- Ledger row written by one compensating entry
(internal/service/webhook_reversal.go lines 83-93). -/
def reversalLedgerEntry (paymentID : String) (e : ReversalEntry) (now : ℤ) : LedgerEntry :=
  ⟨"", paymentID, e.account.ID, e.entryType, e.amount, e.currency,
   e.account.Balance, reversalNewBalance e, now⟩

/-- service.WebhookProcessor.writeReversalEntries
(internal/service/webhook_reversal.go lines 68-104): for each compensating
entry, append the ledger row with pre/post snapshots and update the affected
balance with a version bump. -/
def writeReversalEntries (accounts : List Account) (ledger : List LedgerEntry)
    (paymentID : String) (entries : List ReversalEntry) (now : ℤ) :
    Except DomainError (List Account × List LedgerEntry) :=
  match entries with
  | [] => .ok (accounts, ledger)
  | e :: rest =>
      match AccountRepository.UpdateBalance accounts e.account.ID (reversalNewBalance e)
          (e.account.Version + 1) with
      | .error er => .error er
      | .ok accounts1 =>
          writeReversalEntries accounts1 (ledger ++ [reversalLedgerEntry paymentID e now])
            paymentID rest now

/-- service.WebhookProcessor.writeSameCurrencyReversal
(internal/service/webhook_reversal.go lines 16-33): debit outgoing[dest] by
dest_amount, then credit sender by source_amount. -/
def sameCurrencyReversalEntries (pmt : Payment) (locked : List (String × Account))
    (outgoingID : String) : List ReversalEntry :=
  [⟨lockedGet locked outgoingID, EntryTypeDebit, pmt.DestAmount, pmt.DestCurrency⟩,
   ⟨lockedGet locked pmt.SourceAccountID, EntryTypeCredit, pmt.SourceAmount, pmt.SourceCurrency⟩]

/-- service.WebhookProcessor.writeCrossCurrencyReversal
(internal/service/webhook_reversal.go lines 35-59): debit outgoing, credit
fx_pool[dest], debit fx_pool[source], credit sender — the original four
entries reversed with inverted sides. -/
def crossCurrencyReversalEntries (pmt : Payment) (locked : List (String × Account))
    (outgoingID fxPoolSourceID fxPoolDestID : String) : List ReversalEntry :=
  [⟨lockedGet locked outgoingID, EntryTypeDebit, pmt.DestAmount, pmt.DestCurrency⟩,
   ⟨lockedGet locked fxPoolDestID, EntryTypeCredit, pmt.DestAmount, pmt.DestCurrency⟩,
   ⟨lockedGet locked fxPoolSourceID, EntryTypeDebit, pmt.SourceAmount, pmt.SourceCurrency⟩,
   ⟨lockedGet locked pmt.SourceAccountID, EntryTypeCredit, pmt.SourceAmount, pmt.SourceCurrency⟩]

/-- service.WebhookProcessor.handleCompleted
(internal/service/webhook_processor.go lines 168-202): set the payment to
completed with provider_ref (when non-empty) and completed_at, append a
completed event with actor "system"; no account or ledger access. -/
def handleCompleted (bank : Bank) (payment : Payment) (providerRef : String)
    (now : ℤ) : Except DomainError Bank :=
  let ref : Option String := if providerRef != "" then some providerRef else none
  match PaymentRepository.UpdateStatus bank.payments payment.ID
      PaymentStatusCompleted ref none (some now) now with
  | .error e => .error e
  | .ok payments1 =>
      let event : PaymentEvent :=
        ⟨"", payment.ID, PaymentEventTypeCompleted, "system", none, now⟩
      .ok { bank with payments := payments1, events := bank.events ++ [event] }

/-- service.WebhookProcessor.handleFailed
(internal/service/webhook_processor.go lines 204-279): lock sender and
outgoing[dest] (plus both fx pools when cross-currency), set the payment to
failed with the reason, write the compensating entries, append a failed event
with actor "system" carrying the reason. -/
def handleFailed (bank : Bank) (payment : Payment) (reason : String) (now : ℤ) :
    Except DomainError Bank :=
  let isCrossCurrency := payment.SourceCurrency != payment.DestCurrency
  match getSystemAccount bank.accounts AccountTypeOutgoing payment.DestCurrency with
  | .error e => .error e
  | .ok outgoing =>
  let step : Except DomainError (List String × String × String) :=
    if isCrossCurrency then
      match getSystemAccount bank.accounts AccountTypeFXPool payment.SourceCurrency with
      | .error e => .error e
      | .ok fxSrc =>
      match getSystemAccount bank.accounts AccountTypeFXPool payment.DestCurrency with
      | .error e => .error e
      | .ok fxDst =>
        .ok ([payment.SourceAccountID, outgoing.ID, fxSrc.ID, fxDst.ID], fxSrc.ID, fxDst.ID)
    else
      .ok ([payment.SourceAccountID, outgoing.ID], "", "")
  match step with
  | .error e => .error e
  | .ok (accountIDs, fxPoolSourceID, fxPoolDestID) =>
  match lockAccountsInOrder bank.accounts accountIDs with
  | .error e => .error e
  | .ok locked =>
  match PaymentRepository.UpdateStatus bank.payments payment.ID
      PaymentStatusFailed none (some reason) none now with
  | .error e => .error e
  | .ok payments1 =>
  let entries :=
    if isCrossCurrency then
      crossCurrencyReversalEntries payment locked outgoing.ID fxPoolSourceID fxPoolDestID
    else
      sameCurrencyReversalEntries payment locked outgoing.ID
  match writeReversalEntries bank.accounts bank.ledger payment.ID entries now with
  | .error e => .error e
  | .ok (accounts1, ledger1) =>
  let event : PaymentEvent :=
    ⟨"", payment.ID, PaymentEventTypeFailed, "system", some reason, now⟩
  .ok ⟨bank.users, accounts1, payments1, ledger1, bank.events ++ [event]⟩

/-- Process-wide state seen by the webhook processor: the bank plus the
webhook_events table (which lives outside the reversal transaction). -/
structure SystemState where
  bank : Bank
  webhooks : List WebhookEvent
  deriving DecidableEq, Repr

/-- Hex digit test for uuid.Parse (canonical 8-4-4-4-12 form; the rarer forms
uuid.Parse also accepts do not occur in this system). -/
def isHexDigit (c : Char) : Bool :=
  (48 ≤ c.toNat && c.toNat ≤ 57) || (97 ≤ c.toNat && c.toNat ≤ 102) ||
  (65 ≤ c.toNat && c.toNat ≤ 70)

/-- uuid.Parse modelled as a format check on the canonical textual form. -/
def isUUIDString (s : String) : Bool :=
  s.length == 36 &&
  (List.range 36).all (fun i =>
    let c := s.data.getD i (Char.ofNat 0)
    if i == 8 || i == 13 || i == 18 || i == 23 then c == Char.ofNat 45
    else isHexDigit c)

/-- Outcome of one processEvent call: the state as mutated plus the error the
Go function returns (none on success). -/
def markWebhookRow (bank1 : Bank) (webhooks : List WebhookEvent) (id : String)
    (status : WebhookEventStatus) (now : ℤ) : SystemState × Option DomainError :=
  match WebhookEventRepository.UpdateStatus webhooks id status now with
  | .error e => (⟨bank1, webhooks⟩, some e)
  | .ok webhooks1 => (⟨bank1, webhooks1⟩, none)

/-- service.WebhookProcessor.processEvent
(internal/service/webhook_processor.go lines 116-166): poison payloads
(malformed JSON, bad payment id, unknown status) and missing payments mark the
row failed; a terminal payment marks it dispatched; otherwise dispatch on the
status and mark dispatched on success — any other handler error is returned
with the row untouched. -/
def processEvent (sys : SystemState) (event : WebhookEvent) (now : ℤ) :
    SystemState × Option DomainError :=
  match event.Payload with
  | none => markWebhookRow sys.bank sys.webhooks event.ID WebhookEventStatusFailed now
  | some payload =>
    if ¬ isUUIDString payload.PaymentID then
      markWebhookRow sys.bank sys.webhooks event.ID WebhookEventStatusFailed now
    else
      match PaymentRepository.GetByID sys.bank.payments payload.PaymentID with
      | .error _ => markWebhookRow sys.bank sys.webhooks event.ID WebhookEventStatusFailed now
      | .ok payment =>
        if isTerminalStatus payment.Status then
          markWebhookRow sys.bank sys.webhooks event.ID WebhookEventStatusDispatched now
        else if payload.Status == "completed" then
          match handleCompleted sys.bank payment payload.ProviderRef now with
          | .error .paymentTerminal =>
              markWebhookRow sys.bank sys.webhooks event.ID WebhookEventStatusDispatched now
          | .error e => (sys, some e)
          | .ok bank1 =>
              markWebhookRow bank1 sys.webhooks event.ID WebhookEventStatusDispatched now
        else if payload.Status == "failed" then
          match handleFailed sys.bank payment payload.Reason now with
          | .error .paymentTerminal =>
              markWebhookRow sys.bank sys.webhooks event.ID WebhookEventStatusDispatched now
          | .error e => (sys, some e)
          | .ok bank1 =>
              markWebhookRow bank1 sys.webhooks event.ID WebhookEventStatusDispatched now
        else
          markWebhookRow sys.bank sys.webhooks event.ID WebhookEventStatusFailed now

/-
  crypto/sha256 and crypto/hmac, as used by middleware.computeHash and
  handler.verifyHMAC.  Bytes are naturals < 256; 32-bit words are naturals
  reduced mod 2^32.
-/

/-- Reduction to a 32-bit word. -/
def w32 (n : ℕ) : ℕ := n % 4294967296

/-- Rotate a 32-bit word right by n bits. -/
def rotr (n x : ℕ) : ℕ := w32 ((x >>> n) ||| (x <<< (32 - n)))

/-- SHA-256 round constants. -/
def shaK : List ℕ :=
  [1116352408, 1899447441, 3049323471, 3921009573, 961987163, 1508970993,
   2453635748, 2870763221, 3624381080, 310598401, 607225278, 1426881987,
   1925078388, 2162078206, 2614888103, 3248222580, 3835390401, 4022224774,
   264347078, 604807628, 770255983, 1249150122, 1555081692, 1996064986,
   2554220882, 2821834349, 2952996808, 3210313671, 3336571891, 3584528711,
   113926993, 338241895, 666307205, 773529912, 1294757372, 1396182291,
   1695183700, 1986661051, 2177026350, 2456956037, 2730485921, 2820302411,
   3259730800, 3345764771, 3516065817, 3600352804, 4094571909, 275423344,
   430227734, 506948616, 659060556, 883997877, 958139571, 1322822218,
   1537002063, 1747873779, 1955562222, 2024104815, 2227730452, 2361852424,
   2428436474, 2756734187, 3204031479, 3329325298]

/-- SHA-256 initial hash state (decimal). -/
def shaH0 : List ℕ :=
  [1779033703, 3144134277, 1013904242, 2773480762, 1359893119, 2600822924,
   528734635, 1541459225]

/-- Big-endian packing of bytes into 32-bit words. -/
def bytesToWords : List ℕ → List ℕ
  | a :: b :: c :: d :: rest => (a * 16777216 + b * 65536 + c * 256 + d) :: bytesToWords rest
  | _ => []

/-- SHA-256 message padding to a multiple of 64 bytes with the 0x80 marker and
the 64-bit big-endian bit length. -/
def shaPad (msg : List ℕ) : List ℕ :=
  let len := msg.length
  let zeros := (55 + 64 - len % 64) % 64
  let bitLen := len * 8
  msg ++ [0x80] ++ List.replicate zeros 0 ++
    [(bitLen >>> 56) % 256, (bitLen >>> 48) % 256, (bitLen >>> 40) % 256, (bitLen >>> 32) % 256,
     (bitLen >>> 24) % 256, (bitLen >>> 16) % 256, (bitLen >>> 8) % 256, bitLen % 256]

/-- Fueled 64-byte chunking of the padded message. -/
def chunksAux : ℕ → List ℕ → List (List ℕ)
  | 0, _ => []
  | _, [] => []
  | n + 1, l => l.take 64 :: chunksAux n (l.drop 64)

/-- Split a padded message into 64-byte blocks. -/
def chunks64 (l : List ℕ) : List (List ℕ) := chunksAux l.length l

/-- SHA-256 message schedule: extend 16 words to 64. -/
def extendW (w16 : List ℕ) : List ℕ :=
  (List.range 48).foldl
    (fun w _ =>
      let n := w.length
      let s0 := let x := w.getD (n - 15) 0; (rotr 7 x) ^^^ (rotr 18 x) ^^^ (x >>> 3)
      let s1 := let x := w.getD (n - 2) 0; (rotr 17 x) ^^^ (rotr 19 x) ^^^ (x >>> 10)
      w ++ [w32 (w.getD (n - 16) 0 + s0 + w.getD (n - 7) 0 + s1)])
    w16

/-- SHA-256 compression of one 64-byte block into the running state. -/
def shaCompress (h : List ℕ) (block : List ℕ) : List ℕ :=
  let w := extendW (bytesToWords block)
  let init := (h.getD 0 0, h.getD 1 0, h.getD 2 0, h.getD 3 0,
               h.getD 4 0, h.getD 5 0, h.getD 6 0, h.getD 7 0)
  let fin :=
    (List.range 64).foldl
      (fun (st : ℕ × ℕ × ℕ × ℕ × ℕ × ℕ × ℕ × ℕ) i =>
        let (a, b, c, d, e, f, g, hh) := st
        let s1 := (rotr 6 e) ^^^ (rotr 11 e) ^^^ (rotr 25 e)
        let ch := (e &&& f) ^^^ ((4294967295 - e) &&& g)
        let t1 := w32 (hh + s1 + ch + shaK.getD i 0 + w.getD i 0)
        let s0 := (rotr 2 a) ^^^ (rotr 13 a) ^^^ (rotr 22 a)
        let mj := (a &&& b) ^^^ (a &&& c) ^^^ (b &&& c)
        let t2 := w32 (s0 + mj)
        (w32 (t1 + t2), a, b, c, w32 (d + t1), e, f, g))
      init
  match fin with
  | (a, b, c, d, e, f, g, hh) =>
    [w32 (h.getD 0 0 + a), w32 (h.getD 1 0 + b), w32 (h.getD 2 0 + c), w32 (h.getD 3 0 + d),
     w32 (h.getD 4 0 + e), w32 (h.getD 5 0 + f), w32 (h.getD 6 0 + g), w32 (h.getD 7 0 + hh)]

/-- Big-endian unpacking of 32-bit words into bytes. -/
def wordsToBytes : List ℕ → List ℕ
  | [] => []
  | x :: rest => (x >>> 24) % 256 :: (x >>> 16) % 256 :: (x >>> 8) % 256 :: x % 256 :: wordsToBytes rest

/-- SHA-256 digest (32 bytes) of a byte sequence. -/
def sha256 (msg : List ℕ) : List ℕ :=
  wordsToBytes ((chunks64 (shaPad msg)).foldl shaCompress shaH0)

/-- Lowercase hex digit. -/
def hexDigit (n : ℕ) : Char :=
  if n < 10 then Char.ofNat (48 + n) else Char.ofNat (87 + n)

/-- Lowercase hex encoding of bytes (hex.EncodeToString / %x). -/
def bytesToHex (bs : List ℕ) : String :=
  String.mk (bs.foldr (fun b acc => hexDigit (b / 16) :: hexDigit (b % 16) :: acc) [])

/-- Bytes of a string.  The strings hashed by this system are ASCII, where
UTF-8 bytes coincide with code points. -/
def strBytes (s : String) : List ℕ := s.data.map Char.toNat

/-- crypto/hmac: HMAC-SHA256 over a byte message with a byte key. -/
def hmacSha256 (key msg : List ℕ) : List ℕ :=
  let key1 := if 64 < key.length then sha256 key else key
  let key2 := key1 ++ List.replicate (64 - key1.length) 0
  let ipad := key2.map (fun b => b ^^^ 0x36)
  let opad := key2.map (fun b => b ^^^ 0x5c)
  sha256 (opad ++ sha256 (ipad ++ msg))

/-
  internal/handler/webhook.go: webhook intake.
-/

/-- handler.FieldError (src/unnamed/part_013). -/
structure FieldError where
  Field : String
  Message : String
  deriving DecidableEq, Repr

/-- handler.webhookPayload (internal/handler/webhook.go lines 34-41): the
decoded form of an intake request body. -/
structure WebhookPayload where
  EventID : String
  PaymentID : String
  Status : String
  ProviderRef : String
  Reason : String
  Timestamp : String
  deriving DecidableEq, Repr

/-- handler.webhookPayload.validate (internal/handler/webhook.go lines 43-65). -/
def webhookPayloadValidate (p : WebhookPayload) : List FieldError :=
  (if p.EventID == "" then [⟨"event_id", "required"⟩]
   else if ¬ isUUIDString p.EventID then [⟨"event_id", "must be a valid UUID"⟩]
   else []) ++
  (if p.PaymentID == "" then [⟨"payment_id", "required"⟩]
   else if ¬ isUUIDString p.PaymentID then [⟨"payment_id", "must be a valid UUID"⟩]
   else []) ++
  (if p.Status == "" then [⟨"status", "required"⟩]
   else if p.Status != "completed" && p.Status != "failed" then
     [⟨"status", "must be completed or failed"⟩]
   else [])

/-- handler.webhookPayload.eventType (internal/handler/webhook.go lines 67-72). -/
def webhookPayloadEventType (p : WebhookPayload) : String :=
  if p.Status == "completed" then "payment.completed" else "payment.failed"

/-- handler.verifyHMAC (internal/handler/webhook.go lines 135-143): an empty
header fails; otherwise constant-time equality with the hex HMAC of the body. -/
def verifyHMAC (body : List ℕ) (signature secret : String) : Bool :=
  if signature == "" then false
  else bytesToHex (hmacSha256 (strBytes secret) body) == signature

/-- handler.isDuplicateKey (internal/handler/webhook.go lines 145-151):
pq unique-violation code 23505. -/
def isDuplicateKey (e : DomainError) : Bool := e == DomainError.dbError "23505"

/-- HTTP response produced by the webhook intake handler: the envelope is
summarised by status code, the success payload status string, the app error,
or the field errors of a 400 VALIDATION_FAILED. -/
inductive WebhookResponse where
  | success (status : ℤ) (payloadStatus : String)
  | appError (e : AppError)
  | validationError (fields : List FieldError)
  deriving DecidableEq, Repr

/-- handler.WebhookHandler.ReceiveProviderWebhook (internal/handler/webhook.go
lines 76-133).  The request is its raw body bytes plus the result of
json.Unmarshal on them (`none` for bytes that do not decode); `newID` stands
for uuid.New(). -/
def ReceiveProviderWebhook (webhooks : List WebhookEvent) (body : List ℕ)
    (payload? : Option WebhookPayload) (signature secret : String)
    (newID : String) (now : ℤ) : WebhookResponse × List WebhookEvent :=
  if ¬ verifyHMAC body signature secret then
    (.appError ErrInvalidSignature, webhooks)
  else
    match payload? with
    | none => (.appError ErrInvalidRequest, webhooks)
    | some payload =>
      match webhookPayloadValidate payload with
      | _ :: _ => (.validationError (webhookPayloadValidate payload), webhooks)
      | [] =>
        let event : WebhookEvent :=
          ⟨newID, payload.EventID, webhookPayloadEventType payload,
           some ⟨payload.EventID, payload.PaymentID, payload.Status,
                 payload.ProviderRef, payload.Reason⟩,
           WebhookEventStatusPending, 0, none, now⟩
        match WebhookEventRepository.Create webhooks event with
        | .error e =>
            if isDuplicateKey e then (.success 200 "already_received", webhooks)
            else (.appError ErrInternalError, webhooks)
        | .ok webhooks1 => (.success 200 "received", webhooks1)

/-
  internal/middleware/idempotency.go: the idempotency cache middleware.
-/

/-- Response the middleware writes: status code, body bytes (modelled as a
string), and whether the X-Idempotent-Replayed header was set. -/
structure HttpResponse where
  StatusCode : ℤ
  Body : String
  Replayed : Bool
  deriving DecidableEq, Repr

/-- Result of one run of the middleware: the response written, the cache table
afterwards, and whether the wrapped handler was executed. -/
structure MiddlewareResult where
  response : HttpResponse
  cache : List IdempotencyCacheEntry
  executed : Bool
  deriving DecidableEq, Repr

/-- middleware.idempotencyTTL (internal/middleware/idempotency.go line 24):
24 hours, in seconds here. -/
def idempotencyTTL : ℤ := 24 * 60 * 60

/-- middleware.computeHash (internal/middleware/idempotency.go lines 99-105):
SHA-256 over method, then path, then body bytes. -/
def computeHash (method path : String) (body : String) : String :=
  bytesToHex (sha256 (strBytes method ++ strBytes path ++ strBytes body))

/-- Response body the envelope writer produces for an app error (summarised by
its code; the claims only compare replayed bodies verbatim). -/
def appErrorBody (e : AppError) : String := e.Code

/-- middleware.Idempotency (internal/middleware/idempotency.go lines 26-97).
`next` is the status and body the wrapped handler would produce;
`executed` records whether it ran. -/
def Idempotency (cache : List IdempotencyCacheEntry) (method path body key : String)
    (user? : Option String) (now : ℤ) (next : ℤ × String) : MiddlewareResult :=
  if method == "GET" || method == "HEAD" || method == "OPTIONS" then
    ⟨⟨next.1, next.2, false⟩, cache, true⟩
  else if key == "" then
    ⟨⟨ErrMissingIdempotencyKey.Status, appErrorBody ErrMissingIdempotencyKey, false⟩, cache, false⟩
  else
    match user? with
    | none => ⟨⟨ErrMissingToken.Status, appErrorBody ErrMissingToken, false⟩, cache, false⟩
    | some userID =>
      let reqHash := computeHash method path body
      match IdempotencyRepository.Get cache key userID now with
      | some cached =>
          if cached.RequestHash != reqHash then
            ⟨⟨ErrIdempotencyConflict.Status, appErrorBody ErrIdempotencyConflict, false⟩,
             cache, false⟩
          else
            ⟨⟨cached.StatusCode, cached.ResponseBody, true⟩, cache, false⟩
      | none =>
          let entry : IdempotencyCacheEntry :=
            ⟨key, userID, reqHash, next.1, next.2, now, now + idempotencyTTL⟩
          ⟨⟨next.1, next.2, false⟩, IdempotencyRepository.Set cache entry, true⟩

/-
  Spec-level quantities used to state the global double-entry invariant
  (spec §3 and §8): per-currency debit and credit totals of a set of ledger
  entries.
-/

/-- Sum of debit amounts in currency c across a list of ledger entries. -/
def debitTotal (entries : List LedgerEntry) (c : Currency) : ℤ :=
  (entries.filter (fun e => e.EntryType == EntryTypeDebit && e.Currency == c)).foldr
    (fun e acc => e.Amount + acc) 0

/-- Sum of credit amounts in currency c across a list of ledger entries. -/
def creditTotal (entries : List LedgerEntry) (c : Currency) : ℤ :=
  (entries.filter (fun e => e.EntryType == EntryTypeCredit && e.Currency == c)).foldr
    (fun e acc => e.Amount + acc) 0

/-- Per-currency books balance: for every currency the debit total equals the
credit total (spec: "For every payment p, the sum of debit amounts per
currency across ledger entries equals the sum of credit amounts"). -/
def balancedPerCurrency (entries : List LedgerEntry) : Prop :=
  ∀ c : Currency, debitTotal entries c = creditTotal entries c

/-- Ledger entries belonging to one payment. -/
def entriesOfPayment (ledger : List LedgerEntry) (paymentID : String) : List LedgerEntry :=
  ledger.filter (fun e => e.PaymentID == paymentID)

/-- Observable shape of a ledger entry: account, side, amount, currency
(used to state the reverse-order/inverted-sides relation of spec §4.H). -/
def entryShape (e : LedgerEntry) : String × EntryType × ℤ × Currency :=
  (e.AccountID, e.EntryType, e.Amount, e.Currency)

/-- Side inversion of a compensating entry. -/
def invertSide (t : EntryType) : EntryType :=
  if t == EntryTypeDebit then EntryTypeCredit else EntryTypeDebit

/-- Shape of the compensating entry for an original entry shape. -/
def invertShape (sh : String × EntryType × ℤ × Currency) :
    String × EntryType × ℤ × Currency :=
  (sh.1, invertSide sh.2.1, sh.2.2.1, sh.2.2.2)

/-
  ===================  THEOREMS  ===================
-/

/-- Helper: an if-guard of the Go form `if x < 1 then 1 else x` is a max. -/
theorem if_lt_one_eq_max (x : ℤ) : (if x < 1 then 1 else x) = max x 1 := by
  split <;> omega

/-- Helper: an if-guard of the Go form `if x < 0 then 0 else x` is a max. -/
theorem if_lt_zero_eq_max (x : ℤ) : (if x < 0 then 0 else x) = max x 0 := by
  split <;> omega

/-- Helper: value of `Dec.fromInt`. -/
theorem Dec.toRat_fromInt (n : ℤ) : (Dec.fromInt n).toRat = (n : ℚ) := by
  simp [Dec.fromInt, Dec.toRat]

/-- Helper: decimal multiplication is exact. -/
theorem Dec.toRat_mul (a b : Dec) : (a.mul b).toRat = a.toRat * b.toRat := by
  rcases a with ⟨an, as⟩; rcases b with ⟨bn, bs⟩
  simp only [Dec.mul, Dec.toRat]
  push_cast
  rw [pow_add]
  field_simp

/-- Helper: decimal subtraction is exact. -/
theorem Dec.toRat_sub (a b : Dec) : (a.sub b).toRat = a.toRat - b.toRat := by
  rcases a with ⟨an, as⟩; rcases b with ⟨bn, bs⟩
  simp only [Dec.sub, Dec.toRat]
  have ha : as ≤ max as bs := le_max_left _ _
  have hb : bs ≤ max as bs := le_max_right _ _
  have key : ∀ (s t : ℕ), t ≤ s → ((10 : ℚ)) ^ (s - t) * (10 : ℚ) ^ t = (10 : ℚ) ^ s := by
    intro s t hts
    rw [← pow_add, Nat.sub_add_cancel hts]
  push_cast
  rw [sub_div]
  congr 1
  · rw [div_eq_div_iff (by positivity) (by positivity)]
    rw [mul_assoc, key _ _ ha]
  · rw [div_eq_div_iff (by positivity) (by positivity)]
    rw [mul_assoc, key _ _ hb]

/-- Helper: `IntPart` on a scale-0 decimal is its coefficient. -/
theorem Dec.intPart_scale0 (n : ℤ) : Dec.intPart ⟨n, 0⟩ = n := by
  simp only [Dec.intPart]
  by_cases hn : 0 ≤ n <;> simp [hn]

/-- Helper: floor arithmetic behind half-away-from-zero rounding at scale k+1. -/
theorem floor_shift (n : ℤ) (k : ℕ) :
    ⌊(n : ℚ) / (10 : ℚ) ^ (k + 1) + 1 / 2⌋ = (n + (10 : ℤ) ^ (k + 1) / 2) / (10 : ℤ) ^ (k + 1) := by
  have h1 : (n : ℚ) / (10 : ℚ) ^ (k + 1) + 1 / 2
      = ((2 * n + 10 ^ (k + 1) : ℤ) : ℚ) / ((2 * 10 ^ (k + 1) : ℕ) : ℚ) := by
    push_cast
    field_simp
    ring
  rw [h1, Rat.floor_intCast_div_natCast]
  have h2 : (10 : ℤ) ^ (k + 1) = 2 * (5 * 10 ^ k) := by ring
  have h3 : ((2 * 10 ^ (k + 1) : ℕ) : ℤ) = 2 * (10 : ℤ) ^ (k + 1) := by push_cast; ring
  rw [h3, h2]
  rw [Int.mul_ediv_cancel_left _ (by norm_num)]
  have h4 : 2 * n + 2 * (5 * 10 ^ k) = 2 * (n + 5 * 10 ^ k) := by ring
  rw [h4, Int.mul_ediv_mul_of_pos _ _ (by norm_num)]

/-- Helper: shopspring `Round(0)` computes exactly the spec rounding
`round_half_away_from_zero` of the decimal value. -/
theorem Dec.roundHalfAway_eq (d : Dec) :
    d.roundHalfAway = roundHalfAwayFromZero d.toRat := by
  rcases d with ⟨n, s⟩
  cases s with
  | zero =>
    have ht : Dec.toRat ⟨n, 0⟩ = (n : ℚ) := by simp [Dec.toRat]
    rw [ht]
    simp only [Dec.roundHalfAway, roundHalfAwayFromZero]
    by_cases hn : (n : ℚ) < 0
    · rw [if_pos hn]
      have h5 : -(n : ℚ) + 1 / 2 = ((-n : ℤ) : ℚ) + 1 / 2 := by push_cast; ring
      rw [h5, Int.floor_int_add]
      norm_num
    · rw [if_neg hn]
      rw [show (n : ℚ) + 1 / 2 = ((n : ℤ) : ℚ) + 1 / 2 by norm_num, Int.floor_int_add]
      norm_num
  | succ k =>
    simp only [Dec.roundHalfAway, roundHalfAwayFromZero, Dec.toRat]
    have hppos : (0 : ℚ) < (10 : ℚ) ^ (k + 1) := by positivity
    by_cases hn : 0 ≤ n
    · rw [if_neg (by omega : ¬ (k + 1 = 0)), if_pos hn]
      have hq : ¬ ((n : ℚ) / (10 : ℚ) ^ (k + 1) < 0) := by
        push_neg
        apply div_nonneg (by exact_mod_cast hn) (le_of_lt hppos)
      rw [if_neg hq, floor_shift]
    · rw [if_neg (by omega : ¬ (k + 1 = 0)), if_neg hn]
      have hq : (n : ℚ) / (10 : ℚ) ^ (k + 1) < 0 := by
        apply div_neg_of_neg_of_pos _ hppos
        exact_mod_cast (by omega : n < 0)
      rw [if_pos hq]
      have hneg : -((n : ℚ) / (10 : ℚ) ^ (k + 1)) = ((-n : ℤ) : ℚ) / (10 : ℚ) ^ (k + 1) := by
        push_cast; ring
      rw [hneg, floor_shift]

/-- C2: for amount > 0 between two distinct supported currencies, Convert
returns dest = max(round_half_away_from_zero(amount × mid × (1 − spread)), 1)
and fee = max(round_half_away_from_zero(amount × mid) − dest, 0) in destination
minor units, computed with exact decimal arithmetic and a single final
rounding; if from == to it returns dest = amount and fee = 0; and converting
10000 USD to EUR with mid 0.92 and spread 0.005 yields dest = 9154, fee = 46. -/
theorem C2_fx_Convert_spec :
    (∀ (s : RateService) (amount : ℤ) (fromC toC : Currency) (mid : Dec),
      0 < amount → fromC ≠ toC →
      rates.lookup (pairKey fromC toC) = some mid →
      (fromC.IsValid && toC.IsValid) = true →
      Convert s amount fromC toC =
        .ok ⟨amount,
             max (roundHalfAwayFromZero ((amount : ℚ) * (mid.toRat * (1 - s.spreadPct.toRat)))) 1,
             max (roundHalfAwayFromZero ((amount : ℚ) * mid.toRat)
                  - max (roundHalfAwayFromZero
                          ((amount : ℚ) * (mid.toRat * (1 - s.spreadPct.toRat)))) 1) 0,
             mid.mul (Dec.one.sub s.spreadPct), mid⟩) ∧
    (∀ (s : RateService) (amount : ℤ) (c : Currency),
      0 < amount → c.IsValid = true →
      Convert s amount c c = .ok ⟨amount, amount, 0, Dec.one, Dec.one⟩) ∧
    Convert ⟨⟨5, 3⟩⟩ 10000 CurrencyUSD CurrencyEUR
      = .ok ⟨10000, 9154, 46, Dec.mul ⟨92, 2⟩ (Dec.one.sub ⟨5, 3⟩), ⟨92, 2⟩⟩ := by
  refine ⟨?_, ?_, by decide⟩
  · intro s amount fromC toC mid hpos hne hmid hvalid
    have hle : ¬ (amount ≤ 0) := by omega
    simp only [Convert, GetRate, hvalid, hmid, if_neg hle, not_true, Bool.not_eq_true,
      if_false, if_neg hne, ite_false, ite_true]
    simp only [Dec.round0, Dec.intPart_scale0, Dec.roundHalfAway_eq, Dec.toRat_mul,
      Dec.toRat_fromInt, Dec.toRat_sub]
    have hone : Dec.one.toRat = 1 := by simp [Dec.one, Dec.toRat]
    rw [hone, if_lt_one_eq_max, if_lt_zero_eq_max]
  · intro s amount c hpos hvalid
    have hle : ¬ (amount ≤ 0) := by omega
    simp only [Convert, GetRate, hvalid, if_neg hle, Bool.and_self, not_true,
      Bool.not_eq_true, if_false, ite_true]

/-- Witness for C2 at concrete inputs (GBP→USD at amount 250, and USD→USD). -/
theorem C2_fx_Convert_spec_witness :
    Convert ⟨⟨5, 3⟩⟩ 250 CurrencyGBP CurrencyUSD =
      .ok ⟨250,
           max (roundHalfAwayFromZero
                 ((250 : ℚ) * ((Dec.mk 1266 3).toRat * (1 - (Dec.mk 5 3).toRat)))) 1,
           max (roundHalfAwayFromZero ((250 : ℚ) * (Dec.mk 1266 3).toRat)
                - max (roundHalfAwayFromZero
                        ((250 : ℚ) * ((Dec.mk 1266 3).toRat * (1 - (Dec.mk 5 3).toRat)))) 1) 0,
           Dec.mul ⟨1266, 3⟩ (Dec.one.sub ⟨5, 3⟩), ⟨1266, 3⟩⟩ ∧
    Convert ⟨⟨5, 3⟩⟩ 77 CurrencyEUR CurrencyEUR = .ok ⟨77, 77, 0, Dec.one, Dec.one⟩ := by
  exact ⟨C2_fx_Convert_spec.1 ⟨⟨5, 3⟩⟩ 250 CurrencyGBP CurrencyUSD ⟨1266, 3⟩
          (by decide) (by decide) (by decide) (by decide),
         C2_fx_Convert_spec.2.1 ⟨⟨5, 3⟩⟩ 77 CurrencyEUR (by decide) (by decide)⟩

/-- Helper: membership in insertStr. -/
theorem mem_insertStr {x y : String} {l : List String} :
    y ∈ insertStr x l ↔ y = x ∨ y ∈ l := by
  induction l with
  | nil => simp [insertStr]
  | cons z zs ih =>
    simp only [insertStr]
    split
    · simp [List.mem_cons]
    · simp only [List.mem_cons, ih]
      tauto

/-- Helper: sortStrings permutes membership. -/
theorem mem_sortStrings {x : String} {l : List String} :
    x ∈ sortStrings l ↔ x ∈ l := by
  induction l with
  | nil => simp [sortStrings]
  | cons z zs ih => simp [sortStrings, mem_insertStr, ih]

/-- Helper: every id requested from lockAccountsInOrder.go is in the returned
map, bound to its table row. -/
theorem lockGo_lookup (accounts : List Account) (l : List String)
    (m : List (String × Account)) (h : lockAccountsInOrder.go accounts l = .ok m)
    (id : String) (hid : id ∈ l) :
    ∃ a, m.lookup id = some a ∧ findAccount accounts id = some a := by
  induction l generalizing m with
  | nil => cases hid
  | cons x xs ih =>
    simp only [lockAccountsInOrder.go, AccountRepository.GetForUpdate] at h
    cases hfa : findAccount accounts x with
    | none => rw [hfa] at h; cases h
    | some a =>
      rw [hfa] at h
      cases hgo : lockAccountsInOrder.go accounts xs with
      | error e => rw [hgo] at h; cases h
      | ok m2 =>
        rw [hgo] at h
        cases h
        rcases List.mem_cons.mp hid with h1 | h2
        · subst h1
          exact ⟨a, by simp, hfa⟩
        · rcases ih m2 hgo h2 with ⟨b, hb1, hb2⟩
          by_cases hxid : id = x
          · subst hxid
            exact ⟨a, by simp, hfa⟩
          · refine ⟨b, ?_, hb2⟩
            have hbe : (id == x) = false := beq_eq_false_iff_ne.mpr hxid
            rw [List.lookup, hbe]
            exact hb1

/-- Helper: every id passed to lockAccountsInOrder is in the returned map,
bound to its table row; hence `lockedGet` reads the table row. -/
theorem lockAccountsInOrder_get (accounts : List Account) (ids : List String)
    (locked : List (String × Account))
    (h : lockAccountsInOrder accounts ids = .ok locked)
    (id : String) (hid : id ∈ ids) :
    ∃ a, lockedGet locked id = a ∧ findAccount accounts id = some a := by
  unfold lockAccountsInOrder at h
  rcases lockGo_lookup accounts _ locked h id (mem_sortStrings.mpr hid) with ⟨a, h1, h2⟩
  exact ⟨a, by simp [lockedGet, h1], h2⟩

/-- Helper: full characterization of a successful same-currency external
payout run. -/
theorem execSameExt_run (bank : Bank) (req : ExternalPayoutRequest)
    (senderID pid : String) (now : ℤ) (p : Payment) (bank1 : Bank)
    (h : executeSameCurrencyExternalPayout bank req senderID pid now = .ok (p, bank1)) :
    ∃ outgoing locked,
      getSystemAccount bank.accounts AccountTypeOutgoing req.DestCurrency = .ok outgoing ∧
      lockAccountsInOrder bank.accounts [senderID, outgoing.ID] = .ok locked ∧
      p = buildExternalPayment req senderID req.Amount none none pid now ∧
      req.Amount ≤ (lockedGet locked senderID).Balance ∧
      bank1.users = bank.users ∧
      bank1.payments = bank.payments ++ [p] ∧
      bank1.ledger = bank.ledger ++
        writeExternalLedgerEntries p (lockedGet locked senderID) (lockedGet locked outgoing.ID) ∧
      bank1.events = bank.events ++
        [writePaymentEvent pid PaymentEventTypeCreated req.SenderUserID now] ∧
      ∃ accounts1,
        AccountRepository.UpdateBalance bank.accounts (lockedGet locked senderID).ID
          ((lockedGet locked senderID).Balance - req.Amount)
          ((lockedGet locked senderID).Version + 1) = .ok accounts1 ∧
        AccountRepository.UpdateBalance accounts1 (lockedGet locked outgoing.ID).ID
          ((lockedGet locked outgoing.ID).Balance + req.Amount)
          ((lockedGet locked outgoing.ID).Version + 1) = .ok bank1.accounts := by
  simp only [executeSameCurrencyExternalPayout] at h
  cases hog : getSystemAccount bank.accounts AccountTypeOutgoing req.DestCurrency with
  | error e => rw [hog] at h; cases h
  | ok outgoing =>
  rw [hog] at h
  simp only [] at h
  cases hlock : lockAccountsInOrder bank.accounts [senderID, outgoing.ID] with
  | error e => rw [hlock] at h; cases h
  | ok locked =>
  rw [hlock] at h
  simp only [] at h
  cases hact : verifyAccountActive (lockedGet locked senderID) with
  | error e => rw [hact] at h; cases h
  | ok u =>
  rw [hact] at h
  simp only [] at h
  by_cases hbal : (lockedGet locked senderID).Balance < req.Amount
  · rw [if_pos hbal] at h; cases h
  rw [if_neg hbal] at h
  simp only [PaymentRepository.Create] at h
  by_cases hdup : bank.payments.any (fun q => q.IdempotencyKey ==
      (buildExternalPayment req senderID req.Amount none none pid now).IdempotencyKey)
  · rw [if_pos hdup] at h; cases h
  rw [if_neg hdup] at h
  simp only [] at h
  cases hub1 : AccountRepository.UpdateBalance bank.accounts (lockedGet locked senderID).ID
      ((lockedGet locked senderID).Balance - req.Amount)
      ((lockedGet locked senderID).Version + 1) with
  | error e => rw [hub1] at h; cases h
  | ok accounts1 =>
  rw [hub1] at h
  simp only [] at h
  cases hub2 : AccountRepository.UpdateBalance accounts1 (lockedGet locked outgoing.ID).ID
      ((lockedGet locked outgoing.ID).Balance + req.Amount)
      ((lockedGet locked outgoing.ID).Version + 1) with
  | error e => rw [hub2] at h; cases h
  | ok accounts2 =>
  rw [hub2] at h
  simp only [] at h
  cases h
  exact ⟨outgoing, locked, rfl, hlock, rfl, by omega, rfl, rfl, rfl, rfl,
    accounts1, hub1, hub2⟩

/-- Helper: full characterization of a successful cross-currency external
payout run. -/
theorem execCrossExt_run (s : Service) (bank : Bank) (req : ExternalPayoutRequest)
    (senderID pid : String) (now : ℤ) (p : Payment) (bank1 : Bank)
    (h : executeCrossCurrencyExternalPayout s bank req senderID pid now = .ok (p, bank1)) :
    ∃ conversion fxPoolSource fxPoolDest outgoing locked,
      Convert s.fx req.Amount req.SourceCurrency req.DestCurrency = .ok conversion ∧
      getSystemAccount bank.accounts AccountTypeFXPool req.SourceCurrency = .ok fxPoolSource ∧
      getSystemAccount bank.accounts AccountTypeFXPool req.DestCurrency = .ok fxPoolDest ∧
      getSystemAccount bank.accounts AccountTypeOutgoing req.DestCurrency = .ok outgoing ∧
      lockAccountsInOrder bank.accounts [senderID, fxPoolSource.ID, fxPoolDest.ID, outgoing.ID]
        = .ok locked ∧
      p = { buildExternalPayment req senderID conversion.DestAmount
              (some conversion.ExchangeRate) (some req.DestCurrency) pid now with
            FeeAmount := conversion.FeeAmount } ∧
      req.Amount ≤ (lockedGet locked senderID).Balance ∧
      conversion.DestAmount ≤ (lockedGet locked fxPoolDest.ID).Balance ∧
      bank1.users = bank.users ∧
      bank1.payments = bank.payments ++ [p] ∧
      bank1.ledger = bank.ledger ++ writeCrossCurrencyExternalLedgerEntries p
        (lockedGet locked senderID) (lockedGet locked fxPoolSource.ID)
        (lockedGet locked fxPoolDest.ID) (lockedGet locked outgoing.ID) ∧
      bank1.events = bank.events ++
        [writePaymentEvent pid PaymentEventTypeCreated req.SenderUserID now] ∧
      ∃ accounts1 accounts2 accounts3,
        AccountRepository.UpdateBalance bank.accounts (lockedGet locked senderID).ID
          ((lockedGet locked senderID).Balance - req.Amount)
          ((lockedGet locked senderID).Version + 1) = .ok accounts1 ∧
        AccountRepository.UpdateBalance accounts1 (lockedGet locked fxPoolSource.ID).ID
          ((lockedGet locked fxPoolSource.ID).Balance + req.Amount)
          ((lockedGet locked fxPoolSource.ID).Version + 1) = .ok accounts2 ∧
        AccountRepository.UpdateBalance accounts2 (lockedGet locked fxPoolDest.ID).ID
          ((lockedGet locked fxPoolDest.ID).Balance - conversion.DestAmount)
          ((lockedGet locked fxPoolDest.ID).Version + 1) = .ok accounts3 ∧
        AccountRepository.UpdateBalance accounts3 (lockedGet locked outgoing.ID).ID
          ((lockedGet locked outgoing.ID).Balance + conversion.DestAmount)
          ((lockedGet locked outgoing.ID).Version + 1) = .ok bank1.accounts := by
  simp only [executeCrossCurrencyExternalPayout] at h
  cases hcv : Convert s.fx req.Amount req.SourceCurrency req.DestCurrency with
  | error e => rw [hcv] at h; cases h
  | ok conversion =>
  rw [hcv] at h
  simp only [] at h
  cases hfs : getSystemAccount bank.accounts AccountTypeFXPool req.SourceCurrency with
  | error e => rw [hfs] at h; cases h
  | ok fxPoolSource =>
  rw [hfs] at h
  simp only [] at h
  cases hfd : getSystemAccount bank.accounts AccountTypeFXPool req.DestCurrency with
  | error e => rw [hfd] at h; cases h
  | ok fxPoolDest =>
  rw [hfd] at h
  simp only [] at h
  cases hog : getSystemAccount bank.accounts AccountTypeOutgoing req.DestCurrency with
  | error e => rw [hog] at h; cases h
  | ok outgoing =>
  rw [hog] at h
  simp only [] at h
  cases hlock : lockAccountsInOrder bank.accounts
      [senderID, fxPoolSource.ID, fxPoolDest.ID, outgoing.ID] with
  | error e => rw [hlock] at h; cases h
  | ok locked =>
  rw [hlock] at h
  simp only [] at h
  cases hact : verifyAccountActive (lockedGet locked senderID) with
  | error e => rw [hact] at h; cases h
  | ok u =>
  rw [hact] at h
  simp only [] at h
  by_cases hbal : (lockedGet locked senderID).Balance < req.Amount
  · rw [if_pos hbal] at h; cases h
  rw [if_neg hbal] at h
  by_cases hfxbal : (lockedGet locked fxPoolDest.ID).Balance < conversion.DestAmount
  · rw [if_pos hfxbal] at h; cases h
  rw [if_neg hfxbal] at h
  simp only [PaymentRepository.Create] at h
  by_cases hdup : bank.payments.any (fun q => q.IdempotencyKey ==
      ({ buildExternalPayment req senderID conversion.DestAmount
           (some conversion.ExchangeRate) (some req.DestCurrency) pid now with
         FeeAmount := conversion.FeeAmount } : Payment).IdempotencyKey)
  · rw [if_pos hdup] at h; cases h
  rw [if_neg hdup] at h
  simp only [] at h
  cases hub1 : AccountRepository.UpdateBalance bank.accounts (lockedGet locked senderID).ID
      ((lockedGet locked senderID).Balance - req.Amount)
      ((lockedGet locked senderID).Version + 1) with
  | error e => rw [hub1] at h; cases h
  | ok accounts1 =>
  rw [hub1] at h
  simp only [] at h
  cases hub2 : AccountRepository.UpdateBalance accounts1 (lockedGet locked fxPoolSource.ID).ID
      ((lockedGet locked fxPoolSource.ID).Balance + req.Amount)
      ((lockedGet locked fxPoolSource.ID).Version + 1) with
  | error e => rw [hub2] at h; cases h
  | ok accounts2 =>
  rw [hub2] at h
  simp only [] at h
  cases hub3 : AccountRepository.UpdateBalance accounts2 (lockedGet locked fxPoolDest.ID).ID
      ((lockedGet locked fxPoolDest.ID).Balance - conversion.DestAmount)
      ((lockedGet locked fxPoolDest.ID).Version + 1) with
  | error e => rw [hub3] at h; cases h
  | ok accounts3 =>
  rw [hub3] at h
  simp only [] at h
  cases hub4 : AccountRepository.UpdateBalance accounts3 (lockedGet locked outgoing.ID).ID
      ((lockedGet locked outgoing.ID).Balance + conversion.DestAmount)
      ((lockedGet locked outgoing.ID).Version + 1) with
  | error e => rw [hub4] at h; cases h
  | ok accounts4 =>
  rw [hub4] at h
  simp only [] at h
  cases h
  exact ⟨conversion, fxPoolSource, fxPoolDest, outgoing, locked, rfl, rfl, rfl, rfl,
    hlock, rfl, by omega, by omega, rfl, rfl, rfl, rfl,
    accounts1, accounts2, accounts3, hub1, hub2, hub3, hub4⟩

/-- Helper: full characterization of a successful same-currency internal
transfer run. -/
theorem execSameTransfer_run (bank : Bank) (req : InternalTransferRequest)
    (senderID recipientID pid : String) (now : ℤ) (p : Payment) (bank1 : Bank)
    (h : executeSameCurrencyTransfer bank req senderID recipientID pid now = .ok (p, bank1)) :
    ∃ locked,
      lockAccountsInOrder bank.accounts [senderID, recipientID] = .ok locked ∧
      p = { emptyPayment with
              ID := pid, IdempotencyKey := req.IdempotencyKey,
              Type' := PaymentTypeInternalTransfer, Status := PaymentStatusCompleted,
              SourceAccountID := senderID, DestAccountID := some recipientID,
              SourceAmount := req.Amount, SourceCurrency := req.SourceCurrency,
              DestAmount := req.Amount, DestCurrency := req.DestCurrency,
              CreatedAt := now, UpdatedAt := now, CompletedAt := some now } ∧
      req.Amount ≤ (lockedGet locked senderID).Balance ∧
      bank1.users = bank.users ∧
      bank1.payments = bank.payments ++ [p] ∧
      bank1.ledger = bank.ledger ++
        writeLedgerEntries p (lockedGet locked senderID) (lockedGet locked recipientID) ∧
      bank1.events = bank.events ++
        [writePaymentEvent pid PaymentEventTypeCompleted req.SenderUserID now] ∧
      ∃ accounts1,
        AccountRepository.UpdateBalance bank.accounts senderID
          ((lockedGet locked senderID).Balance - req.Amount)
          ((lockedGet locked senderID).Version + 1) = .ok accounts1 ∧
        AccountRepository.UpdateBalance accounts1 recipientID
          ((lockedGet locked recipientID).Balance + req.Amount)
          ((lockedGet locked recipientID).Version + 1) = .ok bank1.accounts := by
  simp only [executeSameCurrencyTransfer] at h
  cases hlock : lockAccountsInOrder bank.accounts [senderID, recipientID] with
  | error e => rw [hlock] at h; cases h
  | ok locked =>
  rw [hlock] at h
  simp only [] at h
  cases hact : verifyAccountActive (lockedGet locked senderID) with
  | error e => rw [hact] at h; cases h
  | ok u =>
  rw [hact] at h
  simp only [] at h
  cases hact2 : verifyAccountActive (lockedGet locked recipientID) with
  | error e => rw [hact2] at h; cases h
  | ok u2 =>
  rw [hact2] at h
  simp only [] at h
  by_cases hbal : (lockedGet locked senderID).Balance < req.Amount
  · rw [if_pos hbal] at h; cases h
  rw [if_neg hbal] at h
  simp only [PaymentRepository.Create] at h
  by_cases hdup : bank.payments.any (fun q => q.IdempotencyKey == req.IdempotencyKey)
  · rw [if_pos hdup] at h; cases h
  rw [if_neg hdup] at h
  simp only [] at h
  cases hub1 : AccountRepository.UpdateBalance bank.accounts senderID
      ((lockedGet locked senderID).Balance - req.Amount)
      ((lockedGet locked senderID).Version + 1) with
  | error e => rw [hub1] at h; cases h
  | ok accounts1 =>
  rw [hub1] at h
  simp only [] at h
  cases hub2 : AccountRepository.UpdateBalance accounts1 recipientID
      ((lockedGet locked recipientID).Balance + req.Amount)
      ((lockedGet locked recipientID).Version + 1) with
  | error e => rw [hub2] at h; cases h
  | ok accounts2 =>
  rw [hub2] at h
  simp only [] at h
  cases h
  exact ⟨locked, rfl, rfl, by omega, rfl, rfl, rfl, rfl, accounts1, hub1, hub2⟩

/-- Helper: full characterization of a successful cross-currency internal
transfer run. -/
theorem execCrossTransfer_run (s : Service) (bank : Bank) (req : InternalTransferRequest)
    (senderID recipientID pid : String) (now : ℤ) (p : Payment) (bank1 : Bank)
    (h : executeCrossCurrencyTransfer s bank req senderID recipientID pid now = .ok (p, bank1)) :
    ∃ conversion fxPoolSource fxPoolDest locked,
      Convert s.fx req.Amount req.SourceCurrency req.DestCurrency = .ok conversion ∧
      getSystemAccount bank.accounts AccountTypeFXPool req.SourceCurrency = .ok fxPoolSource ∧
      getSystemAccount bank.accounts AccountTypeFXPool req.DestCurrency = .ok fxPoolDest ∧
      lockAccountsInOrder bank.accounts [senderID, fxPoolSource.ID, fxPoolDest.ID, recipientID]
        = .ok locked ∧
      p = { emptyPayment with
              ID := pid, IdempotencyKey := req.IdempotencyKey,
              Type' := PaymentTypeInternalTransfer, Status := PaymentStatusCompleted,
              SourceAccountID := senderID, DestAccountID := some recipientID,
              SourceAmount := req.Amount, SourceCurrency := req.SourceCurrency,
              DestAmount := conversion.DestAmount, DestCurrency := req.DestCurrency,
              ExchangeRate := some conversion.ExchangeRate,
              FeeAmount := conversion.FeeAmount, FeeCurrency := some req.DestCurrency,
              CreatedAt := now, UpdatedAt := now, CompletedAt := some now } ∧
      bank1.users = bank.users ∧
      bank1.payments = bank.payments ++ [p] ∧
      bank1.ledger = bank.ledger ++ writeCrossCurrencyLedgerEntries p
        (lockedGet locked senderID) (lockedGet locked fxPoolSource.ID)
        (lockedGet locked fxPoolDest.ID) (lockedGet locked recipientID) ∧
      bank1.events = bank.events ++
        [writePaymentEvent pid PaymentEventTypeCompleted req.SenderUserID now] := by
  simp only [executeCrossCurrencyTransfer] at h
  cases hcv : Convert s.fx req.Amount req.SourceCurrency req.DestCurrency with
  | error e => rw [hcv] at h; cases h
  | ok conversion =>
  rw [hcv] at h
  simp only [] at h
  cases hfs : getSystemAccount bank.accounts AccountTypeFXPool req.SourceCurrency with
  | error e => rw [hfs] at h; cases h
  | ok fxPoolSource =>
  rw [hfs] at h
  simp only [] at h
  cases hfd : getSystemAccount bank.accounts AccountTypeFXPool req.DestCurrency with
  | error e => rw [hfd] at h; cases h
  | ok fxPoolDest =>
  rw [hfd] at h
  simp only [] at h
  cases hlock : lockAccountsInOrder bank.accounts
      [senderID, fxPoolSource.ID, fxPoolDest.ID, recipientID] with
  | error e => rw [hlock] at h; cases h
  | ok locked =>
  rw [hlock] at h
  simp only [] at h
  cases hact : verifyAccountActive (lockedGet locked senderID) with
  | error e => rw [hact] at h; cases h
  | ok u =>
  rw [hact] at h
  simp only [] at h
  cases hact2 : verifyAccountActive (lockedGet locked recipientID) with
  | error e => rw [hact2] at h; cases h
  | ok u2 =>
  rw [hact2] at h
  simp only [] at h
  by_cases hbal : (lockedGet locked senderID).Balance < req.Amount
  · rw [if_pos hbal] at h; cases h
  rw [if_neg hbal] at h
  by_cases hfxbal : (lockedGet locked fxPoolDest.ID).Balance < conversion.DestAmount
  · rw [if_pos hfxbal] at h; cases h
  rw [if_neg hfxbal] at h
  simp only [PaymentRepository.Create] at h
  by_cases hdup : bank.payments.any (fun q => q.IdempotencyKey == req.IdempotencyKey)
  · rw [if_pos hdup] at h; cases h
  rw [if_neg hdup] at h
  simp only [] at h
  cases hub1 : AccountRepository.UpdateBalance bank.accounts (lockedGet locked senderID).ID
      ((lockedGet locked senderID).Balance - req.Amount)
      ((lockedGet locked senderID).Version + 1) with
  | error e => rw [hub1] at h; cases h
  | ok accounts1 =>
  rw [hub1] at h
  simp only [] at h
  cases hub2 : AccountRepository.UpdateBalance accounts1 (lockedGet locked fxPoolSource.ID).ID
      ((lockedGet locked fxPoolSource.ID).Balance + req.Amount)
      ((lockedGet locked fxPoolSource.ID).Version + 1) with
  | error e => rw [hub2] at h; cases h
  | ok accounts2 =>
  rw [hub2] at h
  simp only [] at h
  cases hub3 : AccountRepository.UpdateBalance accounts2 (lockedGet locked fxPoolDest.ID).ID
      ((lockedGet locked fxPoolDest.ID).Balance - conversion.DestAmount)
      ((lockedGet locked fxPoolDest.ID).Version + 1) with
  | error e => rw [hub3] at h; cases h
  | ok accounts3 =>
  rw [hub3] at h
  simp only [] at h
  cases hub4 : AccountRepository.UpdateBalance accounts3 (lockedGet locked recipientID).ID
      ((lockedGet locked recipientID).Balance + conversion.DestAmount)
      ((lockedGet locked recipientID).Version + 1) with
  | error e => rw [hub4] at h; cases h
  | ok accounts4 =>
  rw [hub4] at h
  simp only [] at h
  cases h
  exact ⟨conversion, fxPoolSource, fxPoolDest, locked, rfl, rfl, rfl, hlock,
    rfl, rfl, rfl, rfl, rfl⟩

/-- Helper: run of writeReversalEntries on a two-entry list. -/
theorem writeReversal_run_two (accs : List Account) (ledger : List LedgerEntry)
    (pid : String) (e1 e2 : ReversalEntry) (now : ℤ)
    (accs2 : List Account) (ledger2 : List LedgerEntry)
    (h : writeReversalEntries accs ledger pid [e1, e2] now = .ok (accs2, ledger2)) :
    ∃ accs1,
      AccountRepository.UpdateBalance accs e1.account.ID (reversalNewBalance e1)
        (e1.account.Version + 1) = .ok accs1 ∧
      AccountRepository.UpdateBalance accs1 e2.account.ID (reversalNewBalance e2)
        (e2.account.Version + 1) = .ok accs2 ∧
      ledger2 = ledger ++ [reversalLedgerEntry pid e1 now, reversalLedgerEntry pid e2 now] := by
  simp only [writeReversalEntries] at h
  cases hub1 : AccountRepository.UpdateBalance accs e1.account.ID (reversalNewBalance e1)
      (e1.account.Version + 1) with
  | error e => rw [hub1] at h; cases h
  | ok accs1 =>
  rw [hub1] at h
  simp only [] at h
  cases hub2 : AccountRepository.UpdateBalance accs1 e2.account.ID (reversalNewBalance e2)
      (e2.account.Version + 1) with
  | error e => rw [hub2] at h; cases h
  | ok accsB =>
  rw [hub2] at h
  simp only [] at h
  cases h
  exact ⟨accs1, rfl, hub2, by simp⟩

/-- Helper: run of writeReversalEntries on a four-entry list. -/
theorem writeReversal_run_four (accs : List Account) (ledger : List LedgerEntry)
    (pid : String) (e1 e2 e3 e4 : ReversalEntry) (now : ℤ)
    (accs4 : List Account) (ledger4 : List LedgerEntry)
    (h : writeReversalEntries accs ledger pid [e1, e2, e3, e4] now = .ok (accs4, ledger4)) :
    ∃ accs1 accs2 accs3,
      AccountRepository.UpdateBalance accs e1.account.ID (reversalNewBalance e1)
        (e1.account.Version + 1) = .ok accs1 ∧
      AccountRepository.UpdateBalance accs1 e2.account.ID (reversalNewBalance e2)
        (e2.account.Version + 1) = .ok accs2 ∧
      AccountRepository.UpdateBalance accs2 e3.account.ID (reversalNewBalance e3)
        (e3.account.Version + 1) = .ok accs3 ∧
      AccountRepository.UpdateBalance accs3 e4.account.ID (reversalNewBalance e4)
        (e4.account.Version + 1) = .ok accs4 ∧
      ledger4 = ledger ++ [reversalLedgerEntry pid e1 now, reversalLedgerEntry pid e2 now,
        reversalLedgerEntry pid e3 now, reversalLedgerEntry pid e4 now] := by
  simp only [writeReversalEntries] at h
  cases hub1 : AccountRepository.UpdateBalance accs e1.account.ID (reversalNewBalance e1)
      (e1.account.Version + 1) with
  | error e => rw [hub1] at h; cases h
  | ok accs1 =>
  rw [hub1] at h
  simp only [] at h
  cases hub2 : AccountRepository.UpdateBalance accs1 e2.account.ID (reversalNewBalance e2)
      (e2.account.Version + 1) with
  | error e => rw [hub2] at h; cases h
  | ok accs2 =>
  rw [hub2] at h
  simp only [] at h
  cases hub3 : AccountRepository.UpdateBalance accs2 e3.account.ID (reversalNewBalance e3)
      (e3.account.Version + 1) with
  | error e => rw [hub3] at h; cases h
  | ok accs3 =>
  rw [hub3] at h
  simp only [] at h
  cases hub4 : AccountRepository.UpdateBalance accs3 e4.account.ID (reversalNewBalance e4)
      (e4.account.Version + 1) with
  | error e => rw [hub4] at h; cases h
  | ok accsB =>
  rw [hub4] at h
  simp only [] at h
  cases h
  exact ⟨accs1, accs2, accs3, rfl, hub2, hub3, hub4, by simp⟩

/-- Helper: full characterization of a successful same-currency handleFailed
run. -/
theorem handleFailed_run_same (bank : Bank) (payment : Payment) (reason : String)
    (now : ℤ) (bank2 : Bank)
    (hsame : payment.SourceCurrency = payment.DestCurrency)
    (h : handleFailed bank payment reason now = .ok bank2) :
    ∃ outgoing locked,
      getSystemAccount bank.accounts AccountTypeOutgoing payment.DestCurrency = .ok outgoing ∧
      lockAccountsInOrder bank.accounts [payment.SourceAccountID, outgoing.ID] = .ok locked ∧
      PaymentRepository.UpdateStatus bank.payments payment.ID PaymentStatusFailed
        none (some reason) none now = .ok bank2.payments ∧
      writeReversalEntries bank.accounts bank.ledger payment.ID
        (sameCurrencyReversalEntries payment locked outgoing.ID) now
        = .ok (bank2.accounts, bank2.ledger) ∧
      bank2.users = bank.users ∧
      bank2.events = bank.events ++
        [⟨"", payment.ID, PaymentEventTypeFailed, "system", some reason, now⟩] := by
  have hbne : (payment.SourceCurrency != payment.DestCurrency) = false := by
    simp [bne, hsame]
  simp only [handleFailed, hbne, Bool.false_eq_true, if_false] at h
  cases hog : getSystemAccount bank.accounts AccountTypeOutgoing payment.DestCurrency with
  | error e => rw [hog] at h; cases h
  | ok outgoing =>
  rw [hog] at h
  simp only [] at h
  cases hlock : lockAccountsInOrder bank.accounts [payment.SourceAccountID, outgoing.ID] with
  | error e => rw [hlock] at h; cases h
  | ok locked =>
  rw [hlock] at h
  simp only [] at h
  cases hus : PaymentRepository.UpdateStatus bank.payments payment.ID PaymentStatusFailed
      none (some reason) none now with
  | error e => rw [hus] at h; cases h
  | ok payments1 =>
  rw [hus] at h
  simp only [] at h
  cases hwr : writeReversalEntries bank.accounts bank.ledger payment.ID
      (sameCurrencyReversalEntries payment locked outgoing.ID) now with
  | error e => rw [hwr] at h; cases h
  | ok pair =>
  rw [hwr] at h
  simp only [] at h
  cases h
  exact ⟨outgoing, locked, rfl, hlock, rfl, by rw [hwr], rfl, rfl⟩

/-- Helper: full characterization of a successful cross-currency handleFailed
run. -/
theorem handleFailed_run_cross (bank : Bank) (payment : Payment) (reason : String)
    (now : ℤ) (bank2 : Bank)
    (hcross : payment.SourceCurrency ≠ payment.DestCurrency)
    (h : handleFailed bank payment reason now = .ok bank2) :
    ∃ outgoing fxSrc fxDst locked,
      getSystemAccount bank.accounts AccountTypeOutgoing payment.DestCurrency = .ok outgoing ∧
      getSystemAccount bank.accounts AccountTypeFXPool payment.SourceCurrency = .ok fxSrc ∧
      getSystemAccount bank.accounts AccountTypeFXPool payment.DestCurrency = .ok fxDst ∧
      lockAccountsInOrder bank.accounts
        [payment.SourceAccountID, outgoing.ID, fxSrc.ID, fxDst.ID] = .ok locked ∧
      PaymentRepository.UpdateStatus bank.payments payment.ID PaymentStatusFailed
        none (some reason) none now = .ok bank2.payments ∧
      writeReversalEntries bank.accounts bank.ledger payment.ID
        (crossCurrencyReversalEntries payment locked outgoing.ID fxSrc.ID fxDst.ID) now
        = .ok (bank2.accounts, bank2.ledger) ∧
      bank2.users = bank.users ∧
      bank2.events = bank.events ++
        [⟨"", payment.ID, PaymentEventTypeFailed, "system", some reason, now⟩] := by
  have hbne : (payment.SourceCurrency != payment.DestCurrency) = true := by
    simp [bne, hcross]
  simp only [handleFailed, hbne, if_true] at h
  cases hog : getSystemAccount bank.accounts AccountTypeOutgoing payment.DestCurrency with
  | error e => rw [hog] at h; cases h
  | ok outgoing =>
  rw [hog] at h
  simp only [] at h
  cases hfs : getSystemAccount bank.accounts AccountTypeFXPool payment.SourceCurrency with
  | error e => rw [hfs] at h; cases h
  | ok fxSrc =>
  rw [hfs] at h
  simp only [] at h
  cases hfd : getSystemAccount bank.accounts AccountTypeFXPool payment.DestCurrency with
  | error e => rw [hfd] at h; cases h
  | ok fxDst =>
  rw [hfd] at h
  simp only [] at h
  cases hlock : lockAccountsInOrder bank.accounts
      [payment.SourceAccountID, outgoing.ID, fxSrc.ID, fxDst.ID] with
  | error e => rw [hlock] at h; cases h
  | ok locked =>
  rw [hlock] at h
  simp only [] at h
  cases hus : PaymentRepository.UpdateStatus bank.payments payment.ID PaymentStatusFailed
      none (some reason) none now with
  | error e => rw [hus] at h; cases h
  | ok payments1 =>
  rw [hus] at h
  simp only [] at h
  cases hwr : writeReversalEntries bank.accounts bank.ledger payment.ID
      (crossCurrencyReversalEntries payment locked outgoing.ID fxSrc.ID fxDst.ID) now with
  | error e => rw [hwr] at h; cases h
  | ok pair =>
  rw [hwr] at h
  simp only [] at h
  cases h
  exact ⟨outgoing, fxSrc, fxDst, locked, rfl, rfl, rfl, hlock, rfl, by rw [hwr], rfl, rfl⟩

/-- Helper: the per-currency limit defaults to 0 outside USD, EUR, GBP. -/
theorem txLimitForCurrency_invalid (s : Service) (c : Currency)
    (h : c.IsValid = false) : txLimitForCurrency s c = 0 := by
  simp only [Currency.IsValid, Bool.or_eq_false_iff, decide_eq_false_iff_not] at h
  obtain ⟨⟨h1, h2⟩, h3⟩ := h
  simp [txLimitForCurrency, beq_iff_eq, h1, h2, h3]

/-- C10: for every source currency outside USD, EUR, GBP the transaction limit
defaults to 0, so an internal transfer or external payout with positive amount
in such a currency fails validation with LIMIT_EXCEEDED (not
INVALID_CURRENCY), whatever the sender balance — validation precedes the
transaction, so no account is locked and no balance is touched (an error
return commits nothing in this model). -/
theorem C10_unsupported_currency_limit :
    (∀ (s : Service) (c : Currency), c.IsValid = false → txLimitForCurrency s c = 0) ∧
    (∀ (s : Service) (bank : Bank) (req : InternalTransferRequest)
       (pid : String) (now : ℤ) (senderAcct recipientAcct : Account),
      resolveTransferAccounts bank req = .ok (senderAcct, recipientAcct) →
      req.SourceCurrency.IsValid = false →
      0 < req.Amount →
      (senderAcct.UserID == recipientAcct.UserID &&
        req.SourceCurrency == req.DestCurrency) = false →
      senderAcct.Status = AccountStatusActive →
      recipientAcct.Status = AccountStatusActive →
      CreateInternalTransfer s bank req pid now = .error .limitExceeded) ∧
    (∀ (s : Service) (bank : Bank) (req : ExternalPayoutRequest)
       (pid : String) (now : ℤ) (senderAcct : Account),
      AccountRepository.GetByUserAndCurrency bank.accounts req.SenderUserID
        req.SourceCurrency AccountTypeUser = .ok senderAcct →
      PaymentRepository.GetByIdempotencyKey bank.payments req.IdempotencyKey
        = .error .notFound →
      req.SourceCurrency.IsValid = false →
      0 < req.Amount →
      req.DestIBAN ≠ "" →
      req.DestBankName ≠ "" →
      senderAcct.Status = AccountStatusActive →
      CreateExternalPayout s bank req pid now = .error .limitExceeded) ∧
    DomainError.limitExceeded ≠ DomainError.invalidCurrency := by
  refine ⟨txLimitForCurrency_invalid, ?_, ?_, by decide⟩
  · intro s bank req pid now senderAcct recipientAcct hres hcur hpos hself hs hr
    have hlim : txLimitForCurrency s req.SourceCurrency = 0 :=
      txLimitForCurrency_invalid s _ hcur
    have hgt : req.Amount > txLimitForCurrency s req.SourceCurrency := by omega
    have hle : ¬ (req.Amount ≤ 0) := by omega
    have hfr : (senderAcct.Status == AccountStatusFrozen) = false := by
      rw [hs]; decide
    have hac : (senderAcct.Status != AccountStatusActive) = false := by
      rw [hs]; decide
    have hfr2 : (recipientAcct.Status == AccountStatusFrozen) = false := by
      rw [hr]; decide
    have hac2 : (recipientAcct.Status != AccountStatusActive) = false := by
      rw [hr]; decide
    simp only [CreateInternalTransfer, hres]
    simp only [validateTransfer, hself, hfr, hac, hfr2, hac2, if_neg hle,
      Bool.false_eq_true, if_false, if_pos hgt]
  · intro s bank req pid now senderAcct hacct hidem hcur hpos hiban hbank hs
    have hlim : txLimitForCurrency s req.SourceCurrency = 0 :=
      txLimitForCurrency_invalid s _ hcur
    have hgt : req.Amount > txLimitForCurrency s req.SourceCurrency := by omega
    have hle : ¬ (req.Amount ≤ 0) := by omega
    have hib : (req.DestIBAN == "") = false := beq_eq_false_iff_ne.mpr hiban
    have hbn : (req.DestBankName == "") = false := beq_eq_false_iff_ne.mpr hbank
    have hfr : (senderAcct.Status == AccountStatusFrozen) = false := by
      rw [hs]; decide
    have hac : (senderAcct.Status != AccountStatusActive) = false := by
      rw [hs]; decide
    simp only [CreateExternalPayout, hacct]
    simp only [checkExternalPayoutIdempotency, hidem]
    simp only [validateExternalPayout, hib, hbn, hfr, hac, if_neg hle,
      Bool.false_eq_true, if_false, if_pos hgt]

/-- Witness for C10: a 100-unit JPY transfer and payout are both rejected with
LIMIT_EXCEEDED at concrete states, even with ample sender balance. -/
theorem C10_unsupported_currency_limit_witness :
    CreateInternalTransfer ⟨⟨⟨5, 3⟩⟩, ⟨10000000, 9000000, 8000000⟩⟩
      ⟨[⟨"u1", "a@x", "A", none, "active", 0⟩, ⟨"u2", "b@x", "B", some "btag", "active", 0⟩],
       [⟨"acc1", "u1", "JPY", "user", 5000, 1, none, none, none, none, none, none, "active", 0⟩,
        ⟨"acc2", "u2", "JPY", "user", 0, 1, none, none, none, none, none, none, "active", 0⟩],
       [], [], []⟩
      ⟨"u1", "btag", "JPY", "JPY", 100, "k1"⟩ "p1" 7 = .error .limitExceeded ∧
    CreateExternalPayout ⟨⟨⟨5, 3⟩⟩, ⟨10000000, 9000000, 8000000⟩⟩
      ⟨[], [⟨"acc1", "u1", "JPY", "user", 5000, 1, none, none, none, none, none, none,
        "active", 0⟩], [], [], []⟩
      ⟨"u1", "JPY", "JPY", 100, "DE89370400440532013000", "Deutsche Bank", "k2"⟩
      "p2" 7 = .error .limitExceeded := by
  constructor
  · exact C10_unsupported_currency_limit.2.1 _ _ _ "p1" 7
      ⟨"acc1", "u1", "JPY", "user", 5000, 1, none, none, none, none, none, none, "active", 0⟩
      ⟨"acc2", "u2", "JPY", "user", 0, 1, none, none, none, none, none, none, "active", 0⟩
      (by decide) (by decide) (by decide) (by decide) rfl rfl
  · exact C10_unsupported_currency_limit.2.2.1 _ _ _ "p2" 7
      ⟨"acc1", "u1", "JPY", "user", 5000, 1, none, none, none, none, none, none, "active", 0⟩
      (by decide) (by decide) (by decide) (by decide) (by decide) (by decide) rfl

/-- C9: when a payment already exists for the idempotency key,
CreateExternalPayout replays it unchanged when (source account, amount,
source currency, dest currency, type external_payout) all match, and fails
with DUPLICATE_PAYMENT otherwise; in both cases the bank state is returned
untouched (no payment row, no balance change). -/
theorem C9_create_external_payout_idempotency (s : Service) (bank : Bank)
    (req : ExternalPayoutRequest) (pid : String) (now : ℤ)
    (senderAcct : Account) (existing : Payment)
    (hacct : AccountRepository.GetByUserAndCurrency bank.accounts req.SenderUserID
      req.SourceCurrency AccountTypeUser = .ok senderAcct)
    (hkey : PaymentRepository.GetByIdempotencyKey bank.payments req.IdempotencyKey
      = .ok existing) :
    ((existing.SourceAccountID == senderAcct.ID &&
      existing.SourceAmount == req.Amount &&
      existing.SourceCurrency == req.SourceCurrency &&
      existing.DestCurrency == req.DestCurrency &&
      existing.Type' == PaymentTypeExternalPayout) = true →
      CreateExternalPayout s bank req pid now = .ok (existing, bank)) ∧
    ((existing.SourceAccountID == senderAcct.ID &&
      existing.SourceAmount == req.Amount &&
      existing.SourceCurrency == req.SourceCurrency &&
      existing.DestCurrency == req.DestCurrency &&
      existing.Type' == PaymentTypeExternalPayout) = false →
      CreateExternalPayout s bank req pid now = .error .duplicatePayment) := by
  constructor
  · intro hm
    simp only [CreateExternalPayout, hacct]
    simp only [checkExternalPayoutIdempotency, hkey]
    rw [if_pos hm]
  · intro hm
    simp only [CreateExternalPayout, hacct]
    simp only [checkExternalPayoutIdempotency, hkey]
    rw [if_neg (by simp [hm])]

/-- Witness for C9 at a concrete state: the matching replay returns the
existing payment, and an amount mismatch under the same key is
DUPLICATE_PAYMENT. -/
theorem C9_create_external_payout_idempotency_witness :
    CreateExternalPayout ⟨⟨⟨5, 3⟩⟩, ⟨10000000, 9000000, 8000000⟩⟩
      ⟨[], [⟨"acc1", "u1", "USD", "user", 9000, 1, none, none, none, none, none, none,
        "active", 0⟩],
       [{ emptyPayment with
            ID := "p0", IdempotencyKey := "k1", Type' := PaymentTypeExternalPayout,
            Status := PaymentStatusPending, SourceAccountID := "acc1",
            SourceAmount := 500, SourceCurrency := "USD",
            DestAmount := 500, DestCurrency := "USD" }], [], []⟩
      ⟨"u1", "USD", "USD", 500, "DE89", "DB", "k1"⟩ "p9" 7
      = .ok ({ emptyPayment with
            ID := "p0", IdempotencyKey := "k1", Type' := PaymentTypeExternalPayout,
            Status := PaymentStatusPending, SourceAccountID := "acc1",
            SourceAmount := 500, SourceCurrency := "USD",
            DestAmount := 500, DestCurrency := "USD" },
          ⟨[], [⟨"acc1", "u1", "USD", "user", 9000, 1, none, none, none, none, none, none,
            "active", 0⟩],
           [{ emptyPayment with
                ID := "p0", IdempotencyKey := "k1", Type' := PaymentTypeExternalPayout,
                Status := PaymentStatusPending, SourceAccountID := "acc1",
                SourceAmount := 500, SourceCurrency := "USD",
                DestAmount := 500, DestCurrency := "USD" }], [], []⟩) ∧
    CreateExternalPayout ⟨⟨⟨5, 3⟩⟩, ⟨10000000, 9000000, 8000000⟩⟩
      ⟨[], [⟨"acc1", "u1", "USD", "user", 9000, 1, none, none, none, none, none, none,
        "active", 0⟩],
       [{ emptyPayment with
            ID := "p0", IdempotencyKey := "k1", Type' := PaymentTypeExternalPayout,
            Status := PaymentStatusPending, SourceAccountID := "acc1",
            SourceAmount := 500, SourceCurrency := "USD",
            DestAmount := 500, DestCurrency := "USD" }], [], []⟩
      ⟨"u1", "USD", "USD", 600, "DE89", "DB", "k1"⟩ "p9" 7
      = .error .duplicatePayment := by
  constructor
  · exact (C9_create_external_payout_idempotency _ _ _ "p9" 7
      ⟨"acc1", "u1", "USD", "user", 9000, 1, none, none, none, none, none, none, "active", 0⟩
      { emptyPayment with
          ID := "p0", IdempotencyKey := "k1", Type' := PaymentTypeExternalPayout,
          Status := PaymentStatusPending, SourceAccountID := "acc1",
          SourceAmount := 500, SourceCurrency := "USD",
          DestAmount := 500, DestCurrency := "USD" }
      (by decide) (by decide)).1 (by decide)
  · exact (C9_create_external_payout_idempotency _ _ _ "p9" 7
      ⟨"acc1", "u1", "USD", "user", 9000, 1, none, none, none, none, none, none, "active", 0⟩
      { emptyPayment with
          ID := "p0", IdempotencyKey := "k1", Type' := PaymentTypeExternalPayout,
          Status := PaymentStatusPending, SourceAccountID := "acc1",
          SourceAmount := 500, SourceCurrency := "USD",
          DestAmount := 500, DestCurrency := "USD" }
      (by decide) (by decide)).2 (by decide)

/-- C4 counterexample: at a concrete store, a negative newBalance is rejected
by the chk_accounts_balance check constraint (pq 23514), but the Go code only
wraps that error, and the errors.Is mapping sends it to INTERNAL_ERROR — not
INSUFFICIENT_FUNDS as the claim states. -/
theorem C4_check_violation_not_insufficient_funds :
    AccountRepository.UpdateBalance
      [⟨"a1", "u1", "USD", "user", 5, 3, none, none, none, none, none, none, "active", 0⟩]
      "a1" (-1) 4 = .error (.dbError "23514") ∧
    RespondDomainError (.dbError "23514") = ErrInternalError ∧
    ErrInternalError.Code = "INTERNAL_ERROR" ∧
    ErrInternalError ≠ ErrInsufficientFundsApp := by
  refine ⟨by decide, by decide, by decide, by decide⟩

/-- C4 (amended): UpdateBalance is a conditional update keyed on
(id, version = newVersion − 1); zero rows affected is VERSION_CONFLICT; a
negative newBalance is rejected by the balance ≥ 0 check constraint, but the
resulting error is a wrapped database error that the error mapper turns into
INTERNAL_ERROR (the Go code maps no constraint violation to
INSUFFICIENT_FUNDS); a matching row and non-negative balance update the row. -/
theorem C4_update_balance_semantics (accounts : List Account) (id : String)
    (newBalance newVersion : ℤ) :
    (accounts.any (fun a => a.ID == id && a.Version == newVersion - 1) = false →
      AccountRepository.UpdateBalance accounts id newBalance newVersion
        = .error .versionConflict) ∧
    (accounts.any (fun a => a.ID == id && a.Version == newVersion - 1) = true →
      newBalance < 0 →
      AccountRepository.UpdateBalance accounts id newBalance newVersion
          = .error (.dbError "23514") ∧
        RespondDomainError (.dbError "23514") = ErrInternalError) ∧
    (accounts.any (fun a => a.ID == id && a.Version == newVersion - 1) = true →
      0 ≤ newBalance →
      AccountRepository.UpdateBalance accounts id newBalance newVersion
        = .ok (accounts.map (AccountRepository.applyBalanceUpdate id newBalance newVersion))) := by
  refine ⟨?_, ?_, ?_⟩
  · intro hany
    simp [AccountRepository.UpdateBalance, hany]
  · intro hany hneg
    refine ⟨?_, by decide⟩
    simp [AccountRepository.UpdateBalance, hany, hneg]
  · intro hany hpos
    simp [AccountRepository.UpdateBalance, hany]
    omega

/-- Witness for the amended C4 at a concrete store: a stale version yields
VERSION_CONFLICT; a fresh version with non-negative balance updates the row. -/
theorem C4_update_balance_semantics_witness :
    AccountRepository.UpdateBalance
      [⟨"a1", "u1", "USD", "user", 5, 3, none, none, none, none, none, none, "active", 0⟩]
      "a1" 7 9 = .error .versionConflict ∧
    AccountRepository.UpdateBalance
      [⟨"a1", "u1", "USD", "user", 5, 3, none, none, none, none, none, none, "active", 0⟩]
      "a1" 7 4 = .ok
      [⟨"a1", "u1", "USD", "user", 7, 4, none, none, none, none, none, none, "active", 0⟩] := by
  constructor
  · exact (C4_update_balance_semantics _ "a1" 7 9).1 (by decide)
  · have h := (C4_update_balance_semantics
      [⟨"a1", "u1", "USD", "user", 5, 3, none, none, none, none, none, none, "active", 0⟩]
      "a1" 7 4).2.2 (by decide) (by decide)
    rw [h]
    decide

/-- Helper: a payment row found by GetByID is present in the table under its
own id. -/
theorem getByID_any (payments : List Payment) (id : String) (p : Payment)
    (h : PaymentRepository.GetByID payments id = .ok p) :
    p.ID = id ∧ payments.any (fun q => q.ID == p.ID) = true := by
  simp only [PaymentRepository.GetByID] at h
  cases hf : payments.find? (fun q => q.ID == id) with
  | none => rw [hf] at h; cases h
  | some q =>
    rw [hf] at h
    cases h
    have hpred := List.find?_some hf
    have hmem := List.mem_of_find?_eq_some hf
    have hid : p.ID = id := by simpa using hpred
    refine ⟨hid, ?_⟩
    rw [List.any_eq_true]
    exact ⟨p, hmem, by simp⟩

/-- C6: a completed webhook for a non-terminal payment sets the payment to
completed with provider_ref (when provided) and completed_at, appends a
completed payment event with actor "system", and performs no balance changes
and no ledger writes. -/
theorem C6_handle_completed_no_balance_change (sys : SystemState)
    (event : WebhookEvent) (payload : CallbackPayload) (payment : Payment) (now : ℤ)
    (hp : event.Payload = some payload)
    (hst : payload.Status = "completed")
    (huuid : isUUIDString payload.PaymentID = true)
    (hget : PaymentRepository.GetByID sys.bank.payments payload.PaymentID = .ok payment)
    (hterm : isTerminalStatus payment.Status = false) :
    ((processEvent sys event now).1.bank.accounts = sys.bank.accounts ∧
     (processEvent sys event now).1.bank.ledger = sys.bank.ledger ∧
     (processEvent sys event now).1.bank.users = sys.bank.users) ∧
    (processEvent sys event now).1.bank.events = sys.bank.events ++
      [⟨"", payment.ID, PaymentEventTypeCompleted, "system", none, now⟩] ∧
    (payload.ProviderRef ≠ "" →
      (processEvent sys event now).1.bank.payments = sys.bank.payments.map (fun q =>
        if q.ID == payment.ID then
          { q with Status := PaymentStatusCompleted,
                   ProviderRef := some payload.ProviderRef,
                   FailureReason := none, CompletedAt := some now, UpdatedAt := now }
        else q)) ∧
    (payload.ProviderRef = "" →
      (processEvent sys event now).1.bank.payments = sys.bank.payments.map (fun q =>
        if q.ID == payment.ID then
          { q with Status := PaymentStatusCompleted,
                   FailureReason := none, CompletedAt := some now, UpdatedAt := now }
        else q)) := by
  obtain ⟨hid, hany⟩ := getByID_any _ _ _ hget
  have hstb : (payload.Status == "completed") = true := by simp [hst]
  have key : ∀ ref : Option String,
      (if payload.ProviderRef != "" then some payload.ProviderRef else none) = ref →
      (processEvent sys event now).1.bank =
        { sys.bank with
            payments := sys.bank.payments.map (fun q =>
              if q.ID == payment.ID then
                { q with Status := PaymentStatusCompleted,
                         ProviderRef := (match ref with
                                         | some r => some r
                                         | none => q.ProviderRef),
                         FailureReason := none, CompletedAt := some now, UpdatedAt := now }
              else q),
            events := sys.bank.events ++
              [⟨"", payment.ID, PaymentEventTypeCompleted, "system", none, now⟩] } := by
    intro ref href
    simp only [processEvent, hp, huuid, not_true, if_false, hget, hterm,
      Bool.false_eq_true, hstb, if_true, ite_false, ite_true]
    simp only [handleCompleted, href, PaymentRepository.UpdateStatus, hany, if_true]
    cases hmr : WebhookEventRepository.UpdateStatus sys.webhooks event.ID
        WebhookEventStatusDispatched now with
    | error e => simp [markWebhookRow, hmr]
    | ok ws => simp [markWebhookRow, hmr]
  refine ⟨?_, ?_, ?_, ?_⟩
  · rw [key _ rfl]
    exact ⟨rfl, rfl, rfl⟩
  · rw [key _ rfl]
  · intro href
    have hb : (payload.ProviderRef != "") = true := by
      simp [bne]
      exact href
    rw [key (some payload.ProviderRef) (by rw [hb]; simp)]
  · intro href
    have hb : (payload.ProviderRef != "") = false := by simp [bne, href]
    rw [key none (by rw [hb]; simp)]

/-- Witness for C6 at a concrete state: a completed webhook for a pending
payout leaves accounts and ledger untouched, appends the system event, and
rewrites the payment row with provider_ref and completed_at. -/
theorem C6_handle_completed_no_balance_change_witness :
    ((processEvent
        ⟨⟨[], [⟨"acc1", "u1", "USD", "user", 500, 2, none, none, none, none, none, none,
            "active", 0⟩],
          [{ emptyPayment with
               ID := "00000000-0000-0000-0000-0000000000aa", IdempotencyKey := "k",
               Type' := PaymentTypeExternalPayout, Status := PaymentStatusPending,
               SourceAccountID := "acc1", SourceAmount := 500, SourceCurrency := "USD",
               DestAmount := 500, DestCurrency := "USD" }], [], []⟩,
         [⟨"wh1", "ev1", "payment.completed",
           some ⟨"ev1", "00000000-0000-0000-0000-0000000000aa", "completed", "prov-1", ""⟩,
           "pending", 0, none, 3⟩]⟩
        ⟨"wh1", "ev1", "payment.completed",
         some ⟨"ev1", "00000000-0000-0000-0000-0000000000aa", "completed", "prov-1", ""⟩,
         "pending", 0, none, 3⟩ 9).1.bank.accounts =
      [⟨"acc1", "u1", "USD", "user", 500, 2, none, none, none, none, none, none,
        "active", 0⟩] ∧
     (processEvent
        ⟨⟨[], [⟨"acc1", "u1", "USD", "user", 500, 2, none, none, none, none, none, none,
            "active", 0⟩],
          [{ emptyPayment with
               ID := "00000000-0000-0000-0000-0000000000aa", IdempotencyKey := "k",
               Type' := PaymentTypeExternalPayout, Status := PaymentStatusPending,
               SourceAccountID := "acc1", SourceAmount := 500, SourceCurrency := "USD",
               DestAmount := 500, DestCurrency := "USD" }], [], []⟩,
         [⟨"wh1", "ev1", "payment.completed",
           some ⟨"ev1", "00000000-0000-0000-0000-0000000000aa", "completed", "prov-1", ""⟩,
           "pending", 0, none, 3⟩]⟩
        ⟨"wh1", "ev1", "payment.completed",
         some ⟨"ev1", "00000000-0000-0000-0000-0000000000aa", "completed", "prov-1", ""⟩,
         "pending", 0, none, 3⟩ 9).1.bank.ledger = [] ∧
     (processEvent
        ⟨⟨[], [⟨"acc1", "u1", "USD", "user", 500, 2, none, none, none, none, none, none,
            "active", 0⟩],
          [{ emptyPayment with
               ID := "00000000-0000-0000-0000-0000000000aa", IdempotencyKey := "k",
               Type' := PaymentTypeExternalPayout, Status := PaymentStatusPending,
               SourceAccountID := "acc1", SourceAmount := 500, SourceCurrency := "USD",
               DestAmount := 500, DestCurrency := "USD" }], [], []⟩,
         [⟨"wh1", "ev1", "payment.completed",
           some ⟨"ev1", "00000000-0000-0000-0000-0000000000aa", "completed", "prov-1", ""⟩,
           "pending", 0, none, 3⟩]⟩
        ⟨"wh1", "ev1", "payment.completed",
         some ⟨"ev1", "00000000-0000-0000-0000-0000000000aa", "completed", "prov-1", ""⟩,
         "pending", 0, none, 3⟩ 9).1.bank.users = []) := by
  exact (C6_handle_completed_no_balance_change _ _
    ⟨"ev1", "00000000-0000-0000-0000-0000000000aa", "completed", "prov-1", ""⟩
    { emptyPayment with
        ID := "00000000-0000-0000-0000-0000000000aa", IdempotencyKey := "k",
        Type' := PaymentTypeExternalPayout, Status := PaymentStatusPending,
        SourceAccountID := "acc1", SourceAmount := 500, SourceCurrency := "USD",
        DestAmount := 500, DestCurrency := "USD" } 9
    rfl rfl (by decide) (by decide) (by decide)).1

/-- C8: webhook delivery idempotence — a first POST with a fresh event_id
stores exactly one pending row, a second POST with the same event_id hits the
unique index and is acknowledged 200 already_received with the table
unchanged; and a webhook for a payment already terminal marks the row
dispatched without touching the bank (no ledger writes, no balance changes). -/
theorem C8_webhook_delivery_idempotence :
    (∀ (webhooks : List WebhookEvent) (body : List ℕ) (payload : WebhookPayload)
       (sig secret newID : String) (now : ℤ),
      verifyHMAC body sig secret = true →
      webhookPayloadValidate payload = [] →
      webhooks.any (fun w => w.IdempotencyKey == payload.EventID) = false →
      ReceiveProviderWebhook webhooks body (some payload) sig secret newID now
        = (.success 200 "received", webhooks ++
            [⟨newID, payload.EventID, webhookPayloadEventType payload,
              some ⟨payload.EventID, payload.PaymentID, payload.Status,
                    payload.ProviderRef, payload.Reason⟩,
              WebhookEventStatusPending, 0, none, now⟩])) ∧
    (∀ (webhooks : List WebhookEvent) (body : List ℕ) (payload : WebhookPayload)
       (sig secret newID : String) (now : ℤ),
      verifyHMAC body sig secret = true →
      webhookPayloadValidate payload = [] →
      webhooks.any (fun w => w.IdempotencyKey == payload.EventID) = true →
      ReceiveProviderWebhook webhooks body (some payload) sig secret newID now
        = (.success 200 "already_received", webhooks)) ∧
    (∀ (sys : SystemState) (event : WebhookEvent) (payload : CallbackPayload)
       (payment : Payment) (now : ℤ),
      event.Payload = some payload →
      isUUIDString payload.PaymentID = true →
      PaymentRepository.GetByID sys.bank.payments payload.PaymentID = .ok payment →
      isTerminalStatus payment.Status = true →
      (processEvent sys event now).1.bank = sys.bank ∧
      (sys.webhooks.any (fun w => w.ID == event.ID) = true →
        (processEvent sys event now).1.webhooks = sys.webhooks.map (fun w =>
          if w.ID == event.ID then
            { w with Status := WebhookEventStatusDispatched,
                     Attempts := w.Attempts + 1, LastAttempt := some now }
          else w))) := by
  refine ⟨?_, ?_, ?_⟩
  · intro webhooks body payload sig secret newID now hver hval hany
    simp only [ReceiveProviderWebhook, hver, not_true, if_false, hval,
      WebhookEventRepository.Create, hany, Bool.false_eq_true, ite_false, ite_true]
  · intro webhooks body payload sig secret newID now hver hval hany
    simp only [ReceiveProviderWebhook, hver, not_true, if_false, hval,
      WebhookEventRepository.Create, hany, if_true, isDuplicateKey, ite_true]
    simp
  · intro sys event payload payment now hp huuid hget hterm
    simp only [processEvent, hp, huuid, not_true, if_false, hget, hterm, if_true,
      ite_true]
    constructor
    · cases hmr : WebhookEventRepository.UpdateStatus sys.webhooks event.ID
          WebhookEventStatusDispatched now with
      | error e => simp [markWebhookRow, hmr]
      | ok ws => simp [markWebhookRow, hmr]
    · intro hany
      simp only [markWebhookRow, WebhookEventRepository.UpdateStatus, hany, if_true]

set_option maxRecDepth 40000 in
/-- Witness for C8: storing then re-delivering event id
00000000-0000-0000-0000-0000000000ee, and a terminal-payment webhook, at
concrete states (the signature is the hex HMAC of the body under secret
"s3cret"). -/
theorem C8_webhook_delivery_idempotence_witness :
    ReceiveProviderWebhook
      [⟨"wh0", "00000000-0000-0000-0000-0000000000ee", "payment.completed",
        some ⟨"00000000-0000-0000-0000-0000000000ee",
              "00000000-0000-0000-0000-0000000000aa", "completed", "", ""⟩,
        "pending", 0, none, 1⟩]
      (strBytes "body-bytes")
      (some ⟨"00000000-0000-0000-0000-0000000000ee",
             "00000000-0000-0000-0000-0000000000aa", "completed", "", "", "2025"⟩)
      (bytesToHex (hmacSha256 (strBytes "s3cret") (strBytes "body-bytes"))) "s3cret"
      "wh1" 4
      = (.success 200 "already_received",
         [⟨"wh0", "00000000-0000-0000-0000-0000000000ee", "payment.completed",
           some ⟨"00000000-0000-0000-0000-0000000000ee",
                 "00000000-0000-0000-0000-0000000000aa", "completed", "", ""⟩,
           "pending", 0, none, 1⟩]) ∧
    (processEvent
       ⟨⟨[], [],
         [{ emptyPayment with
              ID := "00000000-0000-0000-0000-0000000000aa",
              Type' := PaymentTypeExternalPayout, Status := PaymentStatusCompleted,
              SourceAccountID := "acc1" }], [], []⟩,
        [⟨"wh2", "ev2", "payment.completed",
          some ⟨"ev2", "00000000-0000-0000-0000-0000000000aa", "completed", "", ""⟩,
          "pending", 0, none, 2⟩]⟩
       ⟨"wh2", "ev2", "payment.completed",
        some ⟨"ev2", "00000000-0000-0000-0000-0000000000aa", "completed", "", ""⟩,
        "pending", 0, none, 2⟩ 8).1.bank =
      ⟨[], [],
       [{ emptyPayment with
            ID := "00000000-0000-0000-0000-0000000000aa",
            Type' := PaymentTypeExternalPayout, Status := PaymentStatusCompleted,
            SourceAccountID := "acc1" }], [], []⟩ := by
  constructor
  · exact C8_webhook_delivery_idempotence.2.1 _ _
      ⟨"00000000-0000-0000-0000-0000000000ee",
       "00000000-0000-0000-0000-0000000000aa", "completed", "", "", "2025"⟩
      _ "s3cret" "wh1" 4 (by decide) (by decide) (by decide)
  · exact (C8_webhook_delivery_idempotence.2.2 _ _
      ⟨"ev2", "00000000-0000-0000-0000-0000000000aa", "completed", "", ""⟩
      { emptyPayment with
          ID := "00000000-0000-0000-0000-0000000000aa",
          Type' := PaymentTypeExternalPayout, Status := PaymentStatusCompleted,
          SourceAccountID := "acc1" } 8
      rfl (by decide) (by decide) (by decide)).1

set_option maxRecDepth 40000 in
/-- C5 counterexample: a cache miss does not always store the response — with
an expired row still occupying the primary key (k, u), the operation runs but
ON CONFLICT DO NOTHING drops the fresh entry, so the cache is unchanged. -/
theorem C5_cache_miss_not_always_stored :
    Idempotency
      [⟨"k", "u", computeHash "POST" "/payments" "b1", 201, "old-response", 0, 5⟩]
      "POST" "/payments" "b1" "k" (some "u") 10 (200, "fresh-response")
      = ⟨⟨200, "fresh-response", false⟩,
         [⟨"k", "u", computeHash "POST" "/payments" "b1", 201, "old-response", 0, 5⟩],
         true⟩ ∧
    ¬ ∃ e ∈ (Idempotency
        [⟨"k", "u", computeHash "POST" "/payments" "b1", 201, "old-response", 0, 5⟩]
        "POST" "/payments" "b1" "k" (some "u") 10 (200, "fresh-response")).cache,
      e.ResponseBody = "fresh-response" := by
  constructor
  · decide
  · decide

/-- C5 (amended): for a mutating request with idempotency key k by user u —
an unexpired cache hit with matching SHA-256(method ‖ path ‖ body) replays
the cached status and body verbatim with the replay header and does not run
the operation; a hit with a different hash fails 409 IDEMPOTENCY_CONFLICT
without running the operation; a miss runs the operation and stores its
response (success or error) for 24 hours via insert-ignore-on-duplicate, so
the store is skipped when any row for (k, u) — even an expired one — still
exists. -/
theorem C5_idempotency_cache_laws (cache : List IdempotencyCacheEntry)
    (method path body key userID : String) (now : ℤ) (next : ℤ × String)
    (hmethod : (method == "GET" || method == "HEAD" || method == "OPTIONS") = false)
    (hkey : key ≠ "") :
    (∀ cached, IdempotencyRepository.Get cache key userID now = some cached →
      cached.RequestHash = computeHash method path body →
      Idempotency cache method path body key (some userID) now next
        = ⟨⟨cached.StatusCode, cached.ResponseBody, true⟩, cache, false⟩) ∧
    (∀ cached, IdempotencyRepository.Get cache key userID now = some cached →
      cached.RequestHash ≠ computeHash method path body →
      Idempotency cache method path body key (some userID) now next
        = ⟨⟨ErrIdempotencyConflict.Status, appErrorBody ErrIdempotencyConflict, false⟩,
           cache, false⟩ ∧
      ErrIdempotencyConflict = ⟨409, "IDEMPOTENCY_CONFLICT",
        "Idempotency key already used with a different request"⟩) ∧
    (IdempotencyRepository.Get cache key userID now = none →
      cache.any (fun e => e.Key == key && e.UserID == userID) = false →
      Idempotency cache method path body key (some userID) now next
        = ⟨⟨next.1, next.2, false⟩,
           cache ++ [⟨key, userID, computeHash method path body, next.1, next.2,
                      now, now + idempotencyTTL⟩], true⟩) ∧
    (IdempotencyRepository.Get cache key userID now = none →
      cache.any (fun e => e.Key == key && e.UserID == userID) = true →
      Idempotency cache method path body key (some userID) now next
        = ⟨⟨next.1, next.2, false⟩, cache, true⟩) := by
  have hk : (key == "") = false := beq_eq_false_iff_ne.mpr hkey
  refine ⟨?_, ?_, ?_, ?_⟩
  · intro cached hget hhash
    have hbne : (cached.RequestHash != computeHash method path body) = false := by
      simp [bne, hhash]
    simp only [Idempotency, hmethod, hk, Bool.false_eq_true, if_false, hget, hbne,
      ite_false]
  · intro cached hget hhash
    have hbne : (cached.RequestHash != computeHash method path body) = true := by
      simp [bne]
      exact hhash
    refine ⟨?_, by decide⟩
    simp only [Idempotency, hmethod, hk, Bool.false_eq_true, if_false, hget, hbne,
      if_true, ite_true]
  · intro hget hany
    simp only [Idempotency, hmethod, hk, Bool.false_eq_true, if_false, hget,
      IdempotencyRepository.Set, hany, ite_false]
  · intro hget hany
    simp only [Idempotency, hmethod, hk, Bool.false_eq_true, if_false, hget,
      IdempotencyRepository.Set, hany, if_true, ite_true]

set_option maxRecDepth 40000 in
/-- Witness for C5 at concrete inputs: the replay, conflict and fresh-store
branches, each evaluated on a one-entry cache. -/
theorem C5_idempotency_cache_laws_witness :
    Idempotency [⟨"k", "u", computeHash "POST" "/payments" "b1", 201, "stored", 0, 99⟩]
      "POST" "/payments" "b1" "k" (some "u") 10 (200, "fresh")
      = ⟨⟨201, "stored", true⟩,
         [⟨"k", "u", computeHash "POST" "/payments" "b1", 201, "stored", 0, 99⟩],
         false⟩ ∧
    Idempotency [⟨"k", "u", computeHash "POST" "/payments" "b1", 201, "stored", 0, 99⟩]
      "POST" "/payments" "b2" "k" (some "u") 10 (200, "fresh")
      = ⟨⟨ErrIdempotencyConflict.Status, appErrorBody ErrIdempotencyConflict, false⟩,
         [⟨"k", "u", computeHash "POST" "/payments" "b1", 201, "stored", 0, 99⟩],
         false⟩ ∧
    Idempotency [] "POST" "/payments" "b1" "k" (some "u") 10 (200, "fresh")
      = ⟨⟨200, "fresh", false⟩,
         [⟨"k", "u", computeHash "POST" "/payments" "b1", 200, "fresh", 10,
           10 + idempotencyTTL⟩], true⟩ := by
  refine ⟨?_, ?_, ?_⟩
  · exact (C5_idempotency_cache_laws _ "POST" "/payments" "b1" "k" "u" 10 (200, "fresh")
      (by decide) (by decide)).1
      ⟨"k", "u", computeHash "POST" "/payments" "b1", 201, "stored", 0, 99⟩
      (by decide) rfl
  · exact ((C5_idempotency_cache_laws _ "POST" "/payments" "b2" "k" "u" 10 (200, "fresh")
      (by decide) (by decide)).2.1
      ⟨"k", "u", computeHash "POST" "/payments" "b1", 201, "stored", 0, 99⟩
      (by decide) (by decide)).1
  · exact (C5_idempotency_cache_laws [] "POST" "/payments" "b1" "k" "u" 10 (200, "fresh")
      (by decide) (by decide)).2.2.1 (by decide) (by decide)

/-- Helper: when marking a webhook row returns an error, the table is
untouched. -/
theorem markWebhookRow_err (b : Bank) (ws : List WebhookEvent) (id : String)
    (st : WebhookEventStatus) (now : ℤ) (sys1 : SystemState) (e : DomainError)
    (h : markWebhookRow b ws id st now = (sys1, some e)) : sys1.webhooks = ws := by
  simp only [markWebhookRow] at h
  cases hmr : WebhookEventRepository.UpdateStatus ws id st now with
  | error e2 => rw [hmr] at h; cases h; rfl
  | ok ws1 => rw [hmr] at h; cases h

/-- C7 counterexample: a transient failure (here: the outgoing system account
is missing, so handleFailed aborts with NOT_FOUND) leaves the claimed webhook
row pending with attempts still 0 — the attempts counter is NOT incremented,
contrary to the claim. -/
theorem C7_transient_failure_attempts_not_incremented :
    processEvent
      ⟨⟨[], [],
        [{ emptyPayment with
             ID := "00000000-0000-0000-0000-0000000000aa",
             Type' := PaymentTypeExternalPayout, Status := PaymentStatusPending,
             SourceAccountID := "acc1", SourceAmount := 500,
             SourceCurrency := "USD", DestAmount := 500, DestCurrency := "USD" }],
        [], []⟩,
       [⟨"wh1", "ev1", "payment.failed",
         some ⟨"ev1", "00000000-0000-0000-0000-0000000000aa", "failed", "",
               "provider_declined"⟩,
         "pending", 0, none, 2⟩]⟩
      ⟨"wh1", "ev1", "payment.failed",
       some ⟨"ev1", "00000000-0000-0000-0000-0000000000aa", "failed", "",
             "provider_declined"⟩,
       "pending", 0, none, 2⟩ 5
      = (⟨⟨[], [],
           [{ emptyPayment with
                ID := "00000000-0000-0000-0000-0000000000aa",
                Type' := PaymentTypeExternalPayout, Status := PaymentStatusPending,
                SourceAccountID := "acc1", SourceAmount := 500,
                SourceCurrency := "USD", DestAmount := 500, DestCurrency := "USD" }],
           [], []⟩,
          [⟨"wh1", "ev1", "payment.failed",
            some ⟨"ev1", "00000000-0000-0000-0000-0000000000aa", "failed", "",
                  "provider_declined"⟩,
            "pending", 0, none, 2⟩]⟩, some .notFound) := by
  decide

/-- C7 (amended): when processEvent fails on a claimed webhook event for a
transient reason (not a poison decoding or validation error, which marks the
row failed), the webhook row is left in status pending with its attempts
counter unchanged — attempts is only incremented when the row is marked
dispatched or failed — so the poller picks it up again on a subsequent tick
(GetPending selects the same rows). -/
theorem C7_transient_failure_row_untouched :
    (∀ (sys : SystemState) (event : WebhookEvent) (now : ℤ)
       (sys1 : SystemState) (e : DomainError),
      processEvent sys event now = (sys1, some e) →
      sys1.webhooks = sys.webhooks) ∧
    (∀ (sys : SystemState) (event : WebhookEvent) (now : ℤ)
       (sys1 : SystemState) (e : DomainError) (limit : ℕ),
      processEvent sys event now = (sys1, some e) →
      WebhookEventRepository.GetPending sys1.webhooks limit
        = WebhookEventRepository.GetPending sys.webhooks limit) ∧
    (∀ (sys : SystemState) (event : WebhookEvent) (now : ℤ),
      event.Payload = none →
      sys.webhooks.any (fun w => w.ID == event.ID) = true →
      (processEvent sys event now).1.webhooks = sys.webhooks.map (fun w =>
        if w.ID == event.ID then
          { w with Status := WebhookEventStatusFailed,
                   Attempts := w.Attempts + 1, LastAttempt := some now }
        else w)) := by
  have main : ∀ (sys : SystemState) (event : WebhookEvent) (now : ℤ)
      (sys1 : SystemState) (e : DomainError),
      processEvent sys event now = (sys1, some e) →
      sys1.webhooks = sys.webhooks := by
    intro sys event now sys1 e h
    simp only [processEvent] at h
    repeat' split at h
    all_goals
      first
        | exact markWebhookRow_err _ _ _ _ _ _ _ h
        | (cases h; rfl)
  refine ⟨main, ?_, ?_⟩
  · intro sys event now sys1 e limit h
    rw [main sys event now sys1 e h]
  · intro sys event now hp hany
    simp only [processEvent, hp, markWebhookRow,
      WebhookEventRepository.UpdateStatus, hany, if_true]

/-- Witness for the amended C7: the transient-failure state of the
counterexample (row untouched, still fetched by GetPending), and a poison
payload marking the row failed with attempts bumped. -/
theorem C7_transient_failure_row_untouched_witness :
    (processEvent
      ⟨⟨[], [],
        [{ emptyPayment with
             ID := "00000000-0000-0000-0000-0000000000aa",
             Type' := PaymentTypeExternalPayout, Status := PaymentStatusPending,
             SourceAccountID := "acc1", SourceAmount := 500,
             SourceCurrency := "USD", DestAmount := 500, DestCurrency := "USD" }],
        [], []⟩,
       [⟨"wh1", "ev1", "payment.failed",
         some ⟨"ev1", "00000000-0000-0000-0000-0000000000aa", "failed", "",
               "provider_declined"⟩,
         "pending", 0, none, 2⟩]⟩
      ⟨"wh1", "ev1", "payment.failed",
       some ⟨"ev1", "00000000-0000-0000-0000-0000000000aa", "failed", "",
             "provider_declined"⟩,
       "pending", 0, none, 2⟩ 5).1.webhooks
      = [⟨"wh1", "ev1", "payment.failed",
          some ⟨"ev1", "00000000-0000-0000-0000-0000000000aa", "failed", "",
                "provider_declined"⟩,
          "pending", 0, none, 2⟩] ∧
    (processEvent
      ⟨⟨[], [], [], [], []⟩, [⟨"wh9", "ev9", "payment.failed", none, "pending", 0, none, 2⟩]⟩
      ⟨"wh9", "ev9", "payment.failed", none, "pending", 0, none, 2⟩ 5).1.webhooks
      = [⟨"wh9", "ev9", "payment.failed", none, "pending", 0, none, 2⟩].map (fun w =>
          if w.ID == "wh9" then
            { w with Status := WebhookEventStatusFailed,
                     Attempts := w.Attempts + 1, LastAttempt := some (5 : ℤ) }
          else w) := by
  constructor
  · exact C7_transient_failure_row_untouched.1
      ⟨⟨[], [],
        [{ emptyPayment with
             ID := "00000000-0000-0000-0000-0000000000aa",
             Type' := PaymentTypeExternalPayout, Status := PaymentStatusPending,
             SourceAccountID := "acc1", SourceAmount := 500,
             SourceCurrency := "USD", DestAmount := 500, DestCurrency := "USD" }],
        [], []⟩,
       [⟨"wh1", "ev1", "payment.failed",
         some ⟨"ev1", "00000000-0000-0000-0000-0000000000aa", "failed", "",
               "provider_declined"⟩,
         "pending", 0, none, 2⟩]⟩
      ⟨"wh1", "ev1", "payment.failed",
       some ⟨"ev1", "00000000-0000-0000-0000-0000000000aa", "failed", "",
             "provider_declined"⟩,
       "pending", 0, none, 2⟩ 5
      ⟨⟨[], [],
        [{ emptyPayment with
             ID := "00000000-0000-0000-0000-0000000000aa",
             Type' := PaymentTypeExternalPayout, Status := PaymentStatusPending,
             SourceAccountID := "acc1", SourceAmount := 500,
             SourceCurrency := "USD", DestAmount := 500, DestCurrency := "USD" }],
        [], []⟩,
       [⟨"wh1", "ev1", "payment.failed",
         some ⟨"ev1", "00000000-0000-0000-0000-0000000000aa", "failed", "",
               "provider_declined"⟩,
         "pending", 0, none, 2⟩]⟩ DomainError.notFound (by decide)
  · exact C7_transient_failure_row_untouched.2.2 _
      ⟨"wh9", "ev9", "payment.failed", none, "pending", 0, none, 2⟩ 5 rfl (by decide)

/-- Helper: debit totals add over list append. -/
theorem debitTotal_append (l1 l2 : List LedgerEntry) (c : Currency) :
    debitTotal (l1 ++ l2) c = debitTotal l1 c + debitTotal l2 c := by
  induction l1 with
  | nil => simp [debitTotal]
  | cons e l ih =>
    simp only [debitTotal, List.cons_append, List.filter, List.append_eq] at ih ⊢
    split
    · simp only [List.foldr_cons]
      omega
    · exact ih

/-- Helper: credit totals add over list append. -/
theorem creditTotal_append (l1 l2 : List LedgerEntry) (c : Currency) :
    creditTotal (l1 ++ l2) c = creditTotal l1 c + creditTotal l2 c := by
  induction l1 with
  | nil => simp [creditTotal]
  | cons e l ih =>
    simp only [creditTotal, List.cons_append, List.filter, List.append_eq] at ih ⊢
    split
    · simp only [List.foldr_cons]
      omega
    · exact ih

/-- Helper: concatenating balanced entry sets stays balanced. -/
theorem balancedPerCurrency_append (l1 l2 : List LedgerEntry)
    (h1 : balancedPerCurrency l1) (h2 : balancedPerCurrency l2) :
    balancedPerCurrency (l1 ++ l2) := by
  intro c
  rw [debitTotal_append, creditTotal_append, h1 c, h2 c]

/-- Helper: a debit and a credit of the same amount in the same currency
balance. -/
theorem balancedPerCurrency_pair (e1 e2 : LedgerEntry)
    (h1 : e1.EntryType = EntryTypeDebit) (h2 : e2.EntryType = EntryTypeCredit)
    (ha : e1.Amount = e2.Amount) (hc : e1.Currency = e2.Currency) :
    balancedPerCurrency [e1, e2] := by
  intro c
  have d1 : (e1.EntryType == EntryTypeDebit) = true := by rw [h1]; decide
  have d2 : (e1.EntryType == EntryTypeCredit) = false := by rw [h1]; decide
  have c1 : (e2.EntryType == EntryTypeDebit) = false := by rw [h2]; decide
  have c2 : (e2.EntryType == EntryTypeCredit) = true := by rw [h2]; decide
  by_cases hcc : e1.Currency = c
  · have b1 : (e1.Currency == c) = true := by simp [hcc]
    have b2 : (e2.Currency == c) = true := by rw [← hc]; simp [hcc]
    simp [debitTotal, creditTotal, List.filter, d1, d2, c1, c2, b1, b2, ha]
  · have b1 : (e1.Currency == c) = false := beq_eq_false_iff_ne.mpr hcc
    have b2 : (e2.Currency == c) = false := by
      rw [← hc] at *
      exact b1
    simp [debitTotal, creditTotal, List.filter, d1, d2, c1, c2, b1, b2]

/-- Helper: entries of a payment in an appended ledger, when the prefix holds
none of them and the suffix is entirely this payment. -/
theorem entriesOfPayment_append (ledger E : List LedgerEntry) (pid : String)
    (hfresh : ∀ e ∈ ledger, e.PaymentID ≠ pid)
    (hall : ∀ e ∈ E, e.PaymentID = pid) :
    entriesOfPayment (ledger ++ E) pid = E := by
  simp only [entriesOfPayment, List.filter_append]
  have h1 : ledger.filter (fun e => e.PaymentID == pid) = [] := by
    rw [List.filter_eq_nil_iff]
    intro e he
    simpa using hfresh e he
  have h2 : E.filter (fun e => e.PaymentID == pid) = E := by
    rw [List.filter_eq_self]
    intro e he
    simpa using hall e he
  rw [h1, h2, List.nil_append]

/-- Helper: the empty entry set is balanced. -/
theorem balancedPerCurrency_nil : balancedPerCurrency [] := by
  intro c
  rfl

/-- Helper: a fresh payment id has no entries in the ledger. -/
theorem entriesOfPayment_nil (ledger : List LedgerEntry) (pid : String)
    (hfresh : ∀ e ∈ ledger, e.PaymentID ≠ pid) :
    entriesOfPayment ledger pid = [] := by
  simp only [entriesOfPayment]
  rw [List.filter_eq_nil_iff]
  intro e he
  simpa using hfresh e he

/-- Helper: entries appended by a successful executeTransfer all belong to the
new payment and balance per currency. -/
theorem executeTransfer_entries (s : Service) (bank : Bank)
    (req : InternalTransferRequest) (senderID recipientID pid : String) (now : ℤ)
    (p : Payment) (bank1 : Bank)
    (h : executeTransfer s bank req senderID recipientID pid now = .ok (p, bank1)) :
    ∃ E, bank1.ledger = bank.ledger ++ E ∧ (∀ e ∈ E, e.PaymentID = p.ID) ∧
      balancedPerCurrency E := by
  simp only [executeTransfer] at h
  by_cases hcur : req.SourceCurrency = req.DestCurrency
  · rw [if_neg (by simp [bne, hcur])] at h
    obtain ⟨locked, hlock, hp, hbal, hu, hpay, hledger, hev, rest⟩ :=
      execSameTransfer_run bank req senderID recipientID pid now p bank1 h
    refine ⟨_, hledger, ?_, ?_⟩
    · intro e he
      simp only [writeLedgerEntries, List.mem_cons, List.mem_singleton] at he
      rcases he with h1 | h1 | h1 <;> first | (subst h1; rfl) | cases h1
    · apply balancedPerCurrency_pair
      · rfl
      · rfl
      · simp [hp]
      · simp [hp, hcur]
  · rw [if_pos (by simp [bne, hcur])] at h
    obtain ⟨conversion, fxS, fxD, locked, hcv, hfs, hfd, hlock, hp, hu, hpay,
      hledger, hev⟩ := execCrossTransfer_run s bank req senderID recipientID pid now p bank1 h
    refine ⟨_, hledger, ?_, ?_⟩
    · intro e he
      simp only [writeCrossCurrencyLedgerEntries, List.mem_cons, List.mem_singleton] at he
      rcases he with h1 | h1 | h1 | h1 | h1 <;> first | (subst h1; rfl) | cases h1
    · show balancedPerCurrency ([_, _] ++ [_, _])
      apply balancedPerCurrency_append <;>
        exact balancedPerCurrency_pair _ _ rfl rfl rfl rfl

/-- Helper: entries appended by a successful executeExternalPayout all belong
to the new payment and balance per currency; for a same-currency payout the
payment carries equal source and destination amounts and currencies. -/
theorem executeExternalPayout_entries (s : Service) (bank : Bank)
    (req : ExternalPayoutRequest) (senderID pid : String) (now : ℤ)
    (p : Payment) (bank1 : Bank)
    (h : executeExternalPayout s bank req senderID pid now = .ok (p, bank1)) :
    p.ID = pid ∧
    p.SourceCurrency = req.SourceCurrency ∧
    p.DestCurrency = req.DestCurrency ∧
    (req.SourceCurrency = req.DestCurrency → p.DestAmount = p.SourceAmount) ∧
    ∃ E, bank1.ledger = bank.ledger ++ E ∧ (∀ e ∈ E, e.PaymentID = p.ID) ∧
      balancedPerCurrency E := by
  simp only [executeExternalPayout] at h
  by_cases hcur : req.SourceCurrency = req.DestCurrency
  · rw [if_neg (by simp [bne, hcur])] at h
    obtain ⟨outgoing, locked, hog, hlock, hp, hbal, hu, hpay, hledger, hev, rest⟩ :=
      execSameExt_run bank req senderID pid now p bank1 h
    refine ⟨by simp [hp, buildExternalPayment], by simp [hp, buildExternalPayment],
      by simp [hp, buildExternalPayment], fun _ => by simp [hp, buildExternalPayment],
      _, hledger, ?_, ?_⟩
    · intro e he
      simp only [writeExternalLedgerEntries, List.mem_cons, List.mem_singleton] at he
      rcases he with h1 | h1 | h1 <;> first | (subst h1; rfl) | cases h1
    · apply balancedPerCurrency_pair
      · rfl
      · rfl
      · simp [hp, buildExternalPayment]
      · simp [hp, buildExternalPayment, hcur]
  · rw [if_pos (by simp [bne, hcur])] at h
    obtain ⟨conversion, fxS, fxD, outgoing, locked, hcv, hfs, hfd, hog, hlock, hp,
      hbal, hfxbal, hu, hpay, hledger, hev, rest⟩ :=
      execCrossExt_run s bank req senderID pid now p bank1 h
    refine ⟨by simp [hp, buildExternalPayment], by simp [hp, buildExternalPayment],
      by simp [hp, buildExternalPayment], fun hc => absurd hc hcur,
      _, hledger, ?_, ?_⟩
    · intro e he
      simp only [writeCrossCurrencyExternalLedgerEntries, List.mem_cons,
        List.mem_singleton] at he
      rcases he with h1 | h1 | h1 | h1 | h1 <;> first | (subst h1; rfl) | cases h1
    · show balancedPerCurrency ([_, _] ++ [_, _])
      apply balancedPerCurrency_append <;>
        exact balancedPerCurrency_pair _ _ rfl rfl rfl rfl

/-- Helper: compensating entries appended by a successful handleFailed all
belong to the reversed payment and balance per currency, provided a
same-currency payment moves equal amounts (which the payout creators
guarantee). -/
theorem handleFailed_entries (bank : Bank) (payment : Payment) (reason : String)
    (now : ℤ) (bank2 : Bank)
    (hamount : payment.SourceCurrency = payment.DestCurrency →
      payment.DestAmount = payment.SourceAmount)
    (h : handleFailed bank payment reason now = .ok bank2) :
    ∃ R, bank2.ledger = bank.ledger ++ R ∧ (∀ e ∈ R, e.PaymentID = payment.ID) ∧
      balancedPerCurrency R := by
  by_cases hcur : payment.SourceCurrency = payment.DestCurrency
  · obtain ⟨outgoing, locked, hog, hlock, hus, hwr, hu, hev⟩ :=
      handleFailed_run_same bank payment reason now bank2 hcur h
    obtain ⟨accs1, hub1, hub2, hledger⟩ :=
      writeReversal_run_two _ _ _ _ _ _ _ _ hwr
    refine ⟨_, hledger, ?_, ?_⟩
    · intro e he
      simp only [List.mem_cons, List.mem_singleton] at he
      rcases he with h1 | h1 | h1 <;> first | (subst h1; rfl) | cases h1
    · apply balancedPerCurrency_pair
      · rfl
      · rfl
      · simp [reversalLedgerEntry, sameCurrencyReversalEntries, hamount hcur]
      · simp [reversalLedgerEntry, sameCurrencyReversalEntries, hcur]
  · obtain ⟨outgoing, fxS, fxD, locked, hog, hfs, hfd, hlock, hus, hwr, hu, hev⟩ :=
      handleFailed_run_cross bank payment reason now bank2 hcur h
    obtain ⟨accs1, accs2, accs3, hub1, hub2, hub3, hub4, hledger⟩ :=
      writeReversal_run_four _ _ _ _ _ _ _ _ _ _ hwr
    refine ⟨_, hledger, ?_, ?_⟩
    · intro e he
      simp only [List.mem_cons, List.mem_singleton] at he
      rcases he with h1 | h1 | h1 | h1 | h1 <;> first | (subst h1; rfl) | cases h1
    · show balancedPerCurrency ([_, _] ++ [_, _])
      apply balancedPerCurrency_append <;>
        exact balancedPerCurrency_pair _ _ rfl rfl rfl rfl

/-- Helper: the row update of UpdateBalance preserves the account id. -/
theorem applyBalanceUpdate_ID (id : String) (nb nv : ℤ) (a : Account) :
    (AccountRepository.applyBalanceUpdate id nb nv a).ID = a.ID := by
  unfold AccountRepository.applyBalanceUpdate
  split <;> rfl

/-- Helper: the row update of UpdateBalance preserves owner, currency and
account type. -/
theorem applyBalanceUpdate_attrs (id : String) (nb nv : ℤ) (a : Account) :
    (AccountRepository.applyBalanceUpdate id nb nv a).UserID = a.UserID ∧
    (AccountRepository.applyBalanceUpdate id nb nv a).Currency = a.Currency ∧
    (AccountRepository.applyBalanceUpdate id nb nv a).AccountType = a.AccountType := by
  unfold AccountRepository.applyBalanceUpdate
  split <;> exact ⟨rfl, rfl, rfl⟩

/-- Helper: a successful UpdateBalance maps the row update over the table. -/
theorem updateBalance_ok_map (accs : List Account) (id : String) (nb nv : ℤ)
    (accs2 : List Account)
    (h : AccountRepository.UpdateBalance accs id nb nv = .ok accs2) :
    accs2 = accs.map (AccountRepository.applyBalanceUpdate id nb nv) := by
  simp only [AccountRepository.UpdateBalance] at h
  split at h
  · split at h
    · cases h
    · injection h with h
      exact h.symm
  · cases h

/-- Helper: find? commutes with mapping a function that preserves the
predicate. -/
theorem find?_map_invariant (f : Account → Account) (p : Account → Bool)
    (hf : ∀ a, p (f a) = p a) :
    ∀ l : List Account, (l.map f).find? p = (l.find? p).map f := by
  intro l
  induction l with
  | nil => rfl
  | cons a t ih =>
      cases hp : p a with
      | true =>
          rw [List.map_cons, List.find?_cons_of_pos _ (by rw [hf a]; exact hp),
            List.find?_cons_of_pos _ hp, Option.map_some']
      | false =>
          rw [List.map_cons, List.find?_cons_of_neg _ (by rw [hf a, hp]; exact Bool.false_ne_true),
            List.find?_cons_of_neg _ (by rw [hp]; exact Bool.false_ne_true)]
          exact ih

/-- Helper: account lookup by id after a successful UpdateBalance. -/
theorem findAccount_updateBalance (accs : List Account) (id : String) (nb nv : ℤ)
    (accs2 : List Account)
    (h : AccountRepository.UpdateBalance accs id nb nv = .ok accs2) (id2 : String) :
    findAccount accs2 id2
      = (findAccount accs id2).map (AccountRepository.applyBalanceUpdate id nb nv) := by
  rw [updateBalance_ok_map accs id nb nv accs2 h]
  exact find?_map_invariant _ _ (fun a => by rw [applyBalanceUpdate_ID]) accs

/-- Helper: system-account lookup after a successful UpdateBalance. -/
theorem getSystemAccount_updateBalance (accs : List Account) (id : String)
    (nb nv : ℤ) (accs2 : List Account) (t : AccountType) (c : Currency) (b : Account)
    (h : AccountRepository.UpdateBalance accs id nb nv = .ok accs2)
    (hb : getSystemAccount accs t c = .ok b) :
    getSystemAccount accs2 t c = .ok (AccountRepository.applyBalanceUpdate id nb nv b) := by
  rw [updateBalance_ok_map accs id nb nv accs2 h]
  simp only [getSystemAccount, AccountRepository.GetByUserAndCurrency] at hb ⊢
  rw [find?_map_invariant _ _ (fun a => by
    obtain ⟨h1, h2, h3⟩ := applyBalanceUpdate_attrs id nb nv a
    rw [h1, h2, h3])]
  cases hfq : accs.find? (fun a =>
      a.UserID == SystemUserID && a.Currency == c && a.AccountType == t) with
  | none => rw [hfq] at hb; cases hb
  | some b0 =>
      rw [hfq] at hb
      injection hb with hb
      subst hb
      rfl

/-- Helper: the account returned by getSystemAccount is a member row carrying
the queried owner, currency and type. -/
theorem getSystemAccount_spec (accs : List Account) (t : AccountType) (c : Currency)
    (b : Account) (h : getSystemAccount accs t c = .ok b) :
    b ∈ accs ∧ b.UserID = SystemUserID ∧ b.Currency = c ∧ b.AccountType = t := by
  simp only [getSystemAccount, AccountRepository.GetByUserAndCurrency] at h
  cases hfq : accs.find? (fun a =>
      a.UserID == SystemUserID && a.Currency == c && a.AccountType == t) with
  | none => rw [hfq] at h; cases h
  | some b0 =>
      rw [hfq] at h
      injection h with h
      subst h
      have hmem := List.mem_of_find?_eq_some hfq
      have hpred := List.find?_some hfq
      simp only [Bool.and_eq_true, beq_iff_eq] at hpred
      exact ⟨hmem, hpred.1.1, hpred.1.2, hpred.2⟩

/-- Helper: findAccount returns a member row carrying the queried id. -/
theorem findAccount_spec (accs : List Account) (id : String) (a : Account)
    (h : findAccount accs id = some a) : a ∈ accs ∧ a.ID = id := by
  have hmem := List.mem_of_find?_eq_some h
  have hpred := List.find?_some h
  simp only [beq_iff_eq] at hpred
  exact ⟨hmem, hpred⟩

/-- Helper: when the table's ids are pairwise distinct, two member rows with
the same id are the same row. -/
theorem accounts_nodup_inj (accs : List Account)
    (h : (accs.map (fun a => a.ID)).Nodup) (a b : Account)
    (ha : a ∈ accs) (hb : b ∈ accs) (hid : a.ID = b.ID) : a = b := by
  induction accs with
  | nil => cases ha
  | cons x t ih =>
      simp only [List.map_cons, List.nodup_cons] at h
      rcases List.mem_cons.mp ha with rfl | ha2
      · rcases List.mem_cons.mp hb with rfl | hb2
        · rfl
        · exact absurd (by rw [hid]; exact List.mem_map_of_mem (fun a => a.ID) hb2) h.1
      · rcases List.mem_cons.mp hb with rfl | hb2
        · exact absurd (by rw [← hid]; exact List.mem_map_of_mem (fun a => a.ID) ha2) h.1
        · exact ih h.2 ha2 hb2

/-- Helper: distinct member rows carry distinct ids (contrapositive of the
nodup injectivity). -/
theorem ids_ne_of_rows_ne (accs : List Account)
    (h : (accs.map (fun a => a.ID)).Nodup) (a b : Account)
    (ha : a ∈ accs) (hb : b ∈ accs) (hne : a ≠ b) : a.ID ≠ b.ID :=
  fun hid => hne (accounts_nodup_inj accs h a b ha hb hid)

/-- Helper: the row update applies to a row carrying the matching id and the
previous version. -/
theorem applyBalanceUpdate_hit (id : String) (nb nv : ℤ) (a : Account)
    (hid : a.ID = id) (hv : a.Version = nv - 1) :
    AccountRepository.applyBalanceUpdate id nb nv a
      = { a with Balance := nb, Version := nv } := by
  simp [AccountRepository.applyBalanceUpdate, hid, hv]

/-- Helper: the row update leaves rows with other ids unchanged. -/
theorem applyBalanceUpdate_miss (id : String) (nb nv : ℤ) (a : Account)
    (hid : a.ID ≠ id) :
    AccountRepository.applyBalanceUpdate id nb nv a = a := by
  simp [AccountRepository.applyBalanceUpdate, hid]

/-- Helper: a successful conversion echoes a positive source amount and
produces a positive destination amount. -/
theorem Convert_pos (fx : RateService) (amount : ℤ) (fromC toC : Currency)
    (conv : Conversion) (h : Convert fx amount fromC toC = .ok conv) :
    conv.SourceAmount = amount ∧ 0 < amount ∧ 0 < conv.DestAmount := by
  simp only [Convert] at h
  by_cases hle : amount ≤ 0
  · rw [if_pos hle] at h; cases h
  rw [if_neg hle] at h
  cases hq : GetRate fx fromC toC with
  | error e => rw [hq] at h; cases h
  | ok quote =>
  rw [hq] at h
  simp only [] at h
  by_cases heq : fromC = toC
  · rw [if_pos heq] at h
    cases h
    refine ⟨rfl, by omega, ?_⟩
    show 0 < amount
    omega
  · rw [if_neg heq] at h
    cases h
    refine ⟨rfl, by omega, ?_⟩
    split
    · show (0 : ℤ) < 1
      omega
    · show 0 < ((Dec.fromInt amount).mul quote.EffectiveRate).round0.intPart
      omega


/-- Helper: a same-currency external payout followed by its failure reversal.
The compensating entries reverse the original entries with inverted sides,
every balance snapshot they record is non-negative, and every account balance
returns to its pre-payment value. -/
theorem reversal_same_currency_aux (bank : Bank) (req : ExternalPayoutRequest)
    (senderID pid : String) (now : ℤ) (p : Payment) (bank1 : Bank)
    (reason : String) (now2 : ℤ) (bank2 : Bank)
    (hexec : executeSameCurrencyExternalPayout bank req senderID pid now = .ok (p, bank1))
    (hfail : handleFailed bank1 p reason now2 = .ok bank2)
    (hamt : 0 ≤ req.Amount)
    (hsame : req.SourceCurrency = req.DestCurrency)
    (hnn : ∀ a ∈ bank.accounts, 0 ≤ a.Balance)
    (huniq : (bank.accounts.map (fun a => a.ID)).Nodup)
    (huser : ∀ a ∈ bank.accounts, a.ID = senderID → a.AccountType = AccountTypeUser) :
    ∃ E R, bank1.ledger = bank.ledger ++ E ∧ bank2.ledger = bank1.ledger ++ R ∧
      R.map entryShape = ((E.map entryShape).reverse).map invertShape ∧
      (∀ e ∈ R, 0 ≤ e.BalanceBefore ∧ 0 ≤ e.BalanceAfter) ∧
      (∀ id2, (findAccount bank2.accounts id2).map (fun a => a.Balance)
          = (findAccount bank.accounts id2).map (fun a => a.Balance)) := by
  obtain ⟨og, locked, hog, hlock, hp, hbal, hu, hpay, hledger, hev,
    accounts1, hub1, hub2⟩ := execSameExt_run bank req senderID pid now p bank1 hexec
  obtain ⟨S, hSg, hSf⟩ := lockAccountsInOrder_get _ _ _ hlock senderID (by simp)
  obtain ⟨OGa, hOGg, hOGf⟩ := lockAccountsInOrder_get _ _ _ hlock og.ID (by simp)
  obtain ⟨hogmem, hoguser, hogcur, hogtype⟩ := getSystemAccount_spec _ _ _ _ hog
  obtain ⟨hOGamem, hOGaid⟩ := findAccount_spec _ _ _ hOGf
  have hOGa : og = OGa :=
    (accounts_nodup_inj _ huniq _ _ hOGamem hogmem hOGaid).symm
  subst hOGa
  obtain ⟨hSmem, hSid⟩ := findAccount_spec _ _ _ hSf
  have hStype : S.AccountType = AccountTypeUser := huser S hSmem hSid
  have hogneS : og ≠ S := by
    intro he
    rw [he, hStype] at hogtype
    exact absurd hogtype (by decide)
  have hogSid : og.ID ≠ senderID := by
    rw [← hSid]
    exact ids_ne_of_rows_ne _ huniq _ _ hogmem hSmem hogneS
  have hSogid : S.ID ≠ og.ID := by
    rw [hSid]
    exact fun hh => hogSid hh.symm
  rw [hSg] at hub1 hbal
  rw [hOGg] at hub2
  rw [hSg, hOGg] at hledger
  have hfind1 : ∀ id2, findAccount bank1.accounts id2
      = ((findAccount bank.accounts id2).map
            (AccountRepository.applyBalanceUpdate S.ID (S.Balance - req.Amount)
              (S.Version + 1))).map
          (AccountRepository.applyBalanceUpdate og.ID (og.Balance + req.Amount)
            (og.Version + 1)) := by
    intro id2
    rw [findAccount_updateBalance _ _ _ _ _ hub2 id2,
      findAccount_updateBalance _ _ _ _ _ hub1 id2]
  obtain ⟨S1, hS1def⟩ : ∃ x : Account,
      ({ S with Balance := S.Balance - req.Amount, Version := S.Version + 1 } : Account)
        = x := ⟨_, rfl⟩
  obtain ⟨OG1, hOG1def⟩ : ∃ x : Account,
      ({ og with Balance := og.Balance + req.Amount, Version := og.Version + 1 } : Account)
        = x := ⟨_, rfl⟩
  have hS1id : S1.ID = S.ID := by rw [← hS1def]
  have hS1bal : S1.Balance = S.Balance - req.Amount := by rw [← hS1def]
  have hS1ver : S1.Version = S.Version + 1 := by rw [← hS1def]
  have hOG1id : OG1.ID = og.ID := by rw [← hOG1def]
  have hOG1bal : OG1.Balance = og.Balance + req.Amount := by rw [← hOG1def]
  have hOG1ver : OG1.Version = og.Version + 1 := by rw [← hOG1def]
  have hS1 : findAccount bank1.accounts senderID = some S1 := by
    rw [hfind1, hSf, Option.map_some', Option.map_some',
      applyBalanceUpdate_hit S.ID (S.Balance - req.Amount) (S.Version + 1) S rfl (by omega),
      hS1def,
      applyBalanceUpdate_miss og.ID (og.Balance + req.Amount) (og.Version + 1) S1
        (by rw [hS1id]; exact hSogid)]
  have hOG1v : findAccount bank1.accounts og.ID = some OG1 := by
    rw [hfind1, hOGf, Option.map_some', Option.map_some',
      applyBalanceUpdate_miss S.ID (S.Balance - req.Amount) (S.Version + 1) og
        (fun hh => hSogid hh.symm),
      applyBalanceUpdate_hit og.ID (og.Balance + req.Amount) (og.Version + 1) og rfl
        (by omega),
      hOG1def]
  have hpsc : p.SourceCurrency = req.SourceCurrency := by rw [hp]; rfl
  have hpdc : p.DestCurrency = req.DestCurrency := by rw [hp]; rfl
  have hpsa : p.SourceAmount = req.Amount := by rw [hp]; rfl
  have hpda : p.DestAmount = req.Amount := by rw [hp]; rfl
  have hpsid : p.SourceAccountID = senderID := by rw [hp]; rfl
  obtain ⟨og2, locked2, hog2, hlock2, hus2, hwr2, hu2, hev2⟩ :=
    handleFailed_run_same bank1 p reason now2 bank2 (by rw [hpsc, hpdc, hsame]) hfail
  have hogchain : getSystemAccount bank1.accounts AccountTypeOutgoing p.DestCurrency
      = .ok OG1 := by
    rw [hpdc]
    have h1 := getSystemAccount_updateBalance _ _ _ _ _ _ _ _ hub1 hog
    have h2 := getSystemAccount_updateBalance _ _ _ _ _ _ _ _ hub2 h1
    rw [h2,
      applyBalanceUpdate_miss S.ID (S.Balance - req.Amount) (S.Version + 1) og
        (fun hh => hSogid hh.symm),
      applyBalanceUpdate_hit og.ID (og.Balance + req.Amount) (og.Version + 1) og rfl
        (by omega),
      hOG1def]
  have hog2eq : OG1 = og2 := by
    rw [hog2] at hogchain
    injection hogchain with hh
    exact hh.symm
  subst hog2eq
  obtain ⟨S2, hS2g, hS2f⟩ := lockAccountsInOrder_get _ _ _ hlock2 p.SourceAccountID (by simp)
  obtain ⟨OG2, hOG2g, hOG2f⟩ := lockAccountsInOrder_get _ _ _ hlock2 OG1.ID (by simp)
  rw [hpsid, hS1] at hS2f
  injection hS2f with hS2f
  subst hS2f
  have hOG1v2 : findAccount bank1.accounts OG1.ID = some OG1 := by
    rw [hOG1id]; exact hOG1v
  rw [hOG1v2] at hOG2f
  injection hOG2f with hOG2f
  subst hOG2f
  have hentries : sameCurrencyReversalEntries p locked2 OG1.ID
      = [⟨OG1, EntryTypeDebit, p.DestAmount, p.DestCurrency⟩,
         ⟨S1, EntryTypeCredit, p.SourceAmount, p.SourceCurrency⟩] := by
    simp only [sameCurrencyReversalEntries]
    rw [hOG2g, hS2g]
  rw [hentries] at hwr2
  obtain ⟨accsA, hvb1, hvb2, hledger2⟩ := writeReversal_run_two _ _ _ _ _ _ _ _ hwr2
  have hrc : (EntryTypeCredit == EntryTypeDebit) = false := by decide
  have hrnb1 : reversalNewBalance ⟨OG1, EntryTypeDebit, p.DestAmount, p.DestCurrency⟩
      = OG1.Balance - p.DestAmount := by
    simp [reversalNewBalance]
  have hrnb2 : reversalNewBalance ⟨S1, EntryTypeCredit, p.SourceAmount, p.SourceCurrency⟩
      = S1.Balance + p.SourceAmount := by
    simp [reversalNewBalance, hrc]
  have hfind2 : ∀ id2, findAccount bank2.accounts id2
      = ((findAccount bank1.accounts id2).map
            (AccountRepository.applyBalanceUpdate OG1.ID
              (reversalNewBalance ⟨OG1, EntryTypeDebit, p.DestAmount, p.DestCurrency⟩)
              (OG1.Version + 1))).map
          (AccountRepository.applyBalanceUpdate S1.ID
            (reversalNewBalance ⟨S1, EntryTypeCredit, p.SourceAmount, p.SourceCurrency⟩)
            (S1.Version + 1)) := by
    intro id2
    rw [findAccount_updateBalance _ _ _ _ _ hvb2 id2,
      findAccount_updateBalance _ _ _ _ _ hvb1 id2]
  refine ⟨writeExternalLedgerEntries p S og,
    [reversalLedgerEntry p.ID ⟨OG1, EntryTypeDebit, p.DestAmount, p.DestCurrency⟩ now2,
     reversalLedgerEntry p.ID ⟨S1, EntryTypeCredit, p.SourceAmount, p.SourceCurrency⟩ now2],
    hledger, hledger2, ?_, ?_, ?_⟩
  · have hd : invertSide EntryTypeCredit = EntryTypeDebit := by decide
    have hc : invertSide EntryTypeDebit = EntryTypeCredit := by decide
    simp [entryShape, invertShape, reversalLedgerEntry, writeExternalLedgerEntries,
      hd, hc, hS1id, hOG1id]
  · intro e he
    have hSnn := hnn S hSmem
    have hognn := hnn og hogmem
    simp only [List.mem_cons, List.not_mem_nil, or_false] at he
    rcases he with rfl | rfl
    · refine ⟨?_, ?_⟩
      · show 0 ≤ OG1.Balance
        omega
      · show 0 ≤ reversalNewBalance ⟨OG1, EntryTypeDebit, p.DestAmount, p.DestCurrency⟩
        rw [hrnb1]
        omega
    · refine ⟨?_, ?_⟩
      · show 0 ≤ S1.Balance
        omega
      · show 0 ≤ reversalNewBalance ⟨S1, EntryTypeCredit, p.SourceAmount, p.SourceCurrency⟩
        rw [hrnb2]
        omega
  · intro id2
    rw [hfind2 id2, hfind1 id2]
    by_cases h2s : id2 = senderID
    · subst h2s
      rw [hSf]
      simp only [Option.map_some', Option.some.injEq]
      rw [applyBalanceUpdate_hit S.ID (S.Balance - req.Amount) (S.Version + 1) S rfl
          (by omega),
        hS1def,
        applyBalanceUpdate_miss og.ID (og.Balance + req.Amount) (og.Version + 1) S1
          (by rw [hS1id]; exact hSogid),
        applyBalanceUpdate_miss OG1.ID
          (reversalNewBalance ⟨OG1, EntryTypeDebit, p.DestAmount, p.DestCurrency⟩)
          (OG1.Version + 1) S1 (by rw [hS1id, hOG1id]; exact hSogid),
        applyBalanceUpdate_hit S1.ID
          (reversalNewBalance ⟨S1, EntryTypeCredit, p.SourceAmount, p.SourceCurrency⟩)
          (S1.Version + 1) S1 rfl (by omega)]
      show reversalNewBalance ⟨S1, EntryTypeCredit, p.SourceAmount, p.SourceCurrency⟩
          = S.Balance
      rw [hrnb2]
      omega
    by_cases h2o : id2 = og.ID
    · subst h2o
      rw [hOGf]
      simp only [Option.map_some', Option.some.injEq]
      rw [applyBalanceUpdate_miss S.ID (S.Balance - req.Amount) (S.Version + 1) og
          (fun hh => hSogid hh.symm),
        applyBalanceUpdate_hit og.ID (og.Balance + req.Amount) (og.Version + 1) og rfl
          (by omega),
        hOG1def,
        applyBalanceUpdate_hit OG1.ID
          (reversalNewBalance ⟨OG1, EntryTypeDebit, p.DestAmount, p.DestCurrency⟩)
          (OG1.Version + 1) OG1 rfl (by omega),
        applyBalanceUpdate_miss S1.ID
          (reversalNewBalance ⟨S1, EntryTypeCredit, p.SourceAmount, p.SourceCurrency⟩)
          (S1.Version + 1)
          ({ OG1 with
              Balance := reversalNewBalance ⟨OG1, EntryTypeDebit, p.DestAmount, p.DestCurrency⟩,
              Version := OG1.Version + 1 })
          (by show OG1.ID ≠ S1.ID; rw [hS1id, hOG1id]; exact fun hh => hSogid hh.symm)]
      show reversalNewBalance ⟨OG1, EntryTypeDebit, p.DestAmount, p.DestCurrency⟩
          = og.Balance
      rw [hrnb1]
      omega
    cases hfa : findAccount bank.accounts id2 with
    | none => rfl
    | some a =>
        obtain ⟨hamem, haid⟩ := findAccount_spec _ _ _ hfa
        simp only [Option.map_some', Option.some.injEq]
        rw [applyBalanceUpdate_miss S.ID (S.Balance - req.Amount) (S.Version + 1) a
            (by rw [haid, hSid]; exact h2s),
          applyBalanceUpdate_miss og.ID (og.Balance + req.Amount) (og.Version + 1) a
            (by rw [haid]; exact h2o),
          applyBalanceUpdate_miss OG1.ID
            (reversalNewBalance ⟨OG1, EntryTypeDebit, p.DestAmount, p.DestCurrency⟩)
            (OG1.Version + 1) a (by rw [haid, hOG1id]; exact h2o),
          applyBalanceUpdate_miss S1.ID
            (reversalNewBalance ⟨S1, EntryTypeCredit, p.SourceAmount, p.SourceCurrency⟩)
            (S1.Version + 1) a (by rw [haid, hS1id, hSid]; exact h2s)]

/-- Helper: a cross-currency external payout followed by its failure reversal.
The four compensating entries reverse the original four entries with inverted
sides, every balance snapshot they record is non-negative, and every account
balance (sender, outgoing, both fx pools) returns to its pre-payment value. -/
theorem reversal_cross_currency_aux (s : Service) (bank : Bank)
    (req : ExternalPayoutRequest) (senderID pid : String) (now : ℤ) (p : Payment)
    (bank1 : Bank) (reason : String) (now2 : ℤ) (bank2 : Bank)
    (hexec : executeCrossCurrencyExternalPayout s bank req senderID pid now = .ok (p, bank1))
    (hfail : handleFailed bank1 p reason now2 = .ok bank2)
    (hcross : req.SourceCurrency ≠ req.DestCurrency)
    (hnn : ∀ a ∈ bank.accounts, 0 ≤ a.Balance)
    (huniq : (bank.accounts.map (fun a => a.ID)).Nodup)
    (huser : ∀ a ∈ bank.accounts, a.ID = senderID → a.AccountType = AccountTypeUser) :
    ∃ E R, bank1.ledger = bank.ledger ++ E ∧ bank2.ledger = bank1.ledger ++ R ∧
      R.map entryShape = ((E.map entryShape).reverse).map invertShape ∧
      (∀ e ∈ R, 0 ≤ e.BalanceBefore ∧ 0 ≤ e.BalanceAfter) ∧
      (∀ id2, (findAccount bank2.accounts id2).map (fun a => a.Balance)
          = (findAccount bank.accounts id2).map (fun a => a.Balance)) := by
  obtain ⟨conv, fxS, fxD, og, locked, hcv, hfs, hfd, hog, hlock, hp, hbal, hfxbal,
    hu, hpay, hledger, hev, accounts1, accounts2, accounts3, hub1, hub2, hub3, hub4⟩ :=
    execCrossExt_run s bank req senderID pid now p bank1 hexec
  obtain ⟨S, hSg, hSf⟩ := lockAccountsInOrder_get _ _ _ hlock senderID (by simp)
  obtain ⟨FSa, hFSg, hFSf⟩ := lockAccountsInOrder_get _ _ _ hlock fxS.ID (by simp)
  obtain ⟨FDa, hFDg, hFDf⟩ := lockAccountsInOrder_get _ _ _ hlock fxD.ID (by simp)
  obtain ⟨OGa, hOGg, hOGf⟩ := lockAccountsInOrder_get _ _ _ hlock og.ID (by simp)
  obtain ⟨hfsmem, hfsuser, hfscur, hfstype⟩ := getSystemAccount_spec _ _ _ _ hfs
  obtain ⟨hfdmem, hfduser, hfdcur, hfdtype⟩ := getSystemAccount_spec _ _ _ _ hfd
  obtain ⟨hogmem, hoguser, hogcur, hogtype⟩ := getSystemAccount_spec _ _ _ _ hog
  obtain ⟨hFSamem, hFSaid⟩ := findAccount_spec _ _ _ hFSf
  obtain ⟨hFDamem, hFDaid⟩ := findAccount_spec _ _ _ hFDf
  obtain ⟨hOGamem, hOGaid⟩ := findAccount_spec _ _ _ hOGf
  have hFSa : fxS = FSa :=
    (accounts_nodup_inj _ huniq _ _ hFSamem hfsmem hFSaid).symm
  subst hFSa
  have hFDa : fxD = FDa :=
    (accounts_nodup_inj _ huniq _ _ hFDamem hfdmem hFDaid).symm
  subst hFDa
  have hOGa : og = OGa :=
    (accounts_nodup_inj _ huniq _ _ hOGamem hogmem hOGaid).symm
  subst hOGa
  obtain ⟨hSmem, hSid⟩ := findAccount_spec _ _ _ hSf
  have hStype : S.AccountType = AccountTypeUser := huser S hSmem hSid
  have hogneS : og ≠ S := by
    intro he
    rw [he, hStype] at hogtype
    exact absurd hogtype (by decide)
  have hfsneS : fxS ≠ S := by
    intro he
    rw [he, hStype] at hfstype
    exact absurd hfstype (by decide)
  have hfdneS : fxD ≠ S := by
    intro he
    rw [he, hStype] at hfdtype
    exact absurd hfdtype (by decide)
  have hfsneog : fxS ≠ og := by
    intro he
    rw [he, hogtype] at hfstype
    exact absurd hfstype (by decide)
  have hfdneog : fxD ≠ og := by
    intro he
    rw [he, hogtype] at hfdtype
    exact absurd hfdtype (by decide)
  have hfsnefd : fxS ≠ fxD := by
    intro he
    rw [he, hfdcur] at hfscur
    exact hcross hfscur.symm
  have hSog : S.ID ≠ og.ID := by
    rw [hSid]
    exact fun hh => (ids_ne_of_rows_ne _ huniq _ _ hogmem hSmem hogneS) (hh.symm ▸ hSid.symm)
  have hSfs : S.ID ≠ fxS.ID :=
    fun hh => (ids_ne_of_rows_ne _ huniq _ _ hfsmem hSmem hfsneS) hh.symm
  have hSfd : S.ID ≠ fxD.ID :=
    fun hh => (ids_ne_of_rows_ne _ huniq _ _ hfdmem hSmem hfdneS) hh.symm
  have hfsog : fxS.ID ≠ og.ID :=
    ids_ne_of_rows_ne _ huniq _ _ hfsmem hogmem hfsneog
  have hfdog : fxD.ID ≠ og.ID :=
    ids_ne_of_rows_ne _ huniq _ _ hfdmem hogmem hfdneog
  have hfsfd : fxS.ID ≠ fxD.ID :=
    ids_ne_of_rows_ne _ huniq _ _ hfsmem hfdmem hfsnefd
  rw [hSg] at hub1 hbal
  rw [hFSg] at hub2
  rw [hFDg] at hub3 hfxbal
  rw [hOGg] at hub4
  rw [hSg, hFSg, hFDg, hOGg] at hledger
  have hfind1 : ∀ id2, findAccount bank1.accounts id2
      = ((((findAccount bank.accounts id2).map
              (AccountRepository.applyBalanceUpdate S.ID (S.Balance - req.Amount)
                (S.Version + 1))).map
            (AccountRepository.applyBalanceUpdate fxS.ID (fxS.Balance + req.Amount)
              (fxS.Version + 1))).map
          (AccountRepository.applyBalanceUpdate fxD.ID (fxD.Balance - conv.DestAmount)
            (fxD.Version + 1))).map
        (AccountRepository.applyBalanceUpdate og.ID (og.Balance + conv.DestAmount)
          (og.Version + 1)) := by
    intro id2
    rw [findAccount_updateBalance _ _ _ _ _ hub4 id2,
      findAccount_updateBalance _ _ _ _ _ hub3 id2,
      findAccount_updateBalance _ _ _ _ _ hub2 id2,
      findAccount_updateBalance _ _ _ _ _ hub1 id2]
  obtain ⟨S1, hS1def⟩ : ∃ x : Account,
      ({ S with Balance := S.Balance - req.Amount, Version := S.Version + 1 } : Account)
        = x := ⟨_, rfl⟩
  obtain ⟨FS1, hFS1def⟩ : ∃ x : Account,
      ({ fxS with Balance := fxS.Balance + req.Amount, Version := fxS.Version + 1 } : Account)
        = x := ⟨_, rfl⟩
  obtain ⟨FD1, hFD1def⟩ : ∃ x : Account,
      ({ fxD with Balance := fxD.Balance - conv.DestAmount, Version := fxD.Version + 1 } : Account)
        = x := ⟨_, rfl⟩
  obtain ⟨OG1, hOG1def⟩ : ∃ x : Account,
      ({ og with Balance := og.Balance + conv.DestAmount, Version := og.Version + 1 } : Account)
        = x := ⟨_, rfl⟩
  have hS1id : S1.ID = S.ID := by rw [← hS1def]
  have hS1bal : S1.Balance = S.Balance - req.Amount := by rw [← hS1def]
  have hS1ver : S1.Version = S.Version + 1 := by rw [← hS1def]
  have hFS1id : FS1.ID = fxS.ID := by rw [← hFS1def]
  have hFS1bal : FS1.Balance = fxS.Balance + req.Amount := by rw [← hFS1def]
  have hFS1ver : FS1.Version = fxS.Version + 1 := by rw [← hFS1def]
  have hFD1id : FD1.ID = fxD.ID := by rw [← hFD1def]
  have hFD1bal : FD1.Balance = fxD.Balance - conv.DestAmount := by rw [← hFD1def]
  have hFD1ver : FD1.Version = fxD.Version + 1 := by rw [← hFD1def]
  have hOG1id : OG1.ID = og.ID := by rw [← hOG1def]
  have hOG1bal : OG1.Balance = og.Balance + conv.DestAmount := by rw [← hOG1def]
  have hOG1ver : OG1.Version = og.Version + 1 := by rw [← hOG1def]
  have hS1v : findAccount bank1.accounts senderID = some S1 := by
    rw [hfind1, hSf]
    simp only [Option.map_some']
    rw [applyBalanceUpdate_hit S.ID (S.Balance - req.Amount) (S.Version + 1) S rfl
        (by omega),
      hS1def,
      applyBalanceUpdate_miss fxS.ID (fxS.Balance + req.Amount) (fxS.Version + 1) S1
        (by rw [hS1id]; exact hSfs),
      applyBalanceUpdate_miss fxD.ID (fxD.Balance - conv.DestAmount) (fxD.Version + 1) S1
        (by rw [hS1id]; exact hSfd),
      applyBalanceUpdate_miss og.ID (og.Balance + conv.DestAmount) (og.Version + 1) S1
        (by rw [hS1id]; exact hSog)]
  have hFS1v : findAccount bank1.accounts fxS.ID = some FS1 := by
    rw [hfind1, hFSf]
    simp only [Option.map_some']
    rw [applyBalanceUpdate_miss S.ID (S.Balance - req.Amount) (S.Version + 1) fxS
        (fun hh => hSfs hh.symm),
      applyBalanceUpdate_hit fxS.ID (fxS.Balance + req.Amount) (fxS.Version + 1) fxS rfl
        (by omega),
      hFS1def,
      applyBalanceUpdate_miss fxD.ID (fxD.Balance - conv.DestAmount) (fxD.Version + 1) FS1
        (by rw [hFS1id]; exact hfsfd),
      applyBalanceUpdate_miss og.ID (og.Balance + conv.DestAmount) (og.Version + 1) FS1
        (by rw [hFS1id]; exact hfsog)]
  have hFD1v : findAccount bank1.accounts fxD.ID = some FD1 := by
    rw [hfind1, hFDf]
    simp only [Option.map_some']
    rw [applyBalanceUpdate_miss S.ID (S.Balance - req.Amount) (S.Version + 1) fxD
        (fun hh => hSfd hh.symm),
      applyBalanceUpdate_miss fxS.ID (fxS.Balance + req.Amount) (fxS.Version + 1) fxD
        (fun hh => hfsfd hh.symm),
      applyBalanceUpdate_hit fxD.ID (fxD.Balance - conv.DestAmount) (fxD.Version + 1) fxD rfl
        (by omega),
      hFD1def,
      applyBalanceUpdate_miss og.ID (og.Balance + conv.DestAmount) (og.Version + 1) FD1
        (by rw [hFD1id]; exact hfdog)]
  have hOG1v : findAccount bank1.accounts og.ID = some OG1 := by
    rw [hfind1, hOGf]
    simp only [Option.map_some']
    rw [applyBalanceUpdate_miss S.ID (S.Balance - req.Amount) (S.Version + 1) og
        (fun hh => hSog hh.symm),
      applyBalanceUpdate_miss fxS.ID (fxS.Balance + req.Amount) (fxS.Version + 1) og
        (fun hh => hfsog hh.symm),
      applyBalanceUpdate_miss fxD.ID (fxD.Balance - conv.DestAmount) (fxD.Version + 1) og
        (fun hh => hfdog hh.symm),
      applyBalanceUpdate_hit og.ID (og.Balance + conv.DestAmount) (og.Version + 1) og rfl
        (by omega),
      hOG1def]
  have hpsc : p.SourceCurrency = req.SourceCurrency := by rw [hp]; rfl
  have hpdc : p.DestCurrency = req.DestCurrency := by rw [hp]; rfl
  have hpsa : p.SourceAmount = req.Amount := by rw [hp]; rfl
  have hpda : p.DestAmount = conv.DestAmount := by rw [hp]; rfl
  have hpsid : p.SourceAccountID = senderID := by rw [hp]; rfl
  have hpcross : p.SourceCurrency ≠ p.DestCurrency := by
    rw [hpsc, hpdc]; exact hcross
  obtain ⟨og2, fxS2, fxD2, locked2, hog2, hfs2, hfd2, hlock2, hus2, hwr2, hu2, hev2⟩ :=
    handleFailed_run_cross bank1 p reason now2 bank2 hpcross hfail
  have hogchain : getSystemAccount bank1.accounts AccountTypeOutgoing p.DestCurrency
      = .ok OG1 := by
    rw [hpdc]
    have h1 := getSystemAccount_updateBalance _ _ _ _ _ _ _ _ hub1 hog
    have h2 := getSystemAccount_updateBalance _ _ _ _ _ _ _ _ hub2 h1
    have h3 := getSystemAccount_updateBalance _ _ _ _ _ _ _ _ hub3 h2
    have h4 := getSystemAccount_updateBalance _ _ _ _ _ _ _ _ hub4 h3
    rw [h4,
      applyBalanceUpdate_miss S.ID (S.Balance - req.Amount) (S.Version + 1) og
        (fun hh => hSog hh.symm),
      applyBalanceUpdate_miss fxS.ID (fxS.Balance + req.Amount) (fxS.Version + 1) og
        (fun hh => hfsog hh.symm),
      applyBalanceUpdate_miss fxD.ID (fxD.Balance - conv.DestAmount) (fxD.Version + 1) og
        (fun hh => hfdog hh.symm),
      applyBalanceUpdate_hit og.ID (og.Balance + conv.DestAmount) (og.Version + 1) og rfl
        (by omega),
      hOG1def]
  have hfschain : getSystemAccount bank1.accounts AccountTypeFXPool p.SourceCurrency
      = .ok FS1 := by
    rw [hpsc]
    have h1 := getSystemAccount_updateBalance _ _ _ _ _ _ _ _ hub1 hfs
    have h2 := getSystemAccount_updateBalance _ _ _ _ _ _ _ _ hub2 h1
    have h3 := getSystemAccount_updateBalance _ _ _ _ _ _ _ _ hub3 h2
    have h4 := getSystemAccount_updateBalance _ _ _ _ _ _ _ _ hub4 h3
    rw [h4,
      applyBalanceUpdate_miss S.ID (S.Balance - req.Amount) (S.Version + 1) fxS
        (fun hh => hSfs hh.symm),
      applyBalanceUpdate_hit fxS.ID (fxS.Balance + req.Amount) (fxS.Version + 1) fxS rfl
        (by omega),
      hFS1def,
      applyBalanceUpdate_miss fxD.ID (fxD.Balance - conv.DestAmount) (fxD.Version + 1) FS1
        (by rw [hFS1id]; exact hfsfd),
      applyBalanceUpdate_miss og.ID (og.Balance + conv.DestAmount) (og.Version + 1) FS1
        (by rw [hFS1id]; exact hfsog)]
  have hfdchain : getSystemAccount bank1.accounts AccountTypeFXPool p.DestCurrency
      = .ok FD1 := by
    rw [hpdc]
    have h1 := getSystemAccount_updateBalance _ _ _ _ _ _ _ _ hub1 hfd
    have h2 := getSystemAccount_updateBalance _ _ _ _ _ _ _ _ hub2 h1
    have h3 := getSystemAccount_updateBalance _ _ _ _ _ _ _ _ hub3 h2
    have h4 := getSystemAccount_updateBalance _ _ _ _ _ _ _ _ hub4 h3
    rw [h4,
      applyBalanceUpdate_miss S.ID (S.Balance - req.Amount) (S.Version + 1) fxD
        (fun hh => hSfd hh.symm),
      applyBalanceUpdate_miss fxS.ID (fxS.Balance + req.Amount) (fxS.Version + 1) fxD
        (fun hh => hfsfd hh.symm),
      applyBalanceUpdate_hit fxD.ID (fxD.Balance - conv.DestAmount) (fxD.Version + 1) fxD rfl
        (by omega),
      hFD1def,
      applyBalanceUpdate_miss og.ID (og.Balance + conv.DestAmount) (og.Version + 1) FD1
        (by rw [hFD1id]; exact hfdog)]
  have hog2eq : OG1 = og2 := by
    rw [hog2] at hogchain
    injection hogchain with hh
    exact hh.symm
  subst hog2eq
  have hfs2eq : FS1 = fxS2 := by
    rw [hfs2] at hfschain
    injection hfschain with hh
    exact hh.symm
  subst hfs2eq
  have hfd2eq : FD1 = fxD2 := by
    rw [hfd2] at hfdchain
    injection hfdchain with hh
    exact hh.symm
  subst hfd2eq
  obtain ⟨S2, hS2g, hS2f⟩ := lockAccountsInOrder_get _ _ _ hlock2 p.SourceAccountID (by simp)
  obtain ⟨OG2, hOG2g, hOG2f⟩ := lockAccountsInOrder_get _ _ _ hlock2 OG1.ID (by simp)
  obtain ⟨FS2, hFS2g, hFS2f⟩ := lockAccountsInOrder_get _ _ _ hlock2 FS1.ID (by simp)
  obtain ⟨FD2, hFD2g, hFD2f⟩ := lockAccountsInOrder_get _ _ _ hlock2 FD1.ID (by simp)
  rw [hpsid, hS1v] at hS2f
  injection hS2f with hS2f
  subst hS2f
  have hOG1v2 : findAccount bank1.accounts OG1.ID = some OG1 := by
    rw [hOG1id]; exact hOG1v
  rw [hOG1v2] at hOG2f
  injection hOG2f with hOG2f
  subst hOG2f
  have hFS1v2 : findAccount bank1.accounts FS1.ID = some FS1 := by
    rw [hFS1id]; exact hFS1v
  rw [hFS1v2] at hFS2f
  injection hFS2f with hFS2f
  subst hFS2f
  have hFD1v2 : findAccount bank1.accounts FD1.ID = some FD1 := by
    rw [hFD1id]; exact hFD1v
  rw [hFD1v2] at hFD2f
  injection hFD2f with hFD2f
  subst hFD2f
  have hentries : crossCurrencyReversalEntries p locked2 OG1.ID FS1.ID FD1.ID
      = [⟨OG1, EntryTypeDebit, p.DestAmount, p.DestCurrency⟩,
         ⟨FD1, EntryTypeCredit, p.DestAmount, p.DestCurrency⟩,
         ⟨FS1, EntryTypeDebit, p.SourceAmount, p.SourceCurrency⟩,
         ⟨S1, EntryTypeCredit, p.SourceAmount, p.SourceCurrency⟩] := by
    simp only [crossCurrencyReversalEntries]
    rw [hOG2g, hFD2g, hFS2g, hS2g]
  rw [hentries] at hwr2
  obtain ⟨accsA, accsB, accsC, hvb1, hvb2, hvb3, hvb4, hledger2⟩ :=
    writeReversal_run_four _ _ _ _ _ _ _ _ _ _ hwr2
  have hrc : (EntryTypeCredit == EntryTypeDebit) = false := by decide
  have hrnbOG : reversalNewBalance ⟨OG1, EntryTypeDebit, p.DestAmount, p.DestCurrency⟩
      = OG1.Balance - p.DestAmount := by
    simp [reversalNewBalance]
  have hrnbFD : reversalNewBalance ⟨FD1, EntryTypeCredit, p.DestAmount, p.DestCurrency⟩
      = FD1.Balance + p.DestAmount := by
    simp [reversalNewBalance, hrc]
  have hrnbFS : reversalNewBalance ⟨FS1, EntryTypeDebit, p.SourceAmount, p.SourceCurrency⟩
      = FS1.Balance - p.SourceAmount := by
    simp [reversalNewBalance]
  have hrnbS : reversalNewBalance ⟨S1, EntryTypeCredit, p.SourceAmount, p.SourceCurrency⟩
      = S1.Balance + p.SourceAmount := by
    simp [reversalNewBalance, hrc]
  have hfind2 : ∀ id2, findAccount bank2.accounts id2
      = ((((findAccount bank1.accounts id2).map
              (AccountRepository.applyBalanceUpdate OG1.ID
                (reversalNewBalance ⟨OG1, EntryTypeDebit, p.DestAmount, p.DestCurrency⟩)
                (OG1.Version + 1))).map
            (AccountRepository.applyBalanceUpdate FD1.ID
              (reversalNewBalance ⟨FD1, EntryTypeCredit, p.DestAmount, p.DestCurrency⟩)
              (FD1.Version + 1))).map
          (AccountRepository.applyBalanceUpdate FS1.ID
            (reversalNewBalance ⟨FS1, EntryTypeDebit, p.SourceAmount, p.SourceCurrency⟩)
            (FS1.Version + 1))).map
        (AccountRepository.applyBalanceUpdate S1.ID
          (reversalNewBalance ⟨S1, EntryTypeCredit, p.SourceAmount, p.SourceCurrency⟩)
          (S1.Version + 1)) := by
    intro id2
    rw [findAccount_updateBalance _ _ _ _ _ hvb4 id2,
      findAccount_updateBalance _ _ _ _ _ hvb3 id2,
      findAccount_updateBalance _ _ _ _ _ hvb2 id2,
      findAccount_updateBalance _ _ _ _ _ hvb1 id2]
  obtain ⟨hconvsa, hapos, hdpos⟩ :=
    Convert_pos s.fx req.Amount req.SourceCurrency req.DestCurrency conv hcv
  refine ⟨writeCrossCurrencyExternalLedgerEntries p S fxS fxD og,
    [reversalLedgerEntry p.ID ⟨OG1, EntryTypeDebit, p.DestAmount, p.DestCurrency⟩ now2,
     reversalLedgerEntry p.ID ⟨FD1, EntryTypeCredit, p.DestAmount, p.DestCurrency⟩ now2,
     reversalLedgerEntry p.ID ⟨FS1, EntryTypeDebit, p.SourceAmount, p.SourceCurrency⟩ now2,
     reversalLedgerEntry p.ID ⟨S1, EntryTypeCredit, p.SourceAmount, p.SourceCurrency⟩ now2],
    hledger, hledger2, ?_, ?_, ?_⟩
  · have hd : invertSide EntryTypeCredit = EntryTypeDebit := by decide
    have hc : invertSide EntryTypeDebit = EntryTypeCredit := by decide
    simp [entryShape, invertShape, reversalLedgerEntry,
      writeCrossCurrencyExternalLedgerEntries, hd, hc, hS1id, hFS1id, hFD1id, hOG1id]
  · intro e he
    have hSnn := hnn S hSmem
    have hfsnn := hnn fxS hfsmem
    have hfdnn := hnn fxD hfdmem
    have hognn := hnn og hogmem
    simp only [List.mem_cons, List.not_mem_nil, or_false] at he
    rcases he with rfl | rfl | rfl | rfl
    · refine ⟨?_, ?_⟩
      · show 0 ≤ OG1.Balance
        omega
      · show 0 ≤ reversalNewBalance ⟨OG1, EntryTypeDebit, p.DestAmount, p.DestCurrency⟩
        rw [hrnbOG]
        omega
    · refine ⟨?_, ?_⟩
      · show 0 ≤ FD1.Balance
        omega
      · show 0 ≤ reversalNewBalance ⟨FD1, EntryTypeCredit, p.DestAmount, p.DestCurrency⟩
        rw [hrnbFD]
        omega
    · refine ⟨?_, ?_⟩
      · show 0 ≤ FS1.Balance
        omega
      · show 0 ≤ reversalNewBalance ⟨FS1, EntryTypeDebit, p.SourceAmount, p.SourceCurrency⟩
        rw [hrnbFS]
        omega
    · refine ⟨?_, ?_⟩
      · show 0 ≤ S1.Balance
        omega
      · show 0 ≤ reversalNewBalance ⟨S1, EntryTypeCredit, p.SourceAmount, p.SourceCurrency⟩
        rw [hrnbS]
        omega
  · intro id2
    rw [hfind2 id2, hfind1 id2]
    by_cases h2s : id2 = senderID
    · subst h2s
      rw [hSf]
      simp only [Option.map_some', Option.some.injEq]
      rw [applyBalanceUpdate_hit S.ID (S.Balance - req.Amount) (S.Version + 1) S rfl
          (by omega),
        hS1def,
        applyBalanceUpdate_miss fxS.ID (fxS.Balance + req.Amount) (fxS.Version + 1) S1
          (by rw [hS1id]; exact hSfs),
        applyBalanceUpdate_miss fxD.ID (fxD.Balance - conv.DestAmount) (fxD.Version + 1) S1
          (by rw [hS1id]; exact hSfd),
        applyBalanceUpdate_miss og.ID (og.Balance + conv.DestAmount) (og.Version + 1) S1
          (by rw [hS1id]; exact hSog),
        applyBalanceUpdate_miss OG1.ID
          (reversalNewBalance ⟨OG1, EntryTypeDebit, p.DestAmount, p.DestCurrency⟩)
          (OG1.Version + 1) S1 (by rw [hS1id, hOG1id]; exact hSog),
        applyBalanceUpdate_miss FD1.ID
          (reversalNewBalance ⟨FD1, EntryTypeCredit, p.DestAmount, p.DestCurrency⟩)
          (FD1.Version + 1) S1 (by rw [hS1id, hFD1id]; exact hSfd),
        applyBalanceUpdate_miss FS1.ID
          (reversalNewBalance ⟨FS1, EntryTypeDebit, p.SourceAmount, p.SourceCurrency⟩)
          (FS1.Version + 1) S1 (by rw [hS1id, hFS1id]; exact hSfs),
        applyBalanceUpdate_hit S1.ID
          (reversalNewBalance ⟨S1, EntryTypeCredit, p.SourceAmount, p.SourceCurrency⟩)
          (S1.Version + 1) S1 rfl (by omega)]
      show reversalNewBalance ⟨S1, EntryTypeCredit, p.SourceAmount, p.SourceCurrency⟩
          = S.Balance
      rw [hrnbS]
      omega
    by_cases h2o : id2 = og.ID
    · subst h2o
      rw [hOGf]
      simp only [Option.map_some', Option.some.injEq]
      rw [applyBalanceUpdate_miss S.ID (S.Balance - req.Amount) (S.Version + 1) og
          (fun hh => hSog hh.symm),
        applyBalanceUpdate_miss fxS.ID (fxS.Balance + req.Amount) (fxS.Version + 1) og
          (fun hh => hfsog hh.symm),
        applyBalanceUpdate_miss fxD.ID (fxD.Balance - conv.DestAmount) (fxD.Version + 1) og
          (fun hh => hfdog hh.symm),
        applyBalanceUpdate_hit og.ID (og.Balance + conv.DestAmount) (og.Version + 1) og rfl
          (by omega),
        hOG1def,
        applyBalanceUpdate_hit OG1.ID
          (reversalNewBalance ⟨OG1, EntryTypeDebit, p.DestAmount, p.DestCurrency⟩)
          (OG1.Version + 1) OG1 rfl (by omega),
        applyBalanceUpdate_miss FD1.ID
          (reversalNewBalance ⟨FD1, EntryTypeCredit, p.DestAmount, p.DestCurrency⟩)
          (FD1.Version + 1)
          ({ OG1 with
              Balance := reversalNewBalance ⟨OG1, EntryTypeDebit, p.DestAmount, p.DestCurrency⟩,
              Version := OG1.Version + 1 })
          (by show OG1.ID ≠ FD1.ID; rw [hOG1id, hFD1id]; exact fun hh => hfdog hh.symm),
        applyBalanceUpdate_miss FS1.ID
          (reversalNewBalance ⟨FS1, EntryTypeDebit, p.SourceAmount, p.SourceCurrency⟩)
          (FS1.Version + 1)
          ({ OG1 with
              Balance := reversalNewBalance ⟨OG1, EntryTypeDebit, p.DestAmount, p.DestCurrency⟩,
              Version := OG1.Version + 1 })
          (by show OG1.ID ≠ FS1.ID; rw [hOG1id, hFS1id]; exact fun hh => hfsog hh.symm),
        applyBalanceUpdate_miss S1.ID
          (reversalNewBalance ⟨S1, EntryTypeCredit, p.SourceAmount, p.SourceCurrency⟩)
          (S1.Version + 1)
          ({ OG1 with
              Balance := reversalNewBalance ⟨OG1, EntryTypeDebit, p.DestAmount, p.DestCurrency⟩,
              Version := OG1.Version + 1 })
          (by show OG1.ID ≠ S1.ID; rw [hOG1id, hS1id]; exact fun hh => hSog hh.symm)]
      show reversalNewBalance ⟨OG1, EntryTypeDebit, p.DestAmount, p.DestCurrency⟩
          = og.Balance
      rw [hrnbOG]
      omega
    by_cases h2fs : id2 = fxS.ID
    · subst h2fs
      rw [hFSf]
      simp only [Option.map_some', Option.some.injEq]
      rw [applyBalanceUpdate_miss S.ID (S.Balance - req.Amount) (S.Version + 1) fxS
          (fun hh => hSfs hh.symm),
        applyBalanceUpdate_hit fxS.ID (fxS.Balance + req.Amount) (fxS.Version + 1) fxS rfl
          (by omega),
        hFS1def,
        applyBalanceUpdate_miss fxD.ID (fxD.Balance - conv.DestAmount) (fxD.Version + 1) FS1
          (by rw [hFS1id]; exact hfsfd),
        applyBalanceUpdate_miss og.ID (og.Balance + conv.DestAmount) (og.Version + 1) FS1
          (by rw [hFS1id]; exact hfsog),
        applyBalanceUpdate_miss OG1.ID
          (reversalNewBalance ⟨OG1, EntryTypeDebit, p.DestAmount, p.DestCurrency⟩)
          (OG1.Version + 1) FS1 (by rw [hFS1id, hOG1id]; exact hfsog),
        applyBalanceUpdate_miss FD1.ID
          (reversalNewBalance ⟨FD1, EntryTypeCredit, p.DestAmount, p.DestCurrency⟩)
          (FD1.Version + 1) FS1 (by rw [hFS1id, hFD1id]; exact hfsfd),
        applyBalanceUpdate_hit FS1.ID
          (reversalNewBalance ⟨FS1, EntryTypeDebit, p.SourceAmount, p.SourceCurrency⟩)
          (FS1.Version + 1) FS1 rfl (by omega),
        applyBalanceUpdate_miss S1.ID
          (reversalNewBalance ⟨S1, EntryTypeCredit, p.SourceAmount, p.SourceCurrency⟩)
          (S1.Version + 1)
          ({ FS1 with
              Balance := reversalNewBalance ⟨FS1, EntryTypeDebit, p.SourceAmount, p.SourceCurrency⟩,
              Version := FS1.Version + 1 })
          (by show FS1.ID ≠ S1.ID; rw [hFS1id, hS1id]; exact fun hh => hSfs hh.symm)]
      show reversalNewBalance ⟨FS1, EntryTypeDebit, p.SourceAmount, p.SourceCurrency⟩
          = fxS.Balance
      rw [hrnbFS]
      omega
    by_cases h2fd : id2 = fxD.ID
    · subst h2fd
      rw [hFDf]
      simp only [Option.map_some', Option.some.injEq]
      rw [applyBalanceUpdate_miss S.ID (S.Balance - req.Amount) (S.Version + 1) fxD
          (fun hh => hSfd hh.symm),
        applyBalanceUpdate_miss fxS.ID (fxS.Balance + req.Amount) (fxS.Version + 1) fxD
          (fun hh => hfsfd hh.symm),
        applyBalanceUpdate_hit fxD.ID (fxD.Balance - conv.DestAmount) (fxD.Version + 1) fxD
          rfl (by omega),
        hFD1def,
        applyBalanceUpdate_miss og.ID (og.Balance + conv.DestAmount) (og.Version + 1) FD1
          (by rw [hFD1id]; exact hfdog),
        applyBalanceUpdate_miss OG1.ID
          (reversalNewBalance ⟨OG1, EntryTypeDebit, p.DestAmount, p.DestCurrency⟩)
          (OG1.Version + 1) FD1 (by rw [hFD1id, hOG1id]; exact hfdog),
        applyBalanceUpdate_hit FD1.ID
          (reversalNewBalance ⟨FD1, EntryTypeCredit, p.DestAmount, p.DestCurrency⟩)
          (FD1.Version + 1) FD1 rfl (by omega),
        applyBalanceUpdate_miss FS1.ID
          (reversalNewBalance ⟨FS1, EntryTypeDebit, p.SourceAmount, p.SourceCurrency⟩)
          (FS1.Version + 1)
          ({ FD1 with
              Balance := reversalNewBalance ⟨FD1, EntryTypeCredit, p.DestAmount, p.DestCurrency⟩,
              Version := FD1.Version + 1 })
          (by show FD1.ID ≠ FS1.ID; rw [hFD1id, hFS1id]; exact fun hh => hfsfd hh.symm),
        applyBalanceUpdate_miss S1.ID
          (reversalNewBalance ⟨S1, EntryTypeCredit, p.SourceAmount, p.SourceCurrency⟩)
          (S1.Version + 1)
          ({ FD1 with
              Balance := reversalNewBalance ⟨FD1, EntryTypeCredit, p.DestAmount, p.DestCurrency⟩,
              Version := FD1.Version + 1 })
          (by show FD1.ID ≠ S1.ID; rw [hFD1id, hS1id]; exact fun hh => hSfd hh.symm)]
      show reversalNewBalance ⟨FD1, EntryTypeCredit, p.DestAmount, p.DestCurrency⟩
          = fxD.Balance
      rw [hrnbFD]
      omega
    cases hfa : findAccount bank.accounts id2 with
    | none => rfl
    | some a =>
        obtain ⟨hamem, haid⟩ := findAccount_spec _ _ _ hfa
        simp only [Option.map_some', Option.some.injEq]
        rw [applyBalanceUpdate_miss S.ID (S.Balance - req.Amount) (S.Version + 1) a
            (by rw [haid, hSid]; exact h2s),
          applyBalanceUpdate_miss fxS.ID (fxS.Balance + req.Amount) (fxS.Version + 1) a
            (by rw [haid]; exact h2fs),
          applyBalanceUpdate_miss fxD.ID (fxD.Balance - conv.DestAmount) (fxD.Version + 1) a
            (by rw [haid]; exact h2fd),
          applyBalanceUpdate_miss og.ID (og.Balance + conv.DestAmount) (og.Version + 1) a
            (by rw [haid]; exact h2o),
          applyBalanceUpdate_miss OG1.ID
            (reversalNewBalance ⟨OG1, EntryTypeDebit, p.DestAmount, p.DestCurrency⟩)
            (OG1.Version + 1) a (by rw [haid, hOG1id]; exact h2o),
          applyBalanceUpdate_miss FD1.ID
            (reversalNewBalance ⟨FD1, EntryTypeCredit, p.DestAmount, p.DestCurrency⟩)
            (FD1.Version + 1) a (by rw [haid, hFD1id]; exact h2fd),
          applyBalanceUpdate_miss FS1.ID
            (reversalNewBalance ⟨FS1, EntryTypeDebit, p.SourceAmount, p.SourceCurrency⟩)
            (FS1.Version + 1) a (by rw [haid, hFS1id]; exact h2fs),
          applyBalanceUpdate_miss S1.ID
            (reversalNewBalance ⟨S1, EntryTypeCredit, p.SourceAmount, p.SourceCurrency⟩)
            (S1.Version + 1) a (by rw [haid, hS1id, hSid]; exact h2s)]

/-- C3: when handleFailed reverses a failed external payout, the compensating
entries are written in the reverse order of the original entries with inverted
sides (same-currency: debit outgoing[dest] by dest_amount then credit sender
by source_amount; cross-currency: debit outgoing[dest], credit fx_pool[dest],
debit fx_pool[source], credit sender), every balance snapshot those entries
record is non-negative, and every account balance — sender, outgoing[dest]
and, for cross-currency, both fx pools — returns to its pre-payment value.
The bank-shape hypotheses say balances start non-negative, account ids are
unique, and the sender id names a user account. -/
theorem C3_reversal_reverses_and_restores :
    (∀ (bank : Bank) (req : ExternalPayoutRequest) (senderID pid : String)
       (now : ℤ) (p : Payment) (bank1 : Bank) (reason : String) (now2 : ℤ)
       (bank2 : Bank),
      executeSameCurrencyExternalPayout bank req senderID pid now = .ok (p, bank1) →
      handleFailed bank1 p reason now2 = .ok bank2 →
      0 ≤ req.Amount →
      req.SourceCurrency = req.DestCurrency →
      (∀ a ∈ bank.accounts, 0 ≤ a.Balance) →
      (bank.accounts.map (fun a => a.ID)).Nodup →
      (∀ a ∈ bank.accounts, a.ID = senderID → a.AccountType = AccountTypeUser) →
      ∃ E R, bank1.ledger = bank.ledger ++ E ∧ bank2.ledger = bank1.ledger ++ R ∧
        R.map entryShape = ((E.map entryShape).reverse).map invertShape ∧
        (∀ e ∈ R, 0 ≤ e.BalanceBefore ∧ 0 ≤ e.BalanceAfter) ∧
        (∀ id2, (findAccount bank2.accounts id2).map (fun a => a.Balance)
            = (findAccount bank.accounts id2).map (fun a => a.Balance))) ∧
    (∀ (s : Service) (bank : Bank) (req : ExternalPayoutRequest)
       (senderID pid : String) (now : ℤ) (p : Payment) (bank1 : Bank)
       (reason : String) (now2 : ℤ) (bank2 : Bank),
      executeCrossCurrencyExternalPayout s bank req senderID pid now = .ok (p, bank1) →
      handleFailed bank1 p reason now2 = .ok bank2 →
      req.SourceCurrency ≠ req.DestCurrency →
      (∀ a ∈ bank.accounts, 0 ≤ a.Balance) →
      (bank.accounts.map (fun a => a.ID)).Nodup →
      (∀ a ∈ bank.accounts, a.ID = senderID → a.AccountType = AccountTypeUser) →
      ∃ E R, bank1.ledger = bank.ledger ++ E ∧ bank2.ledger = bank1.ledger ++ R ∧
        R.map entryShape = ((E.map entryShape).reverse).map invertShape ∧
        (∀ e ∈ R, 0 ≤ e.BalanceBefore ∧ 0 ≤ e.BalanceAfter) ∧
        (∀ id2, (findAccount bank2.accounts id2).map (fun a => a.Balance)
            = (findAccount bank.accounts id2).map (fun a => a.Balance))) := by
  constructor
  · intro bank req senderID pid now p bank1 reason now2 bank2 hexec hfail hamt
      hsame hnn huniq huser
    exact reversal_same_currency_aux bank req senderID pid now p bank1 reason
      now2 bank2 hexec hfail hamt hsame hnn huniq huser
  · intro s bank req senderID pid now p bank1 reason now2 bank2 hexec hfail
      hcross hnn huniq huser
    exact reversal_cross_currency_aux s bank req senderID pid now p bank1 reason
      now2 bank2 hexec hfail hcross hnn huniq huser

set_option maxRecDepth 100000 in
/-- Witness for C3: a 4000 USD→USD payout and a 10000 USD→EUR payout, each
followed by its failure reversal on a concrete bank; the compensating entries
mirror the originals in reverse with inverted sides, their snapshots stay
non-negative, and all balances return to the pre-payment values. -/
theorem C3_reversal_reverses_and_restores_witness :
    (∃ E R,
      ([⟨"", "p2", "acc1", "debit", 4000, "USD", 10000, 6000, 7⟩,
        ⟨"", "p2", "og-usd", "credit", 4000, "USD", 0, 4000, 7⟩] : List LedgerEntry)
        = ([] : List LedgerEntry) ++ E ∧
      ([⟨"", "p2", "acc1", "debit", 4000, "USD", 10000, 6000, 7⟩,
        ⟨"", "p2", "og-usd", "credit", 4000, "USD", 0, 4000, 7⟩,
        ⟨"", "p2", "og-usd", "debit", 4000, "USD", 4000, 0, 9⟩,
        ⟨"", "p2", "acc1", "credit", 4000, "USD", 6000, 10000, 9⟩] : List LedgerEntry)
        = [⟨"", "p2", "acc1", "debit", 4000, "USD", 10000, 6000, 7⟩,
           ⟨"", "p2", "og-usd", "credit", 4000, "USD", 0, 4000, 7⟩] ++ R ∧
      R.map entryShape = ((E.map entryShape).reverse).map invertShape ∧
      (∀ e ∈ R, 0 ≤ e.BalanceBefore ∧ 0 ≤ e.BalanceAfter) ∧
      (∀ id2, (findAccount
          [⟨"acc1", "u1", "USD", "user", 10000, 3, none, none, none, none, none, none,
            "active", 0⟩,
           ⟨"og-usd", "00000000-0000-0000-0000-000000000001", "USD", "outgoing", 0, 3,
            none, none, none, none, none, none, "active", 0⟩] id2).map (fun a => a.Balance)
        = (findAccount
          [⟨"acc1", "u1", "USD", "user", 10000, 1, none, none, none, none, none, none,
            "active", 0⟩,
           ⟨"og-usd", "00000000-0000-0000-0000-000000000001", "USD", "outgoing", 0, 1,
            none, none, none, none, none, none, "active", 0⟩] id2).map (fun a => a.Balance))) ∧
    (∃ E R,
      ([⟨"", "p3", "acc1", "debit", 10000, "USD", 20000, 10000, 7⟩,
        ⟨"", "p3", "fx-usd", "credit", 10000, "USD", 0, 10000, 7⟩,
        ⟨"", "p3", "fx-eur", "debit", 9154, "EUR", 50000, 40846, 7⟩,
        ⟨"", "p3", "og-eur", "credit", 9154, "EUR", 0, 9154, 7⟩] : List LedgerEntry)
        = ([] : List LedgerEntry) ++ E ∧
      ([⟨"", "p3", "acc1", "debit", 10000, "USD", 20000, 10000, 7⟩,
        ⟨"", "p3", "fx-usd", "credit", 10000, "USD", 0, 10000, 7⟩,
        ⟨"", "p3", "fx-eur", "debit", 9154, "EUR", 50000, 40846, 7⟩,
        ⟨"", "p3", "og-eur", "credit", 9154, "EUR", 0, 9154, 7⟩,
        ⟨"", "p3", "og-eur", "debit", 9154, "EUR", 9154, 0, 9⟩,
        ⟨"", "p3", "fx-eur", "credit", 9154, "EUR", 40846, 50000, 9⟩,
        ⟨"", "p3", "fx-usd", "debit", 10000, "USD", 10000, 0, 9⟩,
        ⟨"", "p3", "acc1", "credit", 10000, "USD", 10000, 20000, 9⟩] : List LedgerEntry)
        = [⟨"", "p3", "acc1", "debit", 10000, "USD", 20000, 10000, 7⟩,
           ⟨"", "p3", "fx-usd", "credit", 10000, "USD", 0, 10000, 7⟩,
           ⟨"", "p3", "fx-eur", "debit", 9154, "EUR", 50000, 40846, 7⟩,
           ⟨"", "p3", "og-eur", "credit", 9154, "EUR", 0, 9154, 7⟩] ++ R ∧
      R.map entryShape = ((E.map entryShape).reverse).map invertShape ∧
      (∀ e ∈ R, 0 ≤ e.BalanceBefore ∧ 0 ≤ e.BalanceAfter) ∧
      (∀ id2, (findAccount
          [⟨"acc1", "u1", "USD", "user", 20000, 3, none, none, none, none, none, none,
            "active", 0⟩,
           ⟨"fx-usd", "00000000-0000-0000-0000-000000000001", "USD", "fx_pool", 0, 3,
            none, none, none, none, none, none, "active", 0⟩,
           ⟨"fx-eur", "00000000-0000-0000-0000-000000000001", "EUR", "fx_pool", 50000, 3,
            none, none, none, none, none, none, "active", 0⟩,
           ⟨"og-eur", "00000000-0000-0000-0000-000000000001", "EUR", "outgoing", 0, 3,
            none, none, none, none, none, none, "active", 0⟩] id2).map (fun a => a.Balance)
        = (findAccount
          [⟨"acc1", "u1", "USD", "user", 20000, 1, none, none, none, none, none, none,
            "active", 0⟩,
           ⟨"fx-usd", "00000000-0000-0000-0000-000000000001", "USD", "fx_pool", 0, 1,
            none, none, none, none, none, none, "active", 0⟩,
           ⟨"fx-eur", "00000000-0000-0000-0000-000000000001", "EUR", "fx_pool", 50000, 1,
            none, none, none, none, none, none, "active", 0⟩,
           ⟨"og-eur", "00000000-0000-0000-0000-000000000001", "EUR", "outgoing", 0, 1,
            none, none, none, none, none, none, "active", 0⟩] id2).map (fun a => a.Balance))) := by
  constructor
  · exact C3_reversal_reverses_and_restores.1
      ⟨[⟨"u1", "a@x", "A", none, "active", 0⟩],
       [⟨"acc1", "u1", "USD", "user", 10000, 1, none, none, none, none, none, none,
         "active", 0⟩,
        ⟨"og-usd", "00000000-0000-0000-0000-000000000001", "USD", "outgoing", 0, 1,
         none, none, none, none, none, none, "active", 0⟩],
       [], [], []⟩
      ⟨"u1", "USD", "USD", 4000, "DE89", "DB", "k2"⟩ "acc1" "p2" 7
      { emptyPayment with
          ID := "p2", IdempotencyKey := "k2", Type' := PaymentTypeExternalPayout,
          Status := PaymentStatusPending, SourceAccountID := "acc1",
          DestIBAN := some "DE89", DestBankName := some "DB",
          SourceAmount := 4000, SourceCurrency := "USD",
          DestAmount := 4000, DestCurrency := "USD", CreatedAt := 7, UpdatedAt := 7 }
      ⟨[⟨"u1", "a@x", "A", none, "active", 0⟩],
       [⟨"acc1", "u1", "USD", "user", 6000, 2, none, none, none, none, none, none,
         "active", 0⟩,
        ⟨"og-usd", "00000000-0000-0000-0000-000000000001", "USD", "outgoing", 4000, 2,
         none, none, none, none, none, none, "active", 0⟩],
       [{ emptyPayment with
            ID := "p2", IdempotencyKey := "k2", Type' := PaymentTypeExternalPayout,
            Status := PaymentStatusPending, SourceAccountID := "acc1",
            DestIBAN := some "DE89", DestBankName := some "DB",
            SourceAmount := 4000, SourceCurrency := "USD",
            DestAmount := 4000, DestCurrency := "USD", CreatedAt := 7, UpdatedAt := 7 }],
       [⟨"", "p2", "acc1", "debit", 4000, "USD", 10000, 6000, 7⟩,
        ⟨"", "p2", "og-usd", "credit", 4000, "USD", 0, 4000, 7⟩],
       [⟨"", "p2", "created", "user:u1", none, 7⟩]⟩
      "provider_declined" 9
      ⟨[⟨"u1", "a@x", "A", none, "active", 0⟩],
       [⟨"acc1", "u1", "USD", "user", 10000, 3, none, none, none, none, none, none,
         "active", 0⟩,
        ⟨"og-usd", "00000000-0000-0000-0000-000000000001", "USD", "outgoing", 0, 3,
         none, none, none, none, none, none, "active", 0⟩],
       [{ emptyPayment with
            ID := "p2", IdempotencyKey := "k2", Type' := PaymentTypeExternalPayout,
            Status := PaymentStatusFailed, SourceAccountID := "acc1",
            DestIBAN := some "DE89", DestBankName := some "DB",
            SourceAmount := 4000, SourceCurrency := "USD",
            DestAmount := 4000, DestCurrency := "USD",
            FailureReason := some "provider_declined",
            CreatedAt := 7, UpdatedAt := 9 }],
       [⟨"", "p2", "acc1", "debit", 4000, "USD", 10000, 6000, 7⟩,
        ⟨"", "p2", "og-usd", "credit", 4000, "USD", 0, 4000, 7⟩,
        ⟨"", "p2", "og-usd", "debit", 4000, "USD", 4000, 0, 9⟩,
        ⟨"", "p2", "acc1", "credit", 4000, "USD", 6000, 10000, 9⟩],
       [⟨"", "p2", "created", "user:u1", none, 7⟩,
        ⟨"", "p2", "failed", "system", some "provider_declined", 9⟩]⟩
      (by decide) (by decide) (by decide) rfl (by decide) (by decide) (by decide)
  · exact C3_reversal_reverses_and_restores.2
      ⟨⟨⟨5, 3⟩⟩, ⟨10000000, 9000000, 8000000⟩⟩
      ⟨[⟨"u1", "a@x", "A", none, "active", 0⟩],
       [⟨"acc1", "u1", "USD", "user", 20000, 1, none, none, none, none, none, none,
         "active", 0⟩,
        ⟨"fx-usd", "00000000-0000-0000-0000-000000000001", "USD", "fx_pool", 0, 1,
         none, none, none, none, none, none, "active", 0⟩,
        ⟨"fx-eur", "00000000-0000-0000-0000-000000000001", "EUR", "fx_pool", 50000, 1,
         none, none, none, none, none, none, "active", 0⟩,
        ⟨"og-eur", "00000000-0000-0000-0000-000000000001", "EUR", "outgoing", 0, 1,
         none, none, none, none, none, none, "active", 0⟩],
       [], [], []⟩
      ⟨"u1", "USD", "EUR", 10000, "DE89", "DB", "k3"⟩ "acc1" "p3" 7
      { emptyPayment with
          ID := "p3", IdempotencyKey := "k3", Type' := PaymentTypeExternalPayout,
          Status := PaymentStatusPending, SourceAccountID := "acc1",
          DestIBAN := some "DE89", DestBankName := some "DB",
          SourceAmount := 10000, SourceCurrency := "USD",
          DestAmount := 9154, DestCurrency := "EUR",
          ExchangeRate := some ⟨91540, 5⟩, FeeAmount := 46, FeeCurrency := some "EUR",
          CreatedAt := 7, UpdatedAt := 7 }
      ⟨[⟨"u1", "a@x", "A", none, "active", 0⟩],
       [⟨"acc1", "u1", "USD", "user", 10000, 2, none, none, none, none, none, none,
         "active", 0⟩,
        ⟨"fx-usd", "00000000-0000-0000-0000-000000000001", "USD", "fx_pool", 10000, 2,
         none, none, none, none, none, none, "active", 0⟩,
        ⟨"fx-eur", "00000000-0000-0000-0000-000000000001", "EUR", "fx_pool", 40846, 2,
         none, none, none, none, none, none, "active", 0⟩,
        ⟨"og-eur", "00000000-0000-0000-0000-000000000001", "EUR", "outgoing", 9154, 2,
         none, none, none, none, none, none, "active", 0⟩],
       [{ emptyPayment with
            ID := "p3", IdempotencyKey := "k3", Type' := PaymentTypeExternalPayout,
            Status := PaymentStatusPending, SourceAccountID := "acc1",
            DestIBAN := some "DE89", DestBankName := some "DB",
            SourceAmount := 10000, SourceCurrency := "USD",
            DestAmount := 9154, DestCurrency := "EUR",
            ExchangeRate := some ⟨91540, 5⟩, FeeAmount := 46, FeeCurrency := some "EUR",
            CreatedAt := 7, UpdatedAt := 7 }],
       [⟨"", "p3", "acc1", "debit", 10000, "USD", 20000, 10000, 7⟩,
        ⟨"", "p3", "fx-usd", "credit", 10000, "USD", 0, 10000, 7⟩,
        ⟨"", "p3", "fx-eur", "debit", 9154, "EUR", 50000, 40846, 7⟩,
        ⟨"", "p3", "og-eur", "credit", 9154, "EUR", 0, 9154, 7⟩],
       [⟨"", "p3", "created", "user:u1", none, 7⟩]⟩
      "provider_declined" 9
      ⟨[⟨"u1", "a@x", "A", none, "active", 0⟩],
       [⟨"acc1", "u1", "USD", "user", 20000, 3, none, none, none, none, none, none,
         "active", 0⟩,
        ⟨"fx-usd", "00000000-0000-0000-0000-000000000001", "USD", "fx_pool", 0, 3,
         none, none, none, none, none, none, "active", 0⟩,
        ⟨"fx-eur", "00000000-0000-0000-0000-000000000001", "EUR", "fx_pool", 50000, 3,
         none, none, none, none, none, none, "active", 0⟩,
        ⟨"og-eur", "00000000-0000-0000-0000-000000000001", "EUR", "outgoing", 0, 3,
         none, none, none, none, none, none, "active", 0⟩],
       [{ emptyPayment with
            ID := "p3", IdempotencyKey := "k3", Type' := PaymentTypeExternalPayout,
            Status := PaymentStatusFailed, SourceAccountID := "acc1",
            DestIBAN := some "DE89", DestBankName := some "DB",
            SourceAmount := 10000, SourceCurrency := "USD",
            DestAmount := 9154, DestCurrency := "EUR",
            ExchangeRate := some ⟨91540, 5⟩, FeeAmount := 46, FeeCurrency := some "EUR",
            FailureReason := some "provider_declined",
            CreatedAt := 7, UpdatedAt := 9 }],
       [⟨"", "p3", "acc1", "debit", 10000, "USD", 20000, 10000, 7⟩,
        ⟨"", "p3", "fx-usd", "credit", 10000, "USD", 0, 10000, 7⟩,
        ⟨"", "p3", "fx-eur", "debit", 9154, "EUR", 50000, 40846, 7⟩,
        ⟨"", "p3", "og-eur", "credit", 9154, "EUR", 0, 9154, 7⟩,
        ⟨"", "p3", "og-eur", "debit", 9154, "EUR", 9154, 0, 9⟩,
        ⟨"", "p3", "fx-eur", "credit", 9154, "EUR", 40846, 50000, 9⟩,
        ⟨"", "p3", "fx-usd", "debit", 10000, "USD", 10000, 0, 9⟩,
        ⟨"", "p3", "acc1", "credit", 10000, "USD", 10000, 20000, 9⟩],
       [⟨"", "p3", "created", "user:u1", none, 7⟩,
        ⟨"", "p3", "failed", "system", some "provider_declined", 9⟩]⟩
      (by decide) (by decide) (by decide) (by decide) (by decide) (by decide)

/-- C1: for every payment created by an internal transfer or an external
payout, and for every currency, the debit total equals the credit total over
that payment's ledger entries — both after the creating operation commits and
after a failure reversal appends its compensating entries.  The freshness
hypotheses say the new payment id and idempotency key are new, which the
unique indexes guarantee in the store. -/
theorem C1_per_currency_books_balance :
    (∀ (s : Service) (bank : Bank) (req : InternalTransferRequest)
       (pid : String) (now : ℤ) (p : Payment) (bank1 : Bank),
      CreateInternalTransfer s bank req pid now = .ok (p, bank1) →
      (∀ e ∈ bank.ledger, e.PaymentID ≠ p.ID) →
      balancedPerCurrency (entriesOfPayment bank1.ledger p.ID)) ∧
    (∀ (s : Service) (bank : Bank) (req : ExternalPayoutRequest)
       (pid : String) (now : ℤ) (p : Payment) (bank1 : Bank),
      CreateExternalPayout s bank req pid now = .ok (p, bank1) →
      (∀ e ∈ bank.ledger, e.PaymentID ≠ p.ID) →
      balancedPerCurrency (entriesOfPayment bank1.ledger p.ID)) ∧
    (∀ (s : Service) (bank : Bank) (req : ExternalPayoutRequest)
       (pid : String) (now : ℤ) (p : Payment) (bank1 : Bank)
       (reason : String) (now2 : ℤ) (bank2 : Bank),
      (∀ q ∈ bank.payments, q.IdempotencyKey ≠ req.IdempotencyKey) →
      CreateExternalPayout s bank req pid now = .ok (p, bank1) →
      handleFailed bank1 p reason now2 = .ok bank2 →
      (∀ e ∈ bank.ledger, e.PaymentID ≠ p.ID) →
      balancedPerCurrency (entriesOfPayment bank2.ledger p.ID)) := by
  have hext : ∀ (s : Service) (bank : Bank) (req : ExternalPayoutRequest)
      (pid : String) (now : ℤ) (p : Payment) (bank1 : Bank),
      (∀ q ∈ bank.payments, q.IdempotencyKey ≠ req.IdempotencyKey) →
      CreateExternalPayout s bank req pid now = .ok (p, bank1) →
      executeExternalPayout s bank req
        (match AccountRepository.GetByUserAndCurrency bank.accounts req.SenderUserID
            req.SourceCurrency AccountTypeUser with
         | .ok a => a.ID
         | .error _ => "") pid now = .ok (p, bank1) := by
    intro s bank req pid now p bank1 hkeys h
    have hnokey : PaymentRepository.GetByIdempotencyKey bank.payments req.IdempotencyKey
        = .error .notFound := by
      simp only [PaymentRepository.GetByIdempotencyKey]
      have : bank.payments.find? (fun q => q.IdempotencyKey == req.IdempotencyKey)
          = none := by
        rw [List.find?_eq_none]
        intro q hq
        simpa using hkeys q hq
      rw [this]
    simp only [CreateExternalPayout] at h
    cases hacct : AccountRepository.GetByUserAndCurrency bank.accounts req.SenderUserID
        req.SourceCurrency AccountTypeUser with
    | error e => rw [hacct] at h; cases e <;> simp only [] at h <;> cases h
    | ok senderAcct =>
    rw [hacct] at h
    simp only [checkExternalPayoutIdempotency, hnokey] at h
    cases hval : validateExternalPayout s req senderAcct with
    | error e => rw [hval] at h; cases h
    | ok u =>
    rw [hval] at h
    simp only [] at h
    cases hexec : executeExternalPayout s bank req senderAcct.ID pid now with
    | error e =>
      rw [hexec] at h
      cases e <;> simp only [checkExternalPayoutIdempotency, hnokey] at h <;> cases h
    | ok pb =>
      rw [hexec] at h
      simp only [] at h
      cases h
      rfl
  refine ⟨?_, ?_, ?_⟩
  · intro s bank req pid now p bank1 h hfresh
    simp only [CreateInternalTransfer] at h
    cases hres : resolveTransferAccounts bank req with
    | error e => rw [hres] at h; cases h
    | ok pair =>
    rw [hres] at h
    simp only [] at h
    cases hval : validateTransfer s req pair.1 pair.2 with
    | error e => rw [hval] at h; cases h
    | ok u =>
    rw [hval] at h
    simp only [] at h
    cases hexec : executeTransfer s bank req pair.1.ID pair.2.ID pid now with
    | error e => rw [hexec] at h; cases e <;> simp only [] at h <;> cases h
    | ok pb =>
    rw [hexec] at h
    simp only [] at h
    cases h
    obtain ⟨E, hledger, hall, hbalE⟩ :=
      executeTransfer_entries s bank req pair.1.ID pair.2.ID pid now p bank1 hexec
    rw [hledger, entriesOfPayment_append _ _ _ hfresh hall]
    exact hbalE
  · intro s bank req pid now p bank1 h hfresh
    simp only [CreateExternalPayout] at h
    cases hacct : AccountRepository.GetByUserAndCurrency bank.accounts req.SenderUserID
        req.SourceCurrency AccountTypeUser with
    | error e => rw [hacct] at h; cases e <;> simp only [] at h <;> cases h
    | ok senderAcct =>
    rw [hacct] at h
    simp only [] at h
    cases hchk : checkExternalPayoutIdempotency bank req senderAcct.ID with
    | error e => rw [hchk] at h; cases h
    | ok existing? =>
    rw [hchk] at h
    cases existing? with
    | some existing =>
      simp only [] at h
      cases h
      rw [entriesOfPayment_nil _ _ hfresh]
      exact balancedPerCurrency_nil
    | none =>
    simp only [] at h
    cases hval : validateExternalPayout s req senderAcct with
    | error e => rw [hval] at h; cases h
    | ok u =>
    rw [hval] at h
    simp only [] at h
    cases hexec : executeExternalPayout s bank req senderAcct.ID pid now with
    | error e =>
      rw [hexec] at h
      cases e <;> simp only [] at h <;> cases h
    | ok pb =>
    rw [hexec] at h
    simp only [] at h
    cases h
    obtain ⟨hpid, hsc, hdc, hsame, E, hledger, hall, hbalE⟩ :=
      executeExternalPayout_entries s bank req senderAcct.ID pid now p bank1 hexec
    rw [hledger, entriesOfPayment_append _ _ _ hfresh hall]
    exact hbalE
  · intro s bank req pid now p bank1 reason now2 bank2 hkeys h hfail hfresh
    have hexec := hext s bank req pid now p bank1 hkeys h
    obtain ⟨hpid, hsc, hdc, hsame, E, hledger, hall, hbalE⟩ :=
      executeExternalPayout_entries s bank req _ pid now p bank1 hexec
    have hamount : p.SourceCurrency = p.DestCurrency →
        p.DestAmount = p.SourceAmount := by
      intro hc
      apply hsame
      rw [← hsc, ← hdc]
      exact hc
    obtain ⟨R, hledger2, hallR, hbalR⟩ :=
      handleFailed_entries bank1 p reason now2 bank2 hamount hfail
    rw [hledger2, hledger, List.append_assoc,
      entriesOfPayment_append _ _ _ hfresh ?hallER]
    case hallER =>
      intro e he
      rcases List.mem_append.mp he with h1 | h1
      · exact hall e h1
      · exact hallR e h1
    exact balancedPerCurrency_append _ _ hbalE hbalR

set_option maxRecDepth 100000 in
/-- Witness for C1: a same-currency internal transfer and an external payout
followed by its failure reversal, evaluated on a concrete bank; the entry sets
of both payments balance. -/
theorem C1_per_currency_books_balance_witness :
    balancedPerCurrency (entriesOfPayment
      [⟨"", "p1", "acc1", "debit", 3000, "USD", 10000, 7000, 7⟩,
       ⟨"", "p1", "acc2", "credit", 3000, "USD", 5000, 8000, 7⟩] "p1") ∧
    balancedPerCurrency (entriesOfPayment
      [⟨"", "p2", "acc1", "debit", 4000, "USD", 10000, 6000, 7⟩,
       ⟨"", "p2", "og-usd", "credit", 4000, "USD", 0, 4000, 7⟩,
       ⟨"", "p2", "og-usd", "debit", 4000, "USD", 4000, 0, 9⟩,
       ⟨"", "p2", "acc1", "credit", 4000, "USD", 6000, 10000, 9⟩] "p2") := by
  constructor
  · exact C1_per_currency_books_balance.1 ⟨⟨⟨5, 3⟩⟩, ⟨10000000, 9000000, 8000000⟩⟩
      ⟨[⟨"u1", "a@x", "A", none, "active", 0⟩, ⟨"u2", "b@x", "B", some "btag", "active", 0⟩],
       [⟨"acc1", "u1", "USD", "user", 10000, 1, none, none, none, none, none, none, "active", 0⟩,
        ⟨"acc2", "u2", "USD", "user", 5000, 1, none, none, none, none, none, none, "active", 0⟩],
       [], [], []⟩
      ⟨"u1", "btag", "USD", "USD", 3000, "k1"⟩ "p1" 7
      { emptyPayment with
          ID := "p1", IdempotencyKey := "k1", Type' := PaymentTypeInternalTransfer,
          Status := PaymentStatusCompleted, SourceAccountID := "acc1",
          DestAccountID := some "acc2", SourceAmount := 3000, SourceCurrency := "USD",
          DestAmount := 3000, DestCurrency := "USD", CreatedAt := 7, UpdatedAt := 7,
          CompletedAt := some 7 }
      ⟨[⟨"u1", "a@x", "A", none, "active", 0⟩, ⟨"u2", "b@x", "B", some "btag", "active", 0⟩],
       [⟨"acc1", "u1", "USD", "user", 7000, 2, none, none, none, none, none, none, "active", 0⟩,
        ⟨"acc2", "u2", "USD", "user", 8000, 2, none, none, none, none, none, none, "active", 0⟩],
       [{ emptyPayment with
            ID := "p1", IdempotencyKey := "k1", Type' := PaymentTypeInternalTransfer,
            Status := PaymentStatusCompleted, SourceAccountID := "acc1",
            DestAccountID := some "acc2", SourceAmount := 3000, SourceCurrency := "USD",
            DestAmount := 3000, DestCurrency := "USD", CreatedAt := 7, UpdatedAt := 7,
            CompletedAt := some 7 }],
       [⟨"", "p1", "acc1", "debit", 3000, "USD", 10000, 7000, 7⟩,
        ⟨"", "p1", "acc2", "credit", 3000, "USD", 5000, 8000, 7⟩],
       [⟨"", "p1", "completed", "user:u1", none, 7⟩]⟩
      (by decide) (by decide)
  · exact C1_per_currency_books_balance.2.2 ⟨⟨⟨5, 3⟩⟩, ⟨10000000, 9000000, 8000000⟩⟩
      ⟨[⟨"u1", "a@x", "A", none, "active", 0⟩],
       [⟨"acc1", "u1", "USD", "user", 10000, 1, none, none, none, none, none, none, "active", 0⟩,
        ⟨"og-usd", "00000000-0000-0000-0000-000000000001", "USD", "outgoing", 0, 1,
         none, none, none, none, none, none, "active", 0⟩],
       [], [], []⟩
      ⟨"u1", "USD", "USD", 4000, "DE89", "DB", "k2"⟩ "p2" 7
      { emptyPayment with
          ID := "p2", IdempotencyKey := "k2", Type' := PaymentTypeExternalPayout,
          Status := PaymentStatusPending, SourceAccountID := "acc1",
          DestIBAN := some "DE89", DestBankName := some "DB",
          SourceAmount := 4000, SourceCurrency := "USD",
          DestAmount := 4000, DestCurrency := "USD", CreatedAt := 7, UpdatedAt := 7 }
      ⟨[⟨"u1", "a@x", "A", none, "active", 0⟩],
       [⟨"acc1", "u1", "USD", "user", 6000, 2, none, none, none, none, none, none, "active", 0⟩,
        ⟨"og-usd", "00000000-0000-0000-0000-000000000001", "USD", "outgoing", 4000, 2,
         none, none, none, none, none, none, "active", 0⟩],
       [{ emptyPayment with
            ID := "p2", IdempotencyKey := "k2", Type' := PaymentTypeExternalPayout,
            Status := PaymentStatusPending, SourceAccountID := "acc1",
            DestIBAN := some "DE89", DestBankName := some "DB",
            SourceAmount := 4000, SourceCurrency := "USD",
            DestAmount := 4000, DestCurrency := "USD", CreatedAt := 7, UpdatedAt := 7 }],
       [⟨"", "p2", "acc1", "debit", 4000, "USD", 10000, 6000, 7⟩,
        ⟨"", "p2", "og-usd", "credit", 4000, "USD", 0, 4000, 7⟩],
       [⟨"", "p2", "created", "user:u1", none, 7⟩]⟩
      "provider_declined" 9
      ⟨[⟨"u1", "a@x", "A", none, "active", 0⟩],
       [⟨"acc1", "u1", "USD", "user", 10000, 3, none, none, none, none, none, none, "active", 0⟩,
        ⟨"og-usd", "00000000-0000-0000-0000-000000000001", "USD", "outgoing", 0, 3,
         none, none, none, none, none, none, "active", 0⟩],
       [{ emptyPayment with
            ID := "p2", IdempotencyKey := "k2", Type' := PaymentTypeExternalPayout,
            Status := PaymentStatusFailed, SourceAccountID := "acc1",
            DestIBAN := some "DE89", DestBankName := some "DB",
            SourceAmount := 4000, SourceCurrency := "USD",
            DestAmount := 4000, DestCurrency := "USD",
            FailureReason := some "provider_declined",
            CreatedAt := 7, UpdatedAt := 9 }],
       [⟨"", "p2", "acc1", "debit", 4000, "USD", 10000, 6000, 7⟩,
        ⟨"", "p2", "og-usd", "credit", 4000, "USD", 0, 4000, 7⟩,
        ⟨"", "p2", "og-usd", "debit", 4000, "USD", 4000, 0, 9⟩,
        ⟨"", "p2", "acc1", "credit", 4000, "USD", 6000, 10000, 9⟩],
       [⟨"", "p2", "created", "user:u1", none, 7⟩,
        ⟨"", "p2", "failed", "system", some "provider_declined", 9⟩]⟩
      (by decide) (by decide) (by decide) (by decide)

end Grey
